import Mathlib

/-!
Verification of the NES emulator core (nes-emulator-wasm) against its
natural-language specification.

Shallow embedding conventions:
  - machine integers (u8, u16, u64) are modelled as Nat with explicit
    truncation (percent 256, percent 65536, percent 2 to the 64) at the points
    where the source relies on wrapping;
  - byte arrays and lookup tables are modelled as functions Nat to Nat or as
    List Nat;
  - fallible or panicking code paths return Option, with none standing for a
    Rust panic;
  - the serialized save-state stream is modelled as a list of value tokens.
-/

namespace Nes

/-! ## Serialization primitives (Savable)

Modelled from the spec: the file serialization.rs, which implements the
Savable trait for the primitive integer and bool types, is not among the
sources (only the Savable implementations for the emulator structs are).
Per the spec a save is a byte-for-byte serialization of each listed field in
order and a load reads the fields back in the same order; we model each
primitive save as emitting exactly one token carrying the value and each
primitive load as consuming exactly one token. -/

def saveNat (v : Nat) : List Nat := [v]

def loadNat : List Nat → Option (Nat × List Nat)
  | [] => none
  | t :: r => some (t, r)

def saveBool (b : Bool) : List Nat := [if b then 1 else 0]

def loadBool : List Nat → Option (Bool × List Nat)
  | [] => none
  | t :: r => some (decide (t ≠ 0), r)

/-! ## PPU frame state serialization (console/ppu.rs)

The Sprite and Frame structs and their Savable implementations, translated
field for field from console/ppu.rs. The Rust Frame field sprites is an
array of 8 Sprite entries, modelled as a List Sprite of length 8. -/

structure Sprite where
  index : Nat
  x : Nat
  y : Nat
  tile_index : Nat
  palette : Nat
  pattern : Nat
  has_priority : Bool
  flip_horizontal : Bool
  flip_vertical : Bool
deriving DecidableEq

def Sprite.new : Sprite :=
  { index := 0, x := 0, y := 0, tile_index := 0, palette := 0, pattern := 0,
    has_priority := false, flip_horizontal := false, flip_vertical := false }

def Sprite.save (s : Sprite) : List Nat :=
  saveNat s.index ++ saveNat s.x ++ saveNat s.y ++ saveNat s.tile_index ++
  saveNat s.palette ++ saveNat s.pattern ++ saveBool s.has_priority ++
  saveBool s.flip_horizontal ++ saveBool s.flip_vertical

def Sprite.load (bytes : List Nat) (s : Sprite) : Option (Sprite × List Nat) := do
  let (index, bytes) ← loadNat bytes
  let (x, bytes) ← loadNat bytes
  let (y, bytes) ← loadNat bytes
  let (tile_index, bytes) ← loadNat bytes
  let (palette, bytes) ← loadNat bytes
  let (pattern, bytes) ← loadNat bytes
  let (has_priority, bytes) ← loadBool bytes
  let (flip_horizontal, bytes) ← loadBool bytes
  let (flip_vertical, bytes) ← loadBool bytes
  some ({ s with
          index := index, x := x, y := y, tile_index := tile_index,
          palette := palette, pattern := pattern, has_priority := has_priority,
          flip_horizontal := flip_horizontal,
          flip_vertical := flip_vertical }, bytes)

def saveSprites (l : List Sprite) : List Nat := l.flatMap Sprite.save

def loadSprites (bytes : List Nat) (l : List Sprite) :
    Option (List Sprite × List Nat) :=
  match l with
  | [] => some ([], bytes)
  | s :: rest => do
      let (s2, bytes) ← Sprite.load bytes s
      let (rest2, bytes) ← loadSprites bytes rest
      some (s2 :: rest2, bytes)

structure Frame where
  num : Nat
  parity : Bool
  tile_lo : Nat
  tile_hi : Nat
  nametable : Nat
  «attribute» : Nat
  tile_data : Nat
  sprite_count : Nat
  sprite_zero_on_line : Bool
  sprites : List Sprite
deriving DecidableEq

def Frame.new : Frame :=
  { num := 0, parity := false, nametable := 0, «attribute» := 0, tile_lo := 0,
    tile_hi := 0, tile_data := 0, sprite_count := 0,
    sprite_zero_on_line := false, sprites := List.replicate 8 Sprite.new }

/-- Savable for Frame, save: the exact field list written by the source
(console/ppu.rs); note which fields of the struct appear in it. -/
def Frame.save (f : Frame) : List Nat :=
  saveNat f.num ++ saveBool f.parity ++ saveNat f.tile_lo ++
  saveNat f.tile_hi ++ saveNat f.nametable ++ saveNat f.«attribute» ++
  saveNat f.tile_data ++ saveNat f.sprite_count ++ saveSprites f.sprites

/-- Savable for Frame, load: reads the same field list back into self. -/
def Frame.load (bytes : List Nat) (f : Frame) : Option (Frame × List Nat) := do
  let (num, bytes) ← loadNat bytes
  let (parity, bytes) ← loadBool bytes
  let (tile_lo, bytes) ← loadNat bytes
  let (tile_hi, bytes) ← loadNat bytes
  let (nametable, bytes) ← loadNat bytes
  let («attribute», bytes) ← loadNat bytes
  let (tile_data, bytes) ← loadNat bytes
  let (sprite_count, bytes) ← loadNat bytes
  let (sprites, bytes) ← loadSprites bytes f.sprites
  some ({ f with
          num := num, parity := parity, tile_lo := tile_lo,
          tile_hi := tile_hi, nametable := nametable,
          «attribute» := «attribute», tile_data := tile_data,
          sprite_count := sprite_count, sprites := sprites }, bytes)

/-! ## PPU palette (console/ppu.rs, Memory for Palette)

The 32-entry palette RAM. The source guard
  addr greater or equal 16 and addr.trailing_zeros() greater or equal 2
tests that addr is at least 16 and divisible by 4 (for a u16, trailing_zeros
at least 2 holds exactly for the multiples of 4, including 0). -/

def palette_index (addr : Nat) : Nat :=
  if 16 ≤ addr ∧ addr % 4 = 0 then addr - 16 else addr

def Palette.peek (p : Nat → Nat) (addr : Nat) : Nat :=
  p (palette_index addr)

def Palette.write (p : Nat → Nat) (addr v : Nat) : Nat → Nat :=
  fun i => if i = palette_index addr then v % 256 else p i

/-- Memory for Vram routes PPU addresses 3F00 through 3FFF to the palette at
index addr mod 32 (PALETTE_SIZE). -/
def Vram.palette_peek (p : Nat → Nat) (addr : Nat) : Nat :=
  Palette.peek p (addr % 32)

def Vram.palette_write (p : Nat → Nat) (addr v : Nat) : Nat → Nat :=
  Palette.write p (addr % 32) v

/-! ## APU noise channel (console/apu.rs) -/

structure LengthCounter where
  enabled : Bool
  counter : Nat
deriving DecidableEq

def LengthCounter.LENGTH_TABLE : List Nat :=
  [10, 254, 20, 2, 40, 4, 80, 6, 160, 8, 60, 10, 14, 12, 26, 14, 12, 16, 24,
   18, 48, 20, 96, 22, 192, 24, 72, 26, 16, 28, 32, 30]

def LengthCounter.new : LengthCounter := { enabled := false, counter := 0 }

def LengthCounter.clock (l : LengthCounter) : LengthCounter :=
  if l.enabled ∧ l.counter > 0 then { l with counter := l.counter - 1 } else l

def LengthCounter.load_value (l : LengthCounter) (v : Nat) : LengthCounter :=
  { l with counter := LengthCounter.LENGTH_TABLE.getD ((v % 256) >>> 3) 0 }

def LengthCounter.write_control (l : LengthCounter) (v : Nat) : LengthCounter :=
  { l with enabled := ((v >>> 5) &&& 1) = 0 }

structure Envelope where
  enabled : Bool
  loops : Bool
  reset : Bool
  volume : Nat
  constant_volume : Nat
  counter : Nat
deriving DecidableEq

def Envelope.new : Envelope :=
  { enabled := false, loops := false, reset := false, volume := 0,
    constant_volume := 0, counter := 0 }

def Envelope.clock (e : Envelope) : Envelope :=
  if e.reset then
    { e with reset := false, volume := 0x0F, counter := e.constant_volume }
  else if e.counter > 0 then
    { e with counter := e.counter - 1 }
  else if e.volume > 0 then
    { e with counter := e.constant_volume, volume := e.volume - 1 }
  else if e.loops then
    { e with counter := e.constant_volume, volume := 0x0F }
  else
    { e with counter := e.constant_volume }

def Envelope.write_control (e : Envelope) (v : Nat) : Envelope :=
  { e with loops := ((v >>> 5) &&& 1) = 1,
           enabled := ((v >>> 4) &&& 1) = 0,
           constant_volume := v &&& 0x0F }

inductive ShiftMode
  | zero
  | one
deriving DecidableEq

structure Noise where
  enabled : Bool
  freq_timer : Nat
  freq_counter : Nat
  shift : Nat
  shift_mode : ShiftMode
  length : LengthCounter
  envelope : Envelope
deriving DecidableEq

def Noise.FREQ_TABLE : List Nat :=
  [4, 8, 16, 32, 64, 96, 128, 160, 202, 254, 380, 508, 762, 1016, 2034, 4068]

/-- Noise has SHIFT_BIT_15_MASK equal to the u16 complement of 0x8000. -/
def Noise.SHIFT_BIT_15_MASK : Nat := 0x7FFF

def Noise.new : Noise :=
  { enabled := false, freq_timer := 0, freq_counter := 0,
    shift := 1, shift_mode := ShiftMode.zero,
    length := LengthCounter.new, envelope := Envelope.new }

def Noise.clock (n : Noise) : Noise :=
  if n.freq_counter > 0 then
    { n with freq_counter := n.freq_counter - 1 }
  else
    let shift_amount := if n.shift_mode = ShiftMode.one then 6 else 1
    let bit1 := n.shift &&& 1
    let bit2 := (n.shift >>> shift_amount) &&& 1
    let s := (n.shift &&& Noise.SHIFT_BIT_15_MASK) ||| ((bit1 ^^^ bit2) <<< 14)
    { n with freq_counter := n.freq_timer, shift := s >>> 1 }

def Noise.clock_quarter_frame (n : Noise) : Noise :=
  { n with envelope := n.envelope.clock }

def Noise.clock_half_frame (n : Noise) : Noise :=
  { n with length := n.length.clock }

def Noise.write_control (n : Noise) (v : Nat) : Noise :=
  { n with length := n.length.write_control v,
           envelope := n.envelope.write_control v }

def Noise.write_timer (n : Noise) (v : Nat) : Noise :=
  { n with freq_timer := Noise.FREQ_TABLE.getD (v &&& 0x0F) 0,
           shift_mode := if ((v >>> 7) &&& 1) = 1 then ShiftMode.one
                         else ShiftMode.zero }

def Noise.write_length (n : Noise) (v : Nat) : Noise :=
  let n := if n.enabled then { n with length := n.length.load_value v } else n
  { n with envelope := { n.envelope with reset := true } }

/-- Apu write_status ($4015) bit 3 gates the noise channel: it sets enabled
and zeroes the length counter when disabling. -/
def Noise.set_enabled (n : Noise) (b : Bool) : Noise :=
  let n := { n with enabled := b }
  if ¬ b then { n with length := { n.length with counter := 0 } } else n

/-- The operations that ever touch the Noise struct during emulation:
Noise.clock from Apu.clock, the quarter and half frame clocks from the frame
counter, the register writes for $400C, $400E and $400F, the $4015 enable
gate, and reset. -/
inductive NoiseOp
  | clock
  | quarter
  | half
  | reset
  | writeControl (v : Nat)
  | writeTimer (v : Nat)
  | writeLength (v : Nat)
  | setEnabled (b : Bool)

def Noise.applyOp (o : NoiseOp) (n : Noise) : Noise :=
  match o with
  | NoiseOp.clock => n.clock
  | NoiseOp.quarter => n.clock_quarter_frame
  | NoiseOp.half => n.clock_half_frame
  | NoiseOp.reset => Noise.new
  | NoiseOp.writeControl v => n.write_control v
  | NoiseOp.writeTimer v => n.write_timer v
  | NoiseOp.writeLength v => n.write_length v
  | NoiseOp.setEnabled b => n.set_enabled b

def Noise.applyOps (ops : List NoiseOp) (n : Noise) : Noise :=
  match ops with
  | [] => n
  | o :: rest => Noise.applyOps rest (Noise.applyOp o n)

/-! ## CPU (console/cpu.rs)

The 6502 core. The Rust Cpu is generic over its bus (a type implementing the
Memory trait, whose reads may have side effects); we instantiate the bus with
a byte map that also records the sequence of addresses read, so that the dummy
reads the spec talks about are observable. The u64 cycle counter wraps at
2 to the 64 exactly where the source uses wrapping_add and wrapping
subtraction. -/

def U64_MOD : Nat := 2 ^ 64

def NMI_ADDR : Nat := 0xFFFA

def IRQ_ADDR : Nat := 0xFFFE

def RESET_ADDR : Nat := 0xFFFC

def POWER_ON_SP : Nat := 0xFD

def POWER_ON_STATUS : Nat := 0x24

def POWER_ON_CYCLES : Nat := 7

def SP_BASE : Nat := 0x0100

namespace StatusRegs

def C : Nat := 1

def Z : Nat := 2

def I : Nat := 4

def D : Nat := 8

def B : Nat := 16

def U : Nat := 32

def V : Nat := 64

def N : Nat := 128

end StatusRegs

/-- The CPU bus: a byte map plus a log of every address read (in order).
This is one instance of the Memory trait the Rust Cpu is generic over. -/
structure Mem where
  data : Nat → Nat
  reads : List Nat

def Mem.read (m : Mem) (addr : Nat) : Nat × Mem :=
  (m.data (addr % 65536) % 256, { m with reads := m.reads ++ [addr % 65536] })

def Mem.write (m : Mem) (addr v : Nat) : Mem :=
  { m with data := fun a => if a = addr % 65536 then v % 256 else m.data a }

inductive Interrupt
  | none
  | irq
  | nmi
deriving DecidableEq

inductive Operation
  | ADC | AND | ASL | BCC | BCS | BEQ | BIT | BMI | BNE | BPL | BRK | BVC
  | BVS | CLC | CLD | CLI | CLV | CMP | CPX | CPY | DEC | DEX | DEY | EOR
  | INC | INX | INY | JMP | JSR | LDA | LDX | LDY | LSR | NOP | ORA | PHA
  | PHP | PLA | PLP | ROL | ROR | RTI | RTS | SBC | SEC | SED | SEI | STA
  | STX | STY | TAX | TAY | TSX | TXA | TXS | TYA | SKB | IGN | ISB | DCP
  | AXS | LAS | LAX | AHX | SAX | XAA | SHX | RRA | TAS | SHY | ARR | SRE
  | ALR | RLA | ANC | SLO | XXX
deriving DecidableEq

inductive AddrMode
  | IMM | ZP0 | ZPX | ZPY | ABS | ABX | ABY | IND | IDX | IDY | REL | ACC
  | IMP
deriving DecidableEq

/-- Instr(opcode, Addressing Mode, Operation, cycles taken). -/
structure Instr where
  opcode : Nat
  addr_mode : AddrMode
  op : Operation
  cycles : Nat
deriving DecidableEq

/-- The 16x16 opcode grid from console/cpu.rs, entry for entry. -/
def INSTRUCTIONS : List Instr := [
  Instr.mk 0x00 AddrMode.IMM Operation.BRK 7, Instr.mk 0x01 AddrMode.IDX Operation.ORA 6, Instr.mk 0x02 AddrMode.IMP Operation.XXX 2, Instr.mk 0x03 AddrMode.IDX Operation.SLO 8,
  Instr.mk 0x04 AddrMode.ZP0 Operation.NOP 3, Instr.mk 0x05 AddrMode.ZP0 Operation.ORA 3, Instr.mk 0x06 AddrMode.ZP0 Operation.ASL 5, Instr.mk 0x07 AddrMode.ZP0 Operation.SLO 5,
  Instr.mk 0x08 AddrMode.IMP Operation.PHP 3, Instr.mk 0x09 AddrMode.IMM Operation.ORA 2, Instr.mk 0x0A AddrMode.ACC Operation.ASL 2, Instr.mk 0x0B AddrMode.IMM Operation.ANC 2,
  Instr.mk 0x0C AddrMode.ABS Operation.NOP 4, Instr.mk 0x0D AddrMode.ABS Operation.ORA 4, Instr.mk 0x0E AddrMode.ABS Operation.ASL 6, Instr.mk 0x0F AddrMode.ABS Operation.SLO 6,
  Instr.mk 0x10 AddrMode.REL Operation.BPL 2, Instr.mk 0x11 AddrMode.IDY Operation.ORA 5, Instr.mk 0x12 AddrMode.IMP Operation.XXX 2, Instr.mk 0x13 AddrMode.IDY Operation.SLO 8,
  Instr.mk 0x14 AddrMode.ZPX Operation.NOP 4, Instr.mk 0x15 AddrMode.ZPX Operation.ORA 4, Instr.mk 0x16 AddrMode.ZPX Operation.ASL 6, Instr.mk 0x17 AddrMode.ZPX Operation.SLO 6,
  Instr.mk 0x18 AddrMode.IMP Operation.CLC 2, Instr.mk 0x19 AddrMode.ABY Operation.ORA 4, Instr.mk 0x1A AddrMode.IMP Operation.NOP 2, Instr.mk 0x1B AddrMode.ABY Operation.SLO 7,
  Instr.mk 0x1C AddrMode.ABX Operation.IGN 4, Instr.mk 0x1D AddrMode.ABX Operation.ORA 4, Instr.mk 0x1E AddrMode.ABX Operation.ASL 7, Instr.mk 0x1F AddrMode.ABX Operation.SLO 7,
  Instr.mk 0x20 AddrMode.ABS Operation.JSR 6, Instr.mk 0x21 AddrMode.IDX Operation.AND 6, Instr.mk 0x22 AddrMode.IMP Operation.XXX 2, Instr.mk 0x23 AddrMode.IDX Operation.RLA 8,
  Instr.mk 0x24 AddrMode.ZP0 Operation.BIT 3, Instr.mk 0x25 AddrMode.ZP0 Operation.AND 3, Instr.mk 0x26 AddrMode.ZP0 Operation.ROL 5, Instr.mk 0x27 AddrMode.ZP0 Operation.RLA 5,
  Instr.mk 0x28 AddrMode.IMP Operation.PLP 4, Instr.mk 0x29 AddrMode.IMM Operation.AND 2, Instr.mk 0x2A AddrMode.ACC Operation.ROL 2, Instr.mk 0x2B AddrMode.IMM Operation.ANC 2,
  Instr.mk 0x2C AddrMode.ABS Operation.BIT 4, Instr.mk 0x2D AddrMode.ABS Operation.AND 4, Instr.mk 0x2E AddrMode.ABS Operation.ROL 6, Instr.mk 0x2F AddrMode.ABS Operation.RLA 6,
  Instr.mk 0x30 AddrMode.REL Operation.BMI 2, Instr.mk 0x31 AddrMode.IDY Operation.AND 5, Instr.mk 0x32 AddrMode.IMP Operation.XXX 2, Instr.mk 0x33 AddrMode.IDY Operation.RLA 8,
  Instr.mk 0x34 AddrMode.ZPX Operation.NOP 4, Instr.mk 0x35 AddrMode.ZPX Operation.AND 4, Instr.mk 0x36 AddrMode.ZPX Operation.ROL 6, Instr.mk 0x37 AddrMode.ZPX Operation.RLA 6,
  Instr.mk 0x38 AddrMode.IMP Operation.SEC 2, Instr.mk 0x39 AddrMode.ABY Operation.AND 4, Instr.mk 0x3A AddrMode.IMP Operation.NOP 2, Instr.mk 0x3B AddrMode.ABY Operation.RLA 7,
  Instr.mk 0x3C AddrMode.ABX Operation.IGN 4, Instr.mk 0x3D AddrMode.ABX Operation.AND 4, Instr.mk 0x3E AddrMode.ABX Operation.ROL 7, Instr.mk 0x3F AddrMode.ABX Operation.RLA 7,
  Instr.mk 0x40 AddrMode.IMP Operation.RTI 6, Instr.mk 0x41 AddrMode.IDX Operation.EOR 6, Instr.mk 0x42 AddrMode.IMP Operation.XXX 2, Instr.mk 0x43 AddrMode.IDX Operation.SRE 8,
  Instr.mk 0x44 AddrMode.ZP0 Operation.NOP 3, Instr.mk 0x45 AddrMode.ZP0 Operation.EOR 3, Instr.mk 0x46 AddrMode.ZP0 Operation.LSR 5, Instr.mk 0x47 AddrMode.ZP0 Operation.SRE 5,
  Instr.mk 0x48 AddrMode.IMP Operation.PHA 3, Instr.mk 0x49 AddrMode.IMM Operation.EOR 2, Instr.mk 0x4A AddrMode.ACC Operation.LSR 2, Instr.mk 0x4B AddrMode.IMM Operation.ALR 2,
  Instr.mk 0x4C AddrMode.ABS Operation.JMP 3, Instr.mk 0x4D AddrMode.ABS Operation.EOR 4, Instr.mk 0x4E AddrMode.ABS Operation.LSR 6, Instr.mk 0x4F AddrMode.ABS Operation.SRE 6,
  Instr.mk 0x50 AddrMode.REL Operation.BVC 2, Instr.mk 0x51 AddrMode.IDY Operation.EOR 5, Instr.mk 0x52 AddrMode.IMP Operation.XXX 2, Instr.mk 0x53 AddrMode.IDY Operation.SRE 8,
  Instr.mk 0x54 AddrMode.ZPX Operation.NOP 4, Instr.mk 0x55 AddrMode.ZPX Operation.EOR 4, Instr.mk 0x56 AddrMode.ZPX Operation.LSR 6, Instr.mk 0x57 AddrMode.ZPX Operation.SRE 6,
  Instr.mk 0x58 AddrMode.IMP Operation.CLI 2, Instr.mk 0x59 AddrMode.ABY Operation.EOR 4, Instr.mk 0x5A AddrMode.IMP Operation.NOP 2, Instr.mk 0x5B AddrMode.ABY Operation.SRE 7,
  Instr.mk 0x5C AddrMode.ABX Operation.IGN 4, Instr.mk 0x5D AddrMode.ABX Operation.EOR 4, Instr.mk 0x5E AddrMode.ABX Operation.LSR 7, Instr.mk 0x5F AddrMode.ABX Operation.SRE 7,
  Instr.mk 0x60 AddrMode.IMP Operation.RTS 6, Instr.mk 0x61 AddrMode.IDX Operation.ADC 6, Instr.mk 0x62 AddrMode.IMP Operation.XXX 2, Instr.mk 0x63 AddrMode.IDX Operation.RRA 8,
  Instr.mk 0x64 AddrMode.ZP0 Operation.NOP 3, Instr.mk 0x65 AddrMode.ZP0 Operation.ADC 3, Instr.mk 0x66 AddrMode.ZP0 Operation.ROR 5, Instr.mk 0x67 AddrMode.ZP0 Operation.RRA 5,
  Instr.mk 0x68 AddrMode.IMP Operation.PLA 4, Instr.mk 0x69 AddrMode.IMM Operation.ADC 2, Instr.mk 0x6A AddrMode.ACC Operation.ROR 2, Instr.mk 0x6B AddrMode.IMM Operation.ARR 2,
  Instr.mk 0x6C AddrMode.IND Operation.JMP 5, Instr.mk 0x6D AddrMode.ABS Operation.ADC 4, Instr.mk 0x6E AddrMode.ABS Operation.ROR 6, Instr.mk 0x6F AddrMode.ABS Operation.RRA 6,
  Instr.mk 0x70 AddrMode.REL Operation.BVS 2, Instr.mk 0x71 AddrMode.IDY Operation.ADC 5, Instr.mk 0x72 AddrMode.IMP Operation.XXX 2, Instr.mk 0x73 AddrMode.IDY Operation.RRA 8,
  Instr.mk 0x74 AddrMode.ZPX Operation.NOP 4, Instr.mk 0x75 AddrMode.ZPX Operation.ADC 4, Instr.mk 0x76 AddrMode.ZPX Operation.ROR 6, Instr.mk 0x77 AddrMode.ZPX Operation.RRA 6,
  Instr.mk 0x78 AddrMode.IMP Operation.SEI 2, Instr.mk 0x79 AddrMode.ABY Operation.ADC 4, Instr.mk 0x7A AddrMode.IMP Operation.NOP 2, Instr.mk 0x7B AddrMode.ABY Operation.RRA 7,
  Instr.mk 0x7C AddrMode.ABX Operation.IGN 4, Instr.mk 0x7D AddrMode.ABX Operation.ADC 4, Instr.mk 0x7E AddrMode.ABX Operation.ROR 7, Instr.mk 0x7F AddrMode.ABX Operation.RRA 7,
  Instr.mk 0x80 AddrMode.IMM Operation.SKB 2, Instr.mk 0x81 AddrMode.IDX Operation.STA 6, Instr.mk 0x82 AddrMode.IMM Operation.SKB 2, Instr.mk 0x83 AddrMode.IDX Operation.SAX 6,
  Instr.mk 0x84 AddrMode.ZP0 Operation.STY 3, Instr.mk 0x85 AddrMode.ZP0 Operation.STA 3, Instr.mk 0x86 AddrMode.ZP0 Operation.STX 3, Instr.mk 0x87 AddrMode.ZP0 Operation.SAX 3,
  Instr.mk 0x88 AddrMode.IMP Operation.DEY 2, Instr.mk 0x89 AddrMode.IMM Operation.SKB 2, Instr.mk 0x8A AddrMode.IMP Operation.TXA 2, Instr.mk 0x8B AddrMode.IMM Operation.XAA 2,
  Instr.mk 0x8C AddrMode.ABS Operation.STY 4, Instr.mk 0x8D AddrMode.ABS Operation.STA 4, Instr.mk 0x8E AddrMode.ABS Operation.STX 4, Instr.mk 0x8F AddrMode.ABS Operation.SAX 4,
  Instr.mk 0x90 AddrMode.REL Operation.BCC 2, Instr.mk 0x91 AddrMode.IDY Operation.STA 6, Instr.mk 0x92 AddrMode.IMP Operation.XXX 2, Instr.mk 0x93 AddrMode.IDY Operation.AHX 6,
  Instr.mk 0x94 AddrMode.ZPX Operation.STY 4, Instr.mk 0x95 AddrMode.ZPX Operation.STA 4, Instr.mk 0x96 AddrMode.ZPY Operation.STX 4, Instr.mk 0x97 AddrMode.ZPY Operation.SAX 4,
  Instr.mk 0x98 AddrMode.IMP Operation.TYA 2, Instr.mk 0x99 AddrMode.ABY Operation.STA 5, Instr.mk 0x9A AddrMode.IMP Operation.TXS 2, Instr.mk 0x9B AddrMode.ABY Operation.TAS 5,
  Instr.mk 0x9C AddrMode.ABX Operation.SHY 5, Instr.mk 0x9D AddrMode.ABX Operation.STA 5, Instr.mk 0x9E AddrMode.ABY Operation.SHX 5, Instr.mk 0x9F AddrMode.ABY Operation.AHX 5,
  Instr.mk 0xA0 AddrMode.IMM Operation.LDY 2, Instr.mk 0xA1 AddrMode.IDX Operation.LDA 6, Instr.mk 0xA2 AddrMode.IMM Operation.LDX 2, Instr.mk 0xA3 AddrMode.IDX Operation.LAX 6,
  Instr.mk 0xA4 AddrMode.ZP0 Operation.LDY 3, Instr.mk 0xA5 AddrMode.ZP0 Operation.LDA 3, Instr.mk 0xA6 AddrMode.ZP0 Operation.LDX 3, Instr.mk 0xA7 AddrMode.ZP0 Operation.LAX 3,
  Instr.mk 0xA8 AddrMode.IMP Operation.TAY 2, Instr.mk 0xA9 AddrMode.IMM Operation.LDA 2, Instr.mk 0xAA AddrMode.IMP Operation.TAX 2, Instr.mk 0xAB AddrMode.IMM Operation.LAX 2,
  Instr.mk 0xAC AddrMode.ABS Operation.LDY 4, Instr.mk 0xAD AddrMode.ABS Operation.LDA 4, Instr.mk 0xAE AddrMode.ABS Operation.LDX 4, Instr.mk 0xAF AddrMode.ABS Operation.LAX 4,
  Instr.mk 0xB0 AddrMode.REL Operation.BCS 2, Instr.mk 0xB1 AddrMode.IDY Operation.LDA 5, Instr.mk 0xB2 AddrMode.IMP Operation.XXX 2, Instr.mk 0xB3 AddrMode.IDY Operation.LAX 5,
  Instr.mk 0xB4 AddrMode.ZPX Operation.LDY 4, Instr.mk 0xB5 AddrMode.ZPX Operation.LDA 4, Instr.mk 0xB6 AddrMode.ZPY Operation.LDX 4, Instr.mk 0xB7 AddrMode.ZPY Operation.LAX 4,
  Instr.mk 0xB8 AddrMode.IMP Operation.CLV 2, Instr.mk 0xB9 AddrMode.ABY Operation.LDA 4, Instr.mk 0xBA AddrMode.IMP Operation.TSX 2, Instr.mk 0xBB AddrMode.ABY Operation.LAS 4,
  Instr.mk 0xBC AddrMode.ABX Operation.LDY 4, Instr.mk 0xBD AddrMode.ABX Operation.LDA 4, Instr.mk 0xBE AddrMode.ABY Operation.LDX 4, Instr.mk 0xBF AddrMode.ABY Operation.LAX 4,
  Instr.mk 0xC0 AddrMode.IMM Operation.CPY 2, Instr.mk 0xC1 AddrMode.IDX Operation.CMP 6, Instr.mk 0xC2 AddrMode.IMM Operation.SKB 2, Instr.mk 0xC3 AddrMode.IDX Operation.DCP 8,
  Instr.mk 0xC4 AddrMode.ZP0 Operation.CPY 3, Instr.mk 0xC5 AddrMode.ZP0 Operation.CMP 3, Instr.mk 0xC6 AddrMode.ZP0 Operation.DEC 5, Instr.mk 0xC7 AddrMode.ZP0 Operation.DCP 5,
  Instr.mk 0xC8 AddrMode.IMP Operation.INY 2, Instr.mk 0xC9 AddrMode.IMM Operation.CMP 2, Instr.mk 0xCA AddrMode.IMP Operation.DEX 2, Instr.mk 0xCB AddrMode.IMM Operation.AXS 2,
  Instr.mk 0xCC AddrMode.ABS Operation.CPY 4, Instr.mk 0xCD AddrMode.ABS Operation.CMP 4, Instr.mk 0xCE AddrMode.ABS Operation.DEC 6, Instr.mk 0xCF AddrMode.ABS Operation.DCP 6,
  Instr.mk 0xD0 AddrMode.REL Operation.BNE 2, Instr.mk 0xD1 AddrMode.IDY Operation.CMP 5, Instr.mk 0xD2 AddrMode.IMP Operation.XXX 2, Instr.mk 0xD3 AddrMode.IDY Operation.DCP 8,
  Instr.mk 0xD4 AddrMode.ZPX Operation.NOP 4, Instr.mk 0xD5 AddrMode.ZPX Operation.CMP 4, Instr.mk 0xD6 AddrMode.ZPX Operation.DEC 6, Instr.mk 0xD7 AddrMode.ZPX Operation.DCP 6,
  Instr.mk 0xD8 AddrMode.IMP Operation.CLD 2, Instr.mk 0xD9 AddrMode.ABY Operation.CMP 4, Instr.mk 0xDA AddrMode.IMP Operation.NOP 2, Instr.mk 0xDB AddrMode.ABY Operation.DCP 7,
  Instr.mk 0xDC AddrMode.ABX Operation.IGN 4, Instr.mk 0xDD AddrMode.ABX Operation.CMP 4, Instr.mk 0xDE AddrMode.ABX Operation.DEC 7, Instr.mk 0xDF AddrMode.ABX Operation.DCP 7,
  Instr.mk 0xE0 AddrMode.IMM Operation.CPX 2, Instr.mk 0xE1 AddrMode.IDX Operation.SBC 6, Instr.mk 0xE2 AddrMode.IMM Operation.SKB 2, Instr.mk 0xE3 AddrMode.IDX Operation.ISB 8,
  Instr.mk 0xE4 AddrMode.ZP0 Operation.CPX 3, Instr.mk 0xE5 AddrMode.ZP0 Operation.SBC 3, Instr.mk 0xE6 AddrMode.ZP0 Operation.INC 5, Instr.mk 0xE7 AddrMode.ZP0 Operation.ISB 5,
  Instr.mk 0xE8 AddrMode.IMP Operation.INX 2, Instr.mk 0xE9 AddrMode.IMM Operation.SBC 2, Instr.mk 0xEA AddrMode.IMP Operation.NOP 2, Instr.mk 0xEB AddrMode.IMM Operation.SBC 2,
  Instr.mk 0xEC AddrMode.ABS Operation.CPX 4, Instr.mk 0xED AddrMode.ABS Operation.SBC 4, Instr.mk 0xEE AddrMode.ABS Operation.INC 6, Instr.mk 0xEF AddrMode.ABS Operation.ISB 6,
  Instr.mk 0xF0 AddrMode.REL Operation.BEQ 2, Instr.mk 0xF1 AddrMode.IDY Operation.SBC 5, Instr.mk 0xF2 AddrMode.IMP Operation.XXX 2, Instr.mk 0xF3 AddrMode.IDY Operation.ISB 8,
  Instr.mk 0xF4 AddrMode.ZPX Operation.NOP 4, Instr.mk 0xF5 AddrMode.ZPX Operation.SBC 4, Instr.mk 0xF6 AddrMode.ZPX Operation.INC 6, Instr.mk 0xF7 AddrMode.ZPX Operation.ISB 6,
  Instr.mk 0xF8 AddrMode.IMP Operation.SED 2, Instr.mk 0xF9 AddrMode.ABY Operation.SBC 4, Instr.mk 0xFA AddrMode.IMP Operation.NOP 2, Instr.mk 0xFB AddrMode.ABY Operation.ISB 7,
  Instr.mk 0xFC AddrMode.ABX Operation.IGN 4, Instr.mk 0xFD AddrMode.ABX Operation.SBC 4, Instr.mk 0xFE AddrMode.ABX Operation.INC 7, Instr.mk 0xFF AddrMode.ABX Operation.ISB 7
]

def Instr.default : Instr := ⟨0x02, AddrMode.IMP, Operation.XXX, 2⟩

def instrAt (opcode : Nat) : Instr := INSTRUCTIONS.getD opcode Instr.default

/-- The Central Processing Unit status and registers. The debug-only fields
(debugger, log_enabled, nestestlog) are compiled out of release builds and are
not modelled. -/
structure Cpu where
  mem : Mem
  cycle_count : Nat
  stall : Nat
  step : Nat
  pc : Nat
  sp : Nat
  acc : Nat
  x : Nat
  y : Nat
  status : Nat
  instr : Instr
  abs_addr : Nat
  rel_addr : Nat
  fetched_data : Nat
  interrupt : Interrupt

def Cpu.read (s : Cpu) (addr : Nat) : Nat × Cpu :=
  let (v, m) := s.mem.read addr
  (v, { s with mem := m })

/-- Copies 256 bytes from page XX00 to OAM via repeated bus reads and writes
to $2004 (the write to $2004 is not $4014, so it goes straight to the bus). -/
def Cpu.oamdmaLoop : Nat → Nat → Cpu → Cpu
  | 0, _, s => s
  | k + 1, addr, s =>
      let (v, s) := s.read addr
      let s := { s with mem := s.mem.write 0x2004 v }
      Cpu.oamdmaLoop k (min (addr + 1) 65535) s

def Cpu.write_oamdma (s : Cpu) (v : Nat) : Cpu :=
  let addr := (v % 256) <<< 8
  let s := Cpu.oamdmaLoop 256 addr s
  let s := { s with stall := s.stall + 513 }
  if s.cycle_count &&& 0x01 = 1 then { s with stall := s.stall + 1 } else s

def Cpu.write (s : Cpu) (addr v : Nat) : Cpu :=
  if addr % 65536 = 0x4014 then s.write_oamdma v
  else { s with mem := s.mem.write addr v }

def Cpu.get_flag (s : Cpu) (f : Nat) : Nat :=
  if s.status &&& f > 0 then 1 else 0

def Cpu.set_flag (s : Cpu) (f : Nat) (b : Bool) : Cpu :=
  if b then { s with status := s.status ||| f }
  else { s with status := s.status &&& (255 ^^^ f) }

def Cpu.set_flags_zn (s : Cpu) (v : Nat) : Cpu :=
  (s.set_flag StatusRegs.Z (v = 0)).set_flag StatusRegs.N (v &&& 0x80 = 0x80)

def Cpu.push_stackb (s : Cpu) (v : Nat) : Cpu :=
  let s := s.write (SP_BASE ||| s.sp) v
  { s with sp := (s.sp + 255) % 256 }

def Cpu.pop_stackb (s : Cpu) : Nat × Cpu :=
  let s := { s with sp := (s.sp + 1) % 256 }
  s.read (SP_BASE ||| s.sp)

def Cpu.push_stackw (s : Cpu) (v : Nat) : Cpu :=
  let lo := v &&& 0xFF
  let hi := v >>> 8
  let s := s.push_stackb hi
  s.push_stackb lo

def Cpu.pop_stackw (s : Cpu) : Nat × Cpu :=
  let (lo, s) := s.pop_stackb
  let (hi, s) := s.pop_stackb
  (hi <<< 8 ||| lo, s)

def Cpu.readw (s : Cpu) (addr : Nat) : Nat × Cpu :=
  let (lo, s) := s.read addr
  let (hi, s) := s.read ((addr + 1) % 65536)
  (hi <<< 8 ||| lo, s)

def Cpu.readw_zp (s : Cpu) (addr : Nat) : Nat × Cpu :=
  let (lo, s) := s.read (addr % 256)
  let (hi, s) := s.read ((addr + 1) % 256)
  (hi <<< 8 ||| lo, s)

def Cpu.pages_differ (addr1 addr2 : Nat) : Bool :=
  (addr1 &&& 0xFF00) ≠ (addr2 &&& 0xFF00)

/-! Addressing modes. Each returns 0 or 1: whether the mode can require an
extra clock (page crossing), to be combined with the return of the operation. -/

def Cpu.accMode (s : Cpu) : Nat × Cpu :=
  let (_, s) := s.read s.pc
  (0, { s with fetched_data := s.acc })

def Cpu.impMode (s : Cpu) : Nat × Cpu :=
  let (_, s) := s.read s.pc
  (0, { s with fetched_data := s.acc })

def Cpu.imm (s : Cpu) : Nat × Cpu :=
  let (_, s) := s.read s.pc
  let s := { s with abs_addr := s.pc }
  (0, { s with pc := (s.pc + 1) % 65536 })

def Cpu.zp0 (s : Cpu) : Nat × Cpu :=
  let (v, s) := s.read s.pc
  let s := { s with abs_addr := v &&& 0x00FF }
  (0, { s with pc := (s.pc + 1) % 65536 })

def Cpu.zpx (s : Cpu) : Nat × Cpu :=
  let (v, s) := s.read s.pc
  let s := { s with abs_addr := ((v + s.x) % 256) &&& 0x00FF }
  (0, { s with pc := (s.pc + 1) % 65536 })

def Cpu.zpy (s : Cpu) : Nat × Cpu :=
  let (v, s) := s.read s.pc
  let s := { s with abs_addr := ((v + s.y) % 256) &&& 0x00FF }
  (0, { s with pc := (s.pc + 1) % 65536 })

def Cpu.rel (s : Cpu) : Nat × Cpu :=
  let (v, s) := s.read s.pc
  let s := { s with rel_addr := v }
  let s := { s with pc := (s.pc + 1) % 65536 }
  if s.rel_addr &&& 0x80 = 0x80 then (0, { s with rel_addr := s.rel_addr ||| 0xFF00 })
  else (0, s)

/-- Absolute mode; the source issues a dummy read for the read-modify-write
operations before advancing the program counter. -/
def Cpu.absMode (s : Cpu) : Nat × Cpu :=
  let (a, s) := s.readw s.pc
  let s := { s with abs_addr := a }
  let s :=
    match s.instr.op with
    | Operation.ASL | Operation.LSR | Operation.ROL | Operation.ROR
    | Operation.INC | Operation.DEC | Operation.SLO | Operation.SRE
    | Operation.RLA | Operation.RRA | Operation.ISB | Operation.DCP =>
        let (_, s) := s.read s.abs_addr
        s
    | _ => s
  (0, { s with pc := (s.pc + 2) % 65536 })

def Cpu.abx (s : Cpu) : Nat × Cpu :=
  let (addr, s) := s.readw s.pc
  let s := { s with pc := (s.pc + 2) % 65536 }
  let s := { s with abs_addr := (addr + s.x) % 65536 }
  let s :=
    if (addr &&& 0x00FF) + s.x > 0x00FF then
      let (_, s) := s.read ((addr &&& 0xFF00) ||| (s.abs_addr &&& 0x00FF))
      s
    else s
  if Cpu.pages_differ addr s.abs_addr then (1, s) else (0, s)

def Cpu.aby (s : Cpu) : Nat × Cpu :=
  let (addr, s) := s.readw s.pc
  let s := { s with pc := (s.pc + 2) % 65536 }
  let s := { s with abs_addr := (addr + s.y) % 65536 }
  let s :=
    match s.instr.op with
    | Operation.STA | Operation.STX | Operation.STY =>
        if s.abs_addr = 0x2007 then
          let (_, s) := s.read ((addr &&& 0xFF00) ||| (s.abs_addr &&& 0x00FF))
          s
        else s
    | _ => s
  if Cpu.pages_differ addr s.abs_addr then (1, s) else (0, s)

def Cpu.ind (s : Cpu) : Nat × Cpu :=
  let (addr, s) := s.readw s.pc
  let s := { s with pc := (s.pc + 2) % 65536 }
  if addr &&& 0x00FF = 0x00FF then
    let (hi, s) := s.read (addr &&& 0xFF00)
    let (lo, s) := s.read addr
    (0, { s with abs_addr := (hi <<< 8) ||| lo })
  else
    let (hi, s) := s.read (addr + 1)
    let (lo, s) := s.read addr
    (0, { s with abs_addr := (hi <<< 8) ||| lo })

def Cpu.idx (s : Cpu) : Nat × Cpu :=
  let (addr, s) := s.read s.pc
  let s := { s with pc := (s.pc + 1) % 65536 }
  let x_offset := (addr + s.x) % 256
  let (w, s) := s.readw_zp x_offset
  (0, { s with abs_addr := w })

def Cpu.idy (s : Cpu) : Nat × Cpu :=
  let (zp, s) := s.read s.pc
  let s := { s with pc := (s.pc + 1) % 65536 }
  let (addr, s) := s.readw_zp zp
  let s := { s with abs_addr := (addr + s.y) % 65536 }
  let s :=
    if (addr &&& 0x00FF) + s.y > 0x00FF then
      let (_, s) := s.read ((addr &&& 0xFF00) ||| (s.abs_addr &&& 0x00FF))
      s
    else s
  if Cpu.pages_differ addr s.abs_addr then (1, s) else (0, s)

def Cpu.runMode (m : AddrMode) (s : Cpu) : Nat × Cpu :=
  match m with
  | AddrMode.IMM => s.imm
  | AddrMode.ZP0 => s.zp0
  | AddrMode.ZPX => s.zpx
  | AddrMode.ZPY => s.zpy
  | AddrMode.ABS => s.absMode
  | AddrMode.ABX => s.abx
  | AddrMode.ABY => s.aby
  | AddrMode.IND => s.ind
  | AddrMode.IDX => s.idx
  | AddrMode.IDY => s.idy
  | AddrMode.REL => s.rel
  | AddrMode.ACC => s.accMode
  | AddrMode.IMP => s.impMode

def Cpu.fetch_data (s : Cpu) : Cpu :=
  let mode := s.instr.addr_mode
  if mode ≠ AddrMode.IMP ∧ mode ≠ AddrMode.ACC then
    let (v, s) := s.read s.abs_addr
    { s with fetched_data := v }
  else s

def Cpu.write_fetched (s : Cpu) (v : Nat) : Cpu :=
  let mode := s.instr.addr_mode
  if mode = AddrMode.IMP ∨ mode = AddrMode.ACC then { s with acc := v % 256 }
  else s.write s.abs_addr v

/-! CPU instructions (console/cpu.rs, impl block CPU instructions). Each
returns 0 or 1, the operation half of the page-cross extra-cycle pair. -/

def Cpu.lda (s : Cpu) : Nat × Cpu :=
  let s := s.fetch_data
  let s := { s with acc := s.fetched_data }
  (1, s.set_flags_zn s.acc)

def Cpu.ldx (s : Cpu) : Nat × Cpu :=
  let s := s.fetch_data
  let s := { s with x := s.fetched_data }
  (1, s.set_flags_zn s.x)

def Cpu.ldy (s : Cpu) : Nat × Cpu :=
  let s := s.fetch_data
  let s := { s with y := s.fetched_data }
  (1, s.set_flags_zn s.y)

def Cpu.sta (s : Cpu) : Nat × Cpu :=
  (0, s.write s.abs_addr s.acc)

def Cpu.stx (s : Cpu) : Nat × Cpu :=
  (0, s.write s.abs_addr s.x)

def Cpu.sty (s : Cpu) : Nat × Cpu :=
  (0, s.write s.abs_addr s.y)

def Cpu.tax (s : Cpu) : Nat × Cpu :=
  let s := { s with x := s.acc }
  (0, s.set_flags_zn s.x)

def Cpu.tay (s : Cpu) : Nat × Cpu :=
  let s := { s with y := s.acc }
  (0, s.set_flags_zn s.y)

def Cpu.tsx (s : Cpu) : Nat × Cpu :=
  let s := { s with x := s.sp }
  (0, s.set_flags_zn s.x)

def Cpu.txa (s : Cpu) : Nat × Cpu :=
  let s := { s with acc := s.x }
  (0, s.set_flags_zn s.acc)

def Cpu.txs (s : Cpu) : Nat × Cpu :=
  (0, { s with sp := s.x })

def Cpu.tya (s : Cpu) : Nat × Cpu :=
  let s := { s with acc := s.y }
  (0, s.set_flags_zn s.acc)

/-- ADC, built from the two overflowing_add steps of the source. -/
def Cpu.adc (s : Cpu) : Nat × Cpu :=
  let s := s.fetch_data
  let a := s.acc
  let t1 := s.fetched_data + a
  let x1 := t1 % 256
  let o1 := decide (t1 > 255)
  let t2 := x1 + s.get_flag StatusRegs.C
  let x2 := t2 % 256
  let o2 := decide (t2 > 255)
  let s := { s with acc := x2 }
  let s := s.set_flag StatusRegs.C (o1 || o2)
  let s := s.set_flag StatusRegs.V
    ((a ^^^ s.fetched_data) &&& 0x80 = 0 ∧ (a ^^^ s.acc) &&& 0x80 ≠ 0)
  (1, s.set_flags_zn s.acc)

/-- SBC, built from the two overflowing_sub steps of the source. -/
def Cpu.sbc (s : Cpu) : Nat × Cpu :=
  let s := s.fetch_data
  let a := s.acc
  let x1 := (a + 256 - s.fetched_data % 256) % 256
  let o1 := decide (a < s.fetched_data)
  let borrow := 1 - s.get_flag StatusRegs.C
  let x2 := (x1 + 256 - borrow) % 256
  let o2 := decide (x1 < borrow)
  let s := { s with acc := x2 }
  let s := s.set_flag StatusRegs.C (!(o1 || o2))
  let s := s.set_flag StatusRegs.V
    ((a ^^^ s.fetched_data) &&& 0x80 ≠ 0 ∧ (a ^^^ s.acc) &&& 0x80 ≠ 0)
  (1, s.set_flags_zn s.acc)

def Cpu.dec (s : Cpu) : Nat × Cpu :=
  let s := s.fetch_data
  let s := s.write_fetched s.fetched_data
  let val := (s.fetched_data + 255) % 256
  let s := s.write_fetched val
  (0, s.set_flags_zn val)

def Cpu.dex (s : Cpu) : Nat × Cpu :=
  let s := { s with x := (s.x + 255) % 256 }
  (0, s.set_flags_zn s.x)

def Cpu.dey (s : Cpu) : Nat × Cpu :=
  let s := { s with y := (s.y + 255) % 256 }
  (0, s.set_flags_zn s.y)

def Cpu.inc (s : Cpu) : Nat × Cpu :=
  let s := s.fetch_data
  let s := s.write_fetched s.fetched_data
  let val := (s.fetched_data + 1) % 256
  let s := s.set_flags_zn val
  (0, s.write_fetched val)

def Cpu.inx (s : Cpu) : Nat × Cpu :=
  let s := { s with x := (s.x + 1) % 256 }
  (0, s.set_flags_zn s.x)

def Cpu.iny (s : Cpu) : Nat × Cpu :=
  let s := { s with y := (s.y + 1) % 256 }
  (0, s.set_flags_zn s.y)

def Cpu.andOp (s : Cpu) : Nat × Cpu :=
  let s := s.fetch_data
  let s := { s with acc := s.acc &&& s.fetched_data }
  (1, s.set_flags_zn s.acc)

def Cpu.asl (s : Cpu) : Nat × Cpu :=
  let s := s.fetch_data
  let s := s.write_fetched s.fetched_data
  let s := s.set_flag StatusRegs.C ((s.fetched_data >>> 7) &&& 1 > 0)
  let val := (s.fetched_data <<< 1) % 256
  let s := s.set_flags_zn val
  (0, s.write_fetched val)

def Cpu.bit (s : Cpu) : Nat × Cpu :=
  let s := s.fetch_data
  let val := s.acc &&& s.fetched_data
  let s := s.set_flag StatusRegs.Z (val = 0)
  let s := s.set_flag StatusRegs.N (s.fetched_data &&& (1 <<< 7) > 0)
  let s := s.set_flag StatusRegs.V (s.fetched_data &&& (1 <<< 6) > 0)
  (0, s)

def Cpu.eor (s : Cpu) : Nat × Cpu :=
  let s := s.fetch_data
  let s := { s with acc := s.acc ^^^ s.fetched_data }
  (1, s.set_flags_zn s.acc)

def Cpu.lsr (s : Cpu) : Nat × Cpu :=
  let s := s.fetch_data
  let s := s.write_fetched s.fetched_data
  let s := s.set_flag StatusRegs.C (s.fetched_data &&& 1 > 0)
  let val := s.fetched_data >>> 1
  let s := s.set_flags_zn val
  (0, s.write_fetched val)

def Cpu.ora (s : Cpu) : Nat × Cpu :=
  let s := s.fetch_data
  let s := { s with acc := s.acc ||| s.fetched_data }
  (1, s.set_flags_zn s.acc)

def Cpu.rol (s : Cpu) : Nat × Cpu :=
  let s := s.fetch_data
  let s := s.write_fetched s.fetched_data
  let old_c := s.get_flag StatusRegs.C
  let s := s.set_flag StatusRegs.C ((s.fetched_data >>> 7) &&& 1 > 0)
  let val := ((s.fetched_data <<< 1) % 256) ||| old_c
  let s := s.set_flags_zn val
  (0, s.write_fetched val)

/-- ROR: the source rotates right by one and then forces bit 7 to the old
carry flag. -/
def Cpu.ror (s : Cpu) : Nat × Cpu :=
  let s := s.fetch_data
  let s := s.write_fetched s.fetched_data
  let rot := (s.fetched_data >>> 1) ||| ((s.fetched_data &&& 1) <<< 7)
  let ret := if s.get_flag StatusRegs.C = 1 then rot ||| (1 <<< 7)
             else rot &&& (255 ^^^ (1 <<< 7))
  let s := s.set_flag StatusRegs.C (s.fetched_data &&& 1 > 0)
  let s := s.set_flags_zn ret
  (0, s.write_fetched ret)

/-- Utility used by all branch instructions; adds one cycle, two on a page
crossing. -/
def Cpu.branch (s : Cpu) : Cpu :=
  let s := { s with cycle_count := (s.cycle_count + 1) % U64_MOD }
  let s := { s with abs_addr := (s.pc + s.rel_addr) % 65536 }
  let s :=
    if Cpu.pages_differ s.abs_addr s.pc then
      { s with cycle_count := (s.cycle_count + 1) % U64_MOD }
    else s
  { s with pc := s.abs_addr }

def Cpu.bcc (s : Cpu) : Nat × Cpu :=
  if s.get_flag StatusRegs.C = 0 then (0, s.branch) else (0, s)

def Cpu.bcs (s : Cpu) : Nat × Cpu :=
  if s.get_flag StatusRegs.C = 1 then (0, s.branch) else (0, s)

def Cpu.beq (s : Cpu) : Nat × Cpu :=
  if s.get_flag StatusRegs.Z = 1 then (0, s.branch) else (0, s)

def Cpu.bmi (s : Cpu) : Nat × Cpu :=
  if s.get_flag StatusRegs.N = 1 then (0, s.branch) else (0, s)

def Cpu.bne (s : Cpu) : Nat × Cpu :=
  if s.get_flag StatusRegs.Z = 0 then (0, s.branch) else (0, s)

def Cpu.bpl (s : Cpu) : Nat × Cpu :=
  if s.get_flag StatusRegs.N = 0 then (0, s.branch) else (0, s)

def Cpu.bvc (s : Cpu) : Nat × Cpu :=
  if s.get_flag StatusRegs.V = 0 then (0, s.branch) else (0, s)

def Cpu.bvs (s : Cpu) : Nat × Cpu :=
  if s.get_flag StatusRegs.V = 1 then (0, s.branch) else (0, s)

def Cpu.jmp (s : Cpu) : Nat × Cpu :=
  (0, { s with pc := s.abs_addr })

def Cpu.jsr (s : Cpu) : Nat × Cpu :=
  let s := s.push_stackw ((s.pc + 65535) % 65536)
  (0, { s with pc := s.abs_addr })

def Cpu.rti (s : Cpu) : Nat × Cpu :=
  let (v, s) := s.pop_stackb
  let s := { s with status := v }
  let s := { s with status := s.status &&& (255 ^^^ StatusRegs.U) }
  let s := { s with status := s.status &&& (255 ^^^ StatusRegs.B) }
  let (w, s) := s.pop_stackw
  (0, { s with pc := w })

def Cpu.rts (s : Cpu) : Nat × Cpu :=
  let (w, s) := s.pop_stackw
  (0, { s with pc := (w + 1) % 65536 })

def Cpu.clc (s : Cpu) : Nat × Cpu := (0, s.set_flag StatusRegs.C false)

def Cpu.sec (s : Cpu) : Nat × Cpu := (0, s.set_flag StatusRegs.C true)

def Cpu.cld (s : Cpu) : Nat × Cpu := (0, s.set_flag StatusRegs.D false)

def Cpu.sed (s : Cpu) : Nat × Cpu := (0, s.set_flag StatusRegs.D true)

def Cpu.cli (s : Cpu) : Nat × Cpu := (0, s.set_flag StatusRegs.I false)

def Cpu.sei (s : Cpu) : Nat × Cpu := (0, s.set_flag StatusRegs.I true)

def Cpu.clv (s : Cpu) : Nat × Cpu := (0, s.set_flag StatusRegs.V false)

def Cpu.compare (s : Cpu) (a b : Nat) : Cpu :=
  let result := (a + 256 - b % 256) % 256
  let s := s.set_flags_zn result
  s.set_flag StatusRegs.C (a ≥ b)

def Cpu.cmp (s : Cpu) : Nat × Cpu :=
  let s := s.fetch_data
  (1, s.compare s.acc s.fetched_data)

def Cpu.cpx (s : Cpu) : Nat × Cpu :=
  let s := s.fetch_data
  (0, s.compare s.x s.fetched_data)

def Cpu.cpy (s : Cpu) : Nat × Cpu :=
  let s := s.fetch_data
  (0, s.compare s.y s.fetched_data)

def Cpu.php (s : Cpu) : Nat × Cpu :=
  let s := s.push_stackb (s.status ||| StatusRegs.U ||| StatusRegs.B)
  let s := s.set_flag StatusRegs.B false
  (0, s.set_flag StatusRegs.U false)

def Cpu.plp (s : Cpu) : Nat × Cpu :=
  let (v, s) := s.pop_stackb
  (0, { s with status := (v ||| StatusRegs.U) &&& (255 ^^^ StatusRegs.B) })

def Cpu.pha (s : Cpu) : Nat × Cpu :=
  (0, s.push_stackb s.acc)

def Cpu.pla (s : Cpu) : Nat × Cpu :=
  let (v, s) := s.pop_stackb
  let s := { s with acc := v }
  (0, s.set_flags_zn s.acc)

def Cpu.brk (s : Cpu) : Nat × Cpu :=
  let s := s.set_flag StatusRegs.I true
  let s := s.push_stackw ((s.pc + 1) % 65536)
  let s := s.set_flag StatusRegs.B true
  let (_, s) := s.php
  let (v, s) := s.readw IRQ_ADDR
  (0, { s with pc := v })

def Cpu.nop (s : Cpu) : Nat × Cpu := (0, s)

def Cpu.skb (s : Cpu) : Nat × Cpu := (0, s.fetch_data)

def Cpu.ign (s : Cpu) : Nat × Cpu :=
  let s := s.fetch_data
  match s.instr.opcode with
  | 0x1C | 0x3C | 0x5C | 0x7C | 0xDC | 0xFC => (1, s)
  | _ => (0, s)

/-- XXX: captures all unimplemented opcodes; the source panics here, which we
model as none. -/
def Cpu.xxx (_ : Cpu) : Option (Nat × Cpu) := none

def Cpu.isb (s : Cpu) : Nat × Cpu :=
  let (_, s) := s.inc
  let (_, s) := s.sbc
  (0, s)

def Cpu.dcp (s : Cpu) : Nat × Cpu :=
  let (_, s) := s.dec
  let (_, s) := s.cmp
  (0, s)

def Cpu.axs (s : Cpu) : Nat × Cpu :=
  let s := s.fetch_data
  let s := s.set_flag StatusRegs.C (s.x ≤ s.fetched_data)
  let s := { s with x := ((s.acc &&& s.x) + 256 - s.fetched_data % 256) % 256 }
  (0, s.set_flags_zn s.x)

def Cpu.las (s : Cpu) : Nat × Cpu :=
  let (_, s) := s.lda
  let (_, s) := s.tsx
  (1, s)

def Cpu.lax (s : Cpu) : Nat × Cpu :=
  let (_, s) := s.lda
  let (_, s) := s.tax
  (1, s)

/-- AHX is unimplemented in the source (it only prints a warning). -/
def Cpu.ahx (s : Cpu) : Nat × Cpu := (0, s)

def Cpu.sax (s : Cpu) : Nat × Cpu :=
  let val := s.acc &&& s.x
  (0, s.write_fetched val)

/-- XAA is unimplemented in the source (it only prints a warning). -/
def Cpu.xaa (s : Cpu) : Nat × Cpu := (0, s)

/-- SHX is unimplemented in the source (it only prints a warning). -/
def Cpu.shx (s : Cpu) : Nat × Cpu := (0, s)

def Cpu.rra (s : Cpu) : Nat × Cpu :=
  let (_, s) := s.ror
  let (_, s) := s.adc
  (0, s)

def Cpu.tas (s : Cpu) : Nat × Cpu :=
  let (_, s) := s.sta
  let (_, s) := s.txs
  (0, s)

/-- SHY is unimplemented in the source (it only prints a warning). -/
def Cpu.shy (s : Cpu) : Nat × Cpu := (0, s)

def Cpu.arr (s : Cpu) : Nat × Cpu :=
  let (_, s) := s.andOp
  let (_, s) := s.ror
  (0, s)

def Cpu.sre (s : Cpu) : Nat × Cpu :=
  let (_, s) := s.lsr
  let (_, s) := s.eor
  (0, s)

def Cpu.alr (s : Cpu) : Nat × Cpu :=
  let (_, s) := s.andOp
  let (_, s) := s.lsr
  (0, s)

def Cpu.rla (s : Cpu) : Nat × Cpu :=
  let (_, s) := s.rol
  let (_, s) := s.andOp
  (0, s)

def Cpu.anc (s : Cpu) : Nat × Cpu :=
  let (ret, s) := s.andOp
  (ret, s.set_flag StatusRegs.C ((s.acc >>> 7) &&& 1 > 0))

def Cpu.slo (s : Cpu) : Nat × Cpu :=
  let (_, s) := s.asl
  let (_, s) := s.ora
  (0, s)

def Cpu.runOp (o : Operation) (s : Cpu) : Option (Nat × Cpu) :=
  match o with
  | Operation.ADC => some s.adc
  | Operation.AND => some s.andOp
  | Operation.ASL => some s.asl
  | Operation.BCC => some s.bcc
  | Operation.BCS => some s.bcs
  | Operation.BEQ => some s.beq
  | Operation.BIT => some s.bit
  | Operation.BMI => some s.bmi
  | Operation.BNE => some s.bne
  | Operation.BPL => some s.bpl
  | Operation.BRK => some s.brk
  | Operation.BVC => some s.bvc
  | Operation.BVS => some s.bvs
  | Operation.CLC => some s.clc
  | Operation.CLD => some s.cld
  | Operation.CLI => some s.cli
  | Operation.CLV => some s.clv
  | Operation.CMP => some s.cmp
  | Operation.CPX => some s.cpx
  | Operation.CPY => some s.cpy
  | Operation.DEC => some s.dec
  | Operation.DEX => some s.dex
  | Operation.DEY => some s.dey
  | Operation.EOR => some s.eor
  | Operation.INC => some s.inc
  | Operation.INX => some s.inx
  | Operation.INY => some s.iny
  | Operation.JMP => some s.jmp
  | Operation.JSR => some s.jsr
  | Operation.LDA => some s.lda
  | Operation.LDX => some s.ldx
  | Operation.LDY => some s.ldy
  | Operation.LSR => some s.lsr
  | Operation.NOP => some s.nop
  | Operation.SKB => some s.skb
  | Operation.IGN => some s.ign
  | Operation.ORA => some s.ora
  | Operation.PHA => some s.pha
  | Operation.PHP => some s.php
  | Operation.PLA => some s.pla
  | Operation.PLP => some s.plp
  | Operation.ROL => some s.rol
  | Operation.ROR => some s.ror
  | Operation.RTI => some s.rti
  | Operation.RTS => some s.rts
  | Operation.SBC => some s.sbc
  | Operation.SEC => some s.sec
  | Operation.SED => some s.sed
  | Operation.SEI => some s.sei
  | Operation.STA => some s.sta
  | Operation.STX => some s.stx
  | Operation.STY => some s.sty
  | Operation.TAX => some s.tax
  | Operation.TAY => some s.tay
  | Operation.TSX => some s.tsx
  | Operation.TXA => some s.txa
  | Operation.TXS => some s.txs
  | Operation.TYA => some s.tya
  | Operation.ISB => some s.isb
  | Operation.DCP => some s.dcp
  | Operation.AXS => some s.axs
  | Operation.LAS => some s.las
  | Operation.LAX => some s.lax
  | Operation.AHX => some s.ahx
  | Operation.SAX => some s.sax
  | Operation.XAA => some s.xaa
  | Operation.SHX => some s.shx
  | Operation.RRA => some s.rra
  | Operation.TAS => some s.tas
  | Operation.SHY => some s.shy
  | Operation.ARR => some s.arr
  | Operation.SRE => some s.sre
  | Operation.ALR => some s.alr
  | Operation.RLA => some s.rla
  | Operation.ANC => some s.anc
  | Operation.SLO => some s.slo
  | Operation.XXX => s.xxx

/-- Sends an IRQ interrupt to the CPU, gated on the I flag. -/
def Cpu.trigger_irq (s : Cpu) : Cpu :=
  if s.get_flag StatusRegs.I > 0 then s else { s with interrupt := Interrupt.irq }

def Cpu.irq (s : Cpu) : Cpu :=
  let s := s.push_stackw s.pc
  let s := s.push_stackb ((s.status ||| StatusRegs.U) &&& (255 ^^^ StatusRegs.B))
  let (v, s) := s.readw IRQ_ADDR
  let s := { s with pc := v }
  let s := s.set_flag StatusRegs.I true
  { s with cycle_count := (s.cycle_count + 7) % U64_MOD }

/-- Sends an NMI interrupt to the CPU, unconditionally. -/
def Cpu.trigger_nmi (s : Cpu) : Cpu :=
  { s with interrupt := Interrupt.nmi }

def Cpu.nmi (s : Cpu) : Cpu :=
  let s := s.push_stackw s.pc
  let s := s.push_stackb ((s.status ||| StatusRegs.U) &&& (255 ^^^ StatusRegs.B))
  let (v, s) := s.readw NMI_ADDR
  let s := { s with pc := v }
  let s := s.set_flag StatusRegs.I true
  { s with cycle_count := (s.cycle_count + 7) % U64_MOD }

/-- The opcode fetch and decode prefix of Cpu clock: read the opcode at pc,
force the U flag, advance pc and install the decoded table entry. -/
def Cpu.decode (s : Cpu) : Cpu :=
  let (opcode, s) := s.read s.pc
  let s := s.set_flag StatusRegs.U true
  let s := { s with pc := (s.pc + 1) % 65536 }
  { s with instr := instrAt opcode }

/-- The body of Cpu clock after the stall check and interrupt dispatch:
opcode fetch, decode, addressing mode, operation, and cycle accounting.
The start argument is the cycle count sampled at clock entry; the return
value is the wrapping difference of the new cycle count and start. -/
def Cpu.clockExec (start : Nat) (s : Cpu) : Option (Nat × Cpu) :=
  let s := s.decode
  let (mode_cycle, s) := Cpu.runMode s.instr.addr_mode s
  match Cpu.runOp s.instr.op s with
  | none => none
  | some (op_cycle, s) =>
      let s := { s with step := s.step + 1 }
      let s := { s with cycle_count :=
        (s.cycle_count + s.instr.cycles + (mode_cycle &&& op_cycle)) % U64_MOD }
      some ((s.cycle_count + U64_MOD - start % U64_MOD) % U64_MOD, s)

/-- Runs the CPU one instruction (Cpu clock); none models the panic on an
unimplemented XXX opcode. -/
def Cpu.clock (s : Cpu) : Option (Nat × Cpu) :=
  if s.stall > 0 then some (1, { s with stall := s.stall - 1 })
  else
    let start := s.cycle_count
    let s :=
      match s.interrupt with
      | Interrupt.irq => s.irq
      | Interrupt.nmi => s.nmi
      | Interrupt.none => s
    let s := { s with interrupt := Interrupt.none }
    Cpu.clockExec start s

/-- Cpu init: power-on state; the initial program counter is fetched from the
reset vector. -/
def Cpu.init (m : Mem) : Cpu :=
  let s : Cpu :=
    { mem := m, cycle_count := POWER_ON_CYCLES, stall := 0, step := 0,
      pc := 0x0000, sp := POWER_ON_SP, acc := 0x00, x := 0x00, y := 0x00,
      status := POWER_ON_STATUS, instr := instrAt 0x00, abs_addr := 0x0000,
      rel_addr := 0x0000, fetched_data := 0x00, interrupt := Interrupt.none }
  let (v, s) := s.readw RESET_ADDR
  { s with pc := v }

/-! ## Control deck clocking (console.rs, Console clock)

Console clock steps the CPU one instruction (n CPU cycles), then clocks the
PPU 3 n times and the APU n times; after each sub-step it may call
trigger_nmi (PPU vblank) or trigger_irq (mapper or APU frame counter) on the
CPU. For the cycle-versus-dot bookkeeping the PPU, APU and mapper matter only
through those trigger calls, so the deck model carries the CPU, a counter of
PPU clock calls (dots), and an arbitrary list of triggers fired during the
step. -/

inductive Trigger
  | nmi
  | irq

def Cpu.applyTrigger (t : Trigger) (s : Cpu) : Cpu :=
  match t with
  | Trigger.nmi => s.trigger_nmi
  | Trigger.irq => s.trigger_irq

def Cpu.applyTriggers (l : List Trigger) (s : Cpu) : Cpu :=
  match l with
  | [] => s
  | t :: rest => Cpu.applyTriggers rest (Cpu.applyTrigger t s)

structure Deck where
  cpu : Cpu
  dots : Nat

def Deck.init (m : Mem) : Deck :=
  { cpu := Cpu.init m, dots := 0 }

/-- One Console clock: run the CPU for one instruction, clock the PPU three
dots per CPU cycle, and deliver whatever interrupt triggers the PPU, APU and
mapper raised during the interval. -/
def Deck.clock (trigs : List Trigger) (d : Deck) : Option Deck :=
  match d.cpu.clock with
  | none => none
  | some (n, c) =>
      some { cpu := Cpu.applyTriggers trigs c, dots := d.dots + 3 * n }

/-! ## APU (console/apu.rs)

The frame counter and the channel units it clocks. The audio sampling pieces
of the Apu (sample buffer, filter chain, mixing tables, clock_rate) are
floating point output-only state that none of the modelled operations read;
they are left out of the struct. The DMC raw CPU pointer used by DMC DMA is
likewise not part of the register file modelled here. -/

inductive PulseChannel
  | one
  | two
deriving DecidableEq

structure Sweep where
  enabled : Bool
  reload : Bool
  negate : Bool
  timer : Nat
  counter : Nat
  shift : Nat
deriving DecidableEq

structure Pulse where
  enabled : Bool
  duty_cycle : Nat
  duty_counter : Nat
  freq_timer : Nat
  freq_counter : Nat
  channel : PulseChannel
  length : LengthCounter
  envelope : Envelope
  sweep : Sweep
deriving DecidableEq

def Pulse.new (channel : PulseChannel) : Pulse :=
  { enabled := false, duty_cycle := 0, duty_counter := 0, freq_timer := 0,
    freq_counter := 0, channel := channel, length := LengthCounter.new,
    envelope := Envelope.new,
    sweep := { enabled := false, reload := false, negate := false, timer := 0,
               counter := 0, shift := 0 } }

def Pulse.clock (p : Pulse) : Pulse :=
  if p.freq_counter > 0 then { p with freq_counter := p.freq_counter - 1 }
  else { p with freq_counter := p.freq_timer,
                duty_counter := (p.duty_counter + 1) % 8 }

def Pulse.clock_quarter_frame (p : Pulse) : Pulse :=
  { p with envelope := p.envelope.clock }

def Pulse.sweep_forcing_silence (p : Pulse) : Bool :=
  let next_freq := (p.freq_timer + (p.freq_timer >>> p.sweep.shift)) % 65536
  p.freq_timer < 8 || (!p.sweep.negate && next_freq ≥ 0x800)

/-- Pulse half-frame clock: sweep unit then length counter. The u16
subtraction freq_timer minus delta plus one wraps like the release build. -/
def Pulse.clock_half_frame (p : Pulse) : Pulse :=
  let sweep_forcing_silence := p.sweep_forcing_silence
  let p :=
    if p.sweep.reload then
      { p with sweep := { p.sweep with counter := p.sweep.timer, reload := false } }
    else if p.sweep.counter > 0 then
      { p with sweep := { p.sweep with counter := p.sweep.counter - 1 } }
    else
      let p := { p with sweep := { p.sweep with counter := p.sweep.timer } }
      if p.sweep.enabled && !sweep_forcing_silence then
        let delta := p.freq_timer >>> p.sweep.shift
        if p.sweep.negate then
          let p := { p with freq_timer := (p.freq_timer + 65536 - (delta + 1) % 65536) % 65536 }
          if p.channel = PulseChannel.one then
            { p with freq_timer := (p.freq_timer + 1) % 65536 }
          else p
        else
          { p with freq_timer := (p.freq_timer + delta) % 65536 }
      else p
  { p with length := p.length.clock }

structure LinearCounter where
  reload : Bool
  control : Bool
  load : Nat
  counter : Nat
deriving DecidableEq

def LinearCounter.new : LinearCounter :=
  { reload := false, control := false, load := 0, counter := 0 }

structure Triangle where
  enabled : Bool
  ultrasonic : Bool
  step : Nat
  freq_timer : Nat
  freq_counter : Nat
  length : LengthCounter
  linear : LinearCounter
deriving DecidableEq

def Triangle.new : Triangle :=
  { enabled := false, ultrasonic := false, step := 0, freq_timer := 0,
    freq_counter := 0, length := LengthCounter.new, linear := LinearCounter.new }

def Triangle.clock_quarter_frame (t : Triangle) : Triangle :=
  let t :=
    if t.linear.reload then
      { t with linear := { t.linear with counter := t.linear.load } }
    else if t.linear.counter > 0 then
      { t with linear := { t.linear with counter := t.linear.counter - 1 } }
    else t
  if !t.linear.control then { t with linear := { t.linear with reload := false } }
  else t

def Triangle.clock_half_frame (t : Triangle) : Triangle :=
  { t with length := t.length.clock }

def Triangle.write_linear_counter (t : Triangle) (v : Nat) : Triangle :=
  { t with linear := { t.linear with control := ((v >>> 7) &&& 1) = 1,
                                     load := (v % 256) >>> 1 },
           length := { t.length with enabled := ((v >>> 7) &&& 1) = 0 } }

def Triangle.write_timer_lo (t : Triangle) (v : Nat) : Triangle :=
  { t with freq_timer := (t.freq_timer &&& 0xFF00) ||| (v % 256) }

def Triangle.write_timer_hi (t : Triangle) (v : Nat) : Triangle :=
  let t := { t with freq_timer := (t.freq_timer &&& 0x00FF) ||| (((v &&& 0x07) <<< 8)) }
  let t := { t with freq_counter := t.freq_timer }
  let t := { t with linear := { t.linear with reload := true } }
  if t.enabled then { t with length := t.length.load_value v } else t

def Pulse.write_control (p : Pulse) (v : Nat) : Pulse :=
  { p with duty_cycle := (v >>> 6) &&& 0x03,
           length := p.length.write_control v,
           envelope := p.envelope.write_control v }

def Pulse.write_sweep (p : Pulse) (v : Nat) : Pulse :=
  let shift := v &&& 0x07
  { p with sweep := { p.sweep with timer := (v >>> 4) &&& 0x07,
                                   negate := ((v >>> 3) &&& 1) = 1,
                                   shift := shift,
                                   enabled := (((v >>> 7) &&& 1) = 1) ∧ shift ≠ 0,
                                   reload := true } }

def Pulse.write_timer_lo (p : Pulse) (v : Nat) : Pulse :=
  { p with freq_timer := (p.freq_timer &&& 0xFF00) ||| (v % 256) }

def Pulse.write_timer_hi (p : Pulse) (v : Nat) : Pulse :=
  let p := { p with freq_timer := (p.freq_timer &&& 0x00FF) ||| ((v &&& 0x07) <<< 8) }
  let p := { p with freq_counter := p.freq_timer, duty_counter := 0,
                    envelope := { p.envelope with reset := true } }
  if p.enabled then { p with length := p.length.load_value v } else p

structure DMC where
  irq_enabled : Bool
  irq_pending : Bool
  loops : Bool
  freq_timer : Nat
  freq_counter : Nat
  addr : Nat
  addr_load : Nat
  length : Nat
  length_load : Nat
  sample_buffer : Nat
  sample_buffer_empty : Bool
  output : Nat
  output_bits : Nat
  output_shift : Nat
  output_silent : Bool
deriving DecidableEq

def DMC.NTSC_FREQ_TABLE : List Nat :=
  [0x1AC, 0x17C, 0x154, 0x140, 0x11E, 0x0FE, 0x0E2, 0x0D6, 0x0BE, 0x0A0,
   0x08E, 0x080, 0x06A, 0x054, 0x048, 0x036]

def DMC.new : DMC :=
  { irq_enabled := false, irq_pending := false, loops := false,
    freq_timer := 0, freq_counter := 0, addr := 0, addr_load := 0,
    length := 0, length_load := 0, sample_buffer := 0,
    sample_buffer_empty := false, output := 0, output_bits := 0,
    output_shift := 0, output_silent := false }

def DMC.write_timer (d : DMC) (v : Nat) : DMC :=
  let d := { d with irq_enabled := ((v >>> 7) &&& 1) = 1,
                    loops := ((v >>> 6) &&& 1) = 1,
                    freq_timer := DMC.NTSC_FREQ_TABLE.getD (v &&& 0x0F) 0 }
  if !d.irq_enabled then { d with irq_pending := false } else d

def DMC.write_output (d : DMC) (v : Nat) : DMC :=
  { d with output := (v % 256) >>> 1 }

def DMC.write_addr_load (d : DMC) (v : Nat) : DMC :=
  { d with addr_load := 0xC000 ||| ((v % 256) <<< 6) }

def DMC.write_length (d : DMC) (v : Nat) : DMC :=
  { d with length_load := ((v <<< 4) % 256) + 1 }

inductive FCMode
  | step4
  | step5
deriving DecidableEq

/-- Frame counter for the APU: current step of the sequence, CPU-clock
countdown to the next step, and the 4-step or 5-step mode. -/
structure FrameCounter where
  step : Nat
  counter : Nat
  mode : FCMode
deriving DecidableEq

structure Apu where
  irq_pending : Bool
  irq_enabled : Bool
  open_bus : Nat
  cycle : Nat
  frame : FrameCounter
  pulse1 : Pulse
  pulse2 : Pulse
  triangle : Triangle
  noise : Noise
  dmc : DMC

def Apu.new : Apu :=
  { irq_pending := false, irq_enabled := false, open_bus := 0, cycle := 0,
    frame := { step := 1, counter := 7457, mode := FCMode.step4 },
    pulse1 := Pulse.new PulseChannel.one, pulse2 := Pulse.new PulseChannel.two,
    triangle := Triangle.new, noise := Noise.new, dmc := DMC.new }

def Apu.clock_quarter_frame (a : Apu) : Apu :=
  { a with pulse1 := a.pulse1.clock_quarter_frame,
           pulse2 := a.pulse2.clock_quarter_frame,
           triangle := a.triangle.clock_quarter_frame,
           noise := a.noise.clock_quarter_frame }

def Apu.clock_half_frame (a : Apu) : Apu :=
  { a with pulse1 := a.pulse1.clock_half_frame,
           pulse2 := a.pulse2.clock_half_frame,
           triangle := a.triangle.clock_half_frame,
           noise := a.noise.clock_half_frame }

/-- Countdown to the next frame counter step, in CPU clocks; none models the
panic on a step outside 1 through 6. -/
def Apu.next_frame_counter (a : Apu) : Option Nat :=
  match a.frame.mode, a.frame.step with
  | FCMode.step4, 1 => some 7457
  | FCMode.step4, 2 => some 7456
  | FCMode.step4, 3 => some 7458
  | FCMode.step4, 4 => some 7457
  | FCMode.step4, 5 => some 1
  | FCMode.step4, 6 => some 1
  | FCMode.step4, _ => none
  | FCMode.step5, 1 => some 7457
  | FCMode.step5, 2 => some 7456
  | FCMode.step5, 3 => some 7458
  | FCMode.step5, 4 => some 7457
  | FCMode.step5, 5 => some 7452
  | FCMode.step5, 6 => some 1
  | FCMode.step5, _ => none

/-- The per-step dispatch of clock_frame_counter: steps 1 and 3 clock a
quarter frame, steps 2 and 5 a quarter and a half frame, others nothing. -/
def Apu.frame_seq_clock (a : Apu) : Apu :=
  match a.frame.step with
  | 1 | 3 => a.clock_quarter_frame
  | 2 | 5 => a.clock_quarter_frame.clock_half_frame
  | _ => a

/-- Counts CPU clocks and determines when to clock quarter and half frames.
The step increment is a u8 add. -/
def Apu.clock_frame_counter (a : Apu) : Option Apu :=
  if a.frame.counter > 0 then
    some { a with frame := { a.frame with counter := a.frame.counter - 1 } }
  else
    let a := a.frame_seq_clock
    let a :=
      if a.irq_enabled ∧ a.frame.mode = FCMode.step4 ∧ a.frame.step ≥ 4 then
        { a with irq_pending := true }
      else a
    let a := { a with frame := { a.frame with step := (a.frame.step + 1) % 256 } }
    let a :=
      if a.frame.step > 6 then { a with frame := { a.frame with step := 1 } }
      else a
    match a.next_frame_counter with
    | none => none
    | some c => some { a with frame := { a.frame with counter := c } }

/-- $4017 write: set the mode from bit 7, restart the sequence at step 1 with
a fresh countdown (plus a 3 or 4 CPU-clock alignment delay), immediately
clock a quarter and a half frame when entering 5-step mode, and take the IRQ
inhibit from bit 6. -/
def Apu.write_frame_counter (a : Apu) (v : Nat) : Option Apu :=
  let a := { a with frame :=
    { a.frame with mode := if (v >>> 7) &&& 1 = 0 then FCMode.step4
                           else FCMode.step5,
                   step := 1 } }
  match a.next_frame_counter with
  | none => none
  | some c =>
    let a := { a with frame := { a.frame with counter := c } }
    let a :=
      if a.cycle % 2 = 0 then
        { a with frame := { a.frame with counter := a.frame.counter + 3 } }
      else
        { a with frame := { a.frame with counter := a.frame.counter + 4 } }
    let a :=
      if a.frame.mode = FCMode.step5 then a.clock_quarter_frame.clock_half_frame
      else a
    let a := { a with irq_enabled := (v >>> 6) &&& 1 = 0 }
    some (if !a.irq_enabled then { a with irq_pending := false } else a)

/-- $4015 write. -/
def Pulse.set_enabled (p : Pulse) (b : Bool) : Pulse :=
  let p := { p with enabled := b }
  if !p.enabled then
    { p with length := { p.length with counter := 0 } }
  else p

def Triangle.set_enabled (t : Triangle) (b : Bool) : Triangle :=
  let t := { t with enabled := b }
  if !t.enabled then
    { t with length := { t.length with counter := 0 } }
  else t

/-- The DMC half of the $4015 write: a set bit restarts an exhausted sample,
a clear bit stops the channel, and the DMC IRQ flag is always acknowledged. -/
def DMC.write_status_bit (d : DMC) (b : Bool) : DMC :=
  let d :=
    if b then
      if d.length = 0 then { d with length := d.length_load,
                                    addr := d.addr_load }
      else d
    else { d with length := 0 }
  { d with irq_pending := false }

def Apu.write_status (a : Apu) (v : Nat) : Apu :=
  let a := { a with pulse1 := a.pulse1.set_enabled (v &&& 1 = 1) }
  let a := { a with pulse2 := a.pulse2.set_enabled ((v >>> 1) &&& 1 = 1) }
  let a := { a with triangle := a.triangle.set_enabled ((v >>> 2) &&& 1 = 1) }
  let a := { a with noise := a.noise.set_enabled ((v >>> 3) &&& 1 = 1) }
  { a with dmc := a.dmc.write_status_bit ((v >>> 4) &&& 1 = 1) }

/-- Memory write dispatch of the Apu ($4000 through $4017); every write also
drives the open bus latch. -/
def Apu.writeReg (a : Apu) (addr v : Nat) : Option Apu :=
  let a := { a with open_bus := v % 256 }
  match addr with
  | 0x4000 => some { a with pulse1 := a.pulse1.write_control v }
  | 0x4001 => some { a with pulse1 := a.pulse1.write_sweep v }
  | 0x4002 => some { a with pulse1 := a.pulse1.write_timer_lo v }
  | 0x4003 => some { a with pulse1 := a.pulse1.write_timer_hi v }
  | 0x4004 => some { a with pulse2 := a.pulse2.write_control v }
  | 0x4005 => some { a with pulse2 := a.pulse2.write_sweep v }
  | 0x4006 => some { a with pulse2 := a.pulse2.write_timer_lo v }
  | 0x4007 => some { a with pulse2 := a.pulse2.write_timer_hi v }
  | 0x4008 => some { a with triangle := a.triangle.write_linear_counter v }
  | 0x400A => some { a with triangle := a.triangle.write_timer_lo v }
  | 0x400B => some { a with triangle := a.triangle.write_timer_hi v }
  | 0x400C => some { a with noise := a.noise.write_control v }
  | 0x400E => some { a with noise := a.noise.write_timer v }
  | 0x400F => some { a with noise := a.noise.write_length v }
  | 0x4010 => some { a with dmc := a.dmc.write_timer v }
  | 0x4011 => some { a with dmc := a.dmc.write_output v }
  | 0x4012 => some { a with dmc := a.dmc.write_addr_load v }
  | 0x4013 => some { a with dmc := a.dmc.write_length v }
  | 0x4015 => some (a.write_status v)
  | 0x4017 => a.write_frame_counter v
  | _ => some a

/-! ## PPU $2007 data port (console/ppu.rs, read_ppudata and Memory for Vram)

The pieces of the Ppu touched by a CPU read of $2007: the loopy v register,
the CTRL register it is incremented by, and the Vram behind it. The mapper
behind PPU addresses 0000 through 1FFF is modelled as a pure CHR byte map
plus its current mirroring mode. -/

inductive Mirroring
  | horizontal
  | vertical
  | singleScreen0
  | singleScreen1
  | fourScreen
deriving DecidableEq

structure Vram where
  chr : Nat → Nat
  mirroring : Mirroring
  buffer : Nat
  nametable : Nat → Nat
  palette : Nat → Nat

def Vram.nametable_mirror_addr (vr : Vram) (addr : Nat) : Nat :=
  let mirror_lookup : List Nat :=
    match vr.mirroring with
    | Mirroring.horizontal => [0, 0, 1, 1]
    | Mirroring.vertical => [0, 1, 0, 1]
    | Mirroring.singleScreen0 => [0, 0, 0, 0]
    | Mirroring.singleScreen1 => [1, 1, 1, 1]
    | Mirroring.fourScreen => [1, 2, 3, 4]
  let table_size := 1024
  let addr2 := (addr - 0x2000) % 4096
  let table := addr2 / table_size
  let offset := addr2 % table_size
  0x2000 + (mirror_lookup.getD table 0) * table_size + offset

/-- Memory for Vram, read. CHR and nametable reads have no side effect on the
Vram struct itself, so the read is a pure function here; unmapped addresses
read 0. -/
def Vram.readAt (vr : Vram) (addr : Nat) : Nat :=
  if addr ≤ 0x1FFF then vr.chr addr % 256
  else if addr ≤ 0x3EFF then
    let a := vr.nametable_mirror_addr addr
    vr.nametable (a % 2048) % 256
  else if addr ≤ 0x3FFF then Palette.peek vr.palette (addr % 32) % 256
  else 0

structure PpuDataPort where
  v : Nat
  ctrl : Nat
  vram : Vram

/-- PpuCtrl vram_increment: bit 2 selects an increment of 32, else 1. -/
def PpuDataPort.vram_increment (p : PpuDataPort) : Nat :=
  if p.ctrl &&& 0x04 > 0 then 32 else 1

def PpuDataPort.read_ppuaddr (p : PpuDataPort) : Nat :=
  p.v &&& 0x3FFF

/-- $2007 read: a buffered read below the palette range, a direct read of the
palette range with a buffer refill, then the v increment chosen by CTRL. -/
def PpuDataPort.read_ppudata (p : PpuDataPort) : Nat × PpuDataPort :=
  let val := p.vram.readAt p.read_ppuaddr
  let (ret, vram2) :=
    if p.read_ppuaddr ≤ 0x3EFF then
      (p.vram.buffer, { p.vram with buffer := val })
    else
      (val, { p.vram with buffer := p.vram.readAt p.read_ppuaddr })
  let p := { p with vram := vram2 }
  (ret, { p with v := (p.v + p.vram_increment) % 65536 })

/-! ## Save-state headers

Two save-file header implementations exist in the sources: the TetaNES one in
nes/filesystem.rs and the legacy one in util.rs, which Console save_state and
the SRAM paths in console.rs call. -/

/-- nes/filesystem.rs: SAVE_FILE_MAGIC, the 8 bytes of the string TETANES
followed by 0x1A. -/
def SAVE_FILE_MAGIC : List Nat := [84, 69, 84, 65, 78, 69, 83, 0x1A]

/-- nes/filesystem.rs write_save_header. Modelled from the spec:
MAJOR_VERSION is the compile-time crate major version (its Cargo manifest is
not among the sources); per the spec it is a single-byte tag, carried here as
the parameter vb. -/
def fs_write_save_header (vb : Nat) : List Nat :=
  SAVE_FILE_MAGIC ++ [vb]

/-- nes/filesystem.rs validate_save_header: read exactly 8 magic bytes and
compare, then read exactly 1 version byte and compare; on success the
remaining bytes (the payload) are untouched. -/
def fs_validate_save_header (vb : Nat) (bytes : List Nat) : Option (List Nat) :=
  if bytes.length < 8 then none
  else if bytes.take 8 = SAVE_FILE_MAGIC then
    match bytes.drop 8 with
    | [] => none
    | v :: r => if v = vb then some r else none
  else none

/-- nes/filesystem.rs save_data writes the header and then the
DEFLATE-compressed payload; the flate2 encoder is an external crate, carried
here as the encode parameter. -/
def fs_save_data (vb : Nat) (encode : List Nat → List Nat) (data : List Nat) :
    List Nat :=
  fs_write_save_header vb ++ encode data

/-- util.rs: SAVE_FILE_MAGIC, the 9 bytes of the string RUSTYNES followed by
0x1A. -/
def RUSTYNES_MAGIC : List Nat := [82, 85, 83, 84, 89, 78, 69, 83, 0x1A]

/-- util.rs: VERSION, the 6 bytes of the string v0.2.0. -/
def UTIL_VERSION : List Nat := [118, 48, 46, 50, 46, 48]

/-- util.rs write_save_header: the 9-byte magic, then VERSION.len() as the 8
big-endian bytes of a 64-bit usize, then the version string. Console
save_state writes this header followed by the raw serialized console state,
with no compression. -/
def util_write_save_header : List Nat :=
  RUSTYNES_MAGIC ++ [0, 0, 0, 0, 0, 0, 0, 6] ++ UTIL_VERSION

/-! ## Helper views used by the theorems -/

/-- The step the noise LFSR takes when its timer expires: shift is s, the tap
distance is k (1 for tap mode zero, 6 for tap mode one). -/
def noiseStepVal (s k : Nat) : Nat :=
  ((s &&& Noise.SHIFT_BIT_15_MASK) ||| (((s &&& 1) ^^^ ((s >>> k) &&& 1)) <<< 14)) >>> 1

/-- The 16-bit word stored at addr in the CPU bus byte map (little endian,
with the u16 address wrap of Cpu readw). -/
def wordAt (m : Mem) (addr : Nat) : Nat :=
  ((m.data ((addr + 1) % 65536) % 256) <<< 8) ||| (m.data (addr % 65536) % 256)

/-- The 16-bit word read by readw_zp: both bytes come from the zero page,
wrapping at 0xFF. -/
def wordAtZp (m : Mem) (addr : Nat) : Nat :=
  ((m.data ((addr + 1) % 256) % 256) <<< 8) ||| (m.data (addr % 256) % 256)

/-- The base (pre-index) operand address of the instruction at pc in state s,
for the three indexed modes with a page-cross penalty. -/
def operandBase (s : Cpu) (m : AddrMode) : Nat :=
  match m with
  | AddrMode.ABX => wordAt s.mem ((s.pc + 1) % 65536)
  | AddrMode.ABY => wordAt s.mem ((s.pc + 1) % 65536)
  | AddrMode.IDY => wordAtZp s.mem (s.mem.data ((s.pc + 1) % 65536) % 256)
  | _ => 0

/-- The index register the mode adds to the base address. -/
def operandIndex (s : Cpu) (m : AddrMode) : Nat :=
  match m with
  | AddrMode.ABX => s.x
  | AddrMode.ABY => s.y
  | AddrMode.IDY => s.y
  | _ => 0

/-- The effective operand address of the instruction at pc. -/
def operandEff (s : Cpu) (m : AddrMode) : Nat :=
  (operandBase s m + operandIndex s m) % 65536

/-- Whether the indexed operand of the instruction at pc crosses a page:
the value the ABX, ABY and IDY mode resolvers return. -/
def operandCross (s : Cpu) (m : AddrMode) : Nat :=
  if Cpu.pages_differ (operandBase s m) (operandEff s m) then 1 else 0

/-- The operations whose resolver-return combines with the mode return to
charge the page-cross penalty: the instructions that only read their memory
operand (loads, ALU reads, compares, LAX, LAS and the IGN read-NOPs). -/
def isReadOp : Operation → Bool
  | Operation.LDA | Operation.LDX | Operation.LDY | Operation.ADC
  | Operation.SBC | Operation.AND | Operation.EOR | Operation.ORA
  | Operation.CMP | Operation.LAX | Operation.LAS | Operation.IGN => true
  | _ => false

def isStoreOp : Operation → Bool
  | Operation.STA | Operation.STX | Operation.STY => true
  | _ => false

/-- The status byte the interrupt service routines push: the U flag forced
on and the B flag cleared ((status | U) AND NOT B). -/
def pushedStatus (st : Nat) : Nat :=
  (st ||| StatusRegs.U) &&& (255 ^^^ StatusRegs.B)

/-! # Theorems -/

/-! ## C10: the noise LFSR never reaches zero -/

theorem noiseStepVal_pos (s k : Nat) (hk : 1 ≤ k) (h0 : s ≠ 0)
    (hlt : s < 32768) : noiseStepVal s k ≠ 0 ∧ noiseStepVal s k < 32768 := by
  have hmask : s &&& Noise.SHIFT_BIT_15_MASK = s := by
    have h := Nat.and_pow_two_sub_one_eq_mod s 15
    have h2 : (2 : Nat) ^ 15 - 1 = Noise.SHIFT_BIT_15_MASK := by
      simp [Noise.SHIFT_BIT_15_MASK]
    rw [h2] at h
    rw [h, Nat.mod_eq_of_lt]
    exact lt_of_lt_of_le hlt (by norm_num)
  set f := (s &&& 1) ^^^ ((s >>> k) &&& 1) with hf
  have hb1 : s &&& 1 < 2 := lt_of_le_of_lt Nat.and_le_right (by norm_num)
  have hb2 : (s >>> k) &&& 1 < 2 := lt_of_le_of_lt Nat.and_le_right (by norm_num)
  have hf2 : f < 2 := by
    rw [hf]
    rcases (by omega : s &&& 1 = 0 ∨ s &&& 1 = 1) with h1 | h1 <;>
      rcases (by omega : (s >>> k) &&& 1 = 0 ∨ (s >>> k) &&& 1 = 1) with
        h2 | h2 <;>
      rw [h1, h2] <;> decide
  have hstep : noiseStepVal s k = (s ||| f <<< 14) >>> 1 := by
    rw [noiseStepVal, hmask]
  have hshl : f <<< 14 = f * 16384 := by
    rw [Nat.shiftLeft_eq]
  have hfl : f <<< 14 < 32768 := by
    rw [hshl]
    have : f * 16384 ≤ 1 * 16384 :=
      Nat.mul_le_mul_right _ (Nat.lt_succ_iff.mp hf2)
    omega
  have hor_lt : (s ||| f <<< 14) < 32768 := by
    have h32 : (32768 : Nat) = 2 ^ 15 := by norm_num
    rw [h32]
    exact Nat.or_lt_two_pow (by omega) (by omega)
  constructor
  · rw [hstep, Nat.shiftRight_one]
    rcases (by omega : f = 0 ∨ f = 1) with hfv | hfv
    · rw [hfv]
      simp only [Nat.zero_shiftLeft, Nat.or_zero]
      have hs2 : 2 ≤ s := by
        rcases Nat.lt_or_ge s 2 with hs | hs
        · exfalso
          interval_cases s
          · exact h0 rfl
          · have hsr : (1 : Nat) >>> k = 0 := by
              rw [Nat.shiftRight_eq_div_pow]
              exact Nat.div_eq_of_lt (Nat.one_lt_two_pow_iff.mpr (by omega))
            rw [hf, hsr] at hfv
            simp at hfv
        · exact hs
      have := Nat.div_pos hs2 (by norm_num)
      omega
    · rw [hfv]
      have h14 : (1 : Nat) <<< 14 = 16384 := by decide
      rw [h14]
      have h16 : (16384 : Nat) ≤ s ||| 16384 :=
        Nat.le_of_testBit (by
          intro i h
          simp only [Nat.testBit_or, Bool.or_eq_true]
          exact Or.inr h)
      have := Nat.div_le_div_right (c := 2) h16
      omega
  · rw [hstep, Nat.shiftRight_one]
    exact lt_of_le_of_lt (Nat.div_le_self _ _) hor_lt

theorem Noise.clock_inv (n : Noise) (h0 : n.shift ≠ 0) (hlt : n.shift < 32768) :
    (Noise.clock n).shift ≠ 0 ∧ (Noise.clock n).shift < 32768 := by
  rw [Noise.clock]
  split
  · exact ⟨h0, hlt⟩
  · by_cases hm : n.shift_mode = ShiftMode.one
    · simpa [hm, noiseStepVal] using noiseStepVal_pos n.shift 6 (by norm_num) h0 hlt
    · simpa [hm, noiseStepVal] using noiseStepVal_pos n.shift 1 (by norm_num) h0 hlt

theorem Noise.write_length_shift (n : Noise) (v : Nat) :
    (Noise.write_length n v).shift = n.shift := by
  simp only [Noise.write_length]
  split <;> rfl

theorem Noise.set_enabled_shift (n : Noise) (b : Bool) :
    (Noise.set_enabled n b).shift = n.shift := by
  simp only [Noise.set_enabled]
  split <;> rfl

theorem Noise.applyOp_inv (o : NoiseOp) (n : Noise) (h0 : n.shift ≠ 0)
    (hlt : n.shift < 32768) :
    (Noise.applyOp o n).shift ≠ 0 ∧ (Noise.applyOp o n).shift < 32768 := by
  cases o with
  | clock => exact Noise.clock_inv n h0 hlt
  | quarter => exact ⟨h0, hlt⟩
  | half => exact ⟨h0, hlt⟩
  | reset =>
      refine ⟨?_, ?_⟩ <;> norm_num [Noise.applyOp, Noise.new]
  | writeControl v => exact ⟨h0, hlt⟩
  | writeTimer v => exact ⟨h0, hlt⟩
  | writeLength v =>
      have hs : (Noise.applyOp (NoiseOp.writeLength v) n).shift = n.shift :=
        Noise.write_length_shift n v
      rw [hs]
      exact ⟨h0, hlt⟩
  | setEnabled b =>
      have hs : (Noise.applyOp (NoiseOp.setEnabled b) n).shift = n.shift :=
        Noise.set_enabled_shift n b
      rw [hs]
      exact ⟨h0, hlt⟩

theorem Noise.applyOps_inv (ops : List NoiseOp) (n : Noise) (h0 : n.shift ≠ 0)
    (hlt : n.shift < 32768) :
    (Noise.applyOps ops n).shift ≠ 0 ∧ (Noise.applyOps ops n).shift < 32768 := by
  induction ops generalizing n with
  | nil => exact ⟨h0, hlt⟩
  | cons o rest ih =>
      have h := Noise.applyOp_inv o n h0 hlt
      exact ih (Noise.applyOp o n) h.1 h.2

/-- C10: the noise channel LFSR is initialized to 1 and stays nonzero under
every sequence of operations the emulator ever applies to the Noise struct
(timer clocks in either tap mode, quarter and half frame clocks, the $400C,
$400E and $400F register writes, the $4015 enable gate, and reset), so the
pseudo-random sequence can never lock up at constant output. -/
theorem noise_lfsr_never_zero (ops : List NoiseOp) :
    (Noise.applyOps ops Noise.new).shift ≠ 0 :=
  (Noise.applyOps_inv ops Noise.new (by decide) (by decide)).1

/-! ## C7: palette mirror aliases -/

/-- C7: writing the palette entry at $3F10, $3F14, $3F18 or $3F1C stores to
the same cell as $3F00, $3F04, $3F08 or $3F0C respectively, reads of either
address return that cell, and every other palette entry is unaliased within
the 32-entry palette. -/
theorem palette_mirror_aliases :
    (∀ (p : Nat → Nat) (v : Nat),
      Vram.palette_write p 0x3F10 v = Vram.palette_write p 0x3F00 v ∧
      Vram.palette_write p 0x3F14 v = Vram.palette_write p 0x3F04 v ∧
      Vram.palette_write p 0x3F18 v = Vram.palette_write p 0x3F08 v ∧
      Vram.palette_write p 0x3F1C v = Vram.palette_write p 0x3F0C v ∧
      Vram.palette_peek p 0x3F10 = Vram.palette_peek p 0x3F00 ∧
      Vram.palette_peek p 0x3F14 = Vram.palette_peek p 0x3F04 ∧
      Vram.palette_peek p 0x3F18 = Vram.palette_peek p 0x3F08 ∧
      Vram.palette_peek p 0x3F1C = Vram.palette_peek p 0x3F0C) ∧
    (∀ a : Nat, a < 32 → a ∉ ([16, 20, 24, 28] : List Nat) →
      palette_index a = a) := by
  constructor
  · intro p v
    refine ⟨?_, ?_, ?_, ?_, rfl, rfl, rfl, rfl⟩ <;> rfl
  · intro a ha hnot
    rw [palette_index, if_neg]
    intro ⟨h16, h4⟩
    interval_cases a <;> simp_all

/-- C7 witness: the alias and identity facts evaluated at a concrete palette,
value and index. -/
theorem palette_mirror_aliases_witness :
    Vram.palette_write (fun _ => 0) 0x3F14 9 =
      Vram.palette_write (fun _ => 0) 0x3F04 9 ∧
    palette_index 21 = 21 := by
  refine ⟨(palette_mirror_aliases.1 (fun _ => 0) 9).2.1, ?_⟩
  exact palette_mirror_aliases.2 21 (by norm_num) (by decide)

/-! ## C2: the save and load round trip drops Frame.sprite_zero_on_line -/

/-- C2: the Savable implementation for the PPU Frame omits the
sprite_zero_on_line field from both save and load, so a frame whose
sprite_zero_on_line flag is set does not survive a save-then-load round trip:
loading the saved stream into a fresh Frame yields a structurally different
Frame (the flag reverts to false), refuting load(save(s)) equals s. -/
theorem frame_roundtrip_drops_sprite_zero_on_line :
    Frame.load (Frame.save { Frame.new with sprite_zero_on_line := true })
        Frame.new ≠
      some ({ Frame.new with sprite_zero_on_line := true }, []) ∧
    Frame.load (Frame.save { Frame.new with sprite_zero_on_line := true })
        Frame.new =
      some (Frame.new, []) := by
  constructor
  · decide
  · decide

/-! ## C1: the XXX illegal-opcode handler panics instead of flagging -/

/-- C1: executing an XXX table entry panics. At a concrete power-on state
whose reset vector points at opcode 0x02 (an IMP XXX entry), Cpu clock
aborts (returns none, the model of the panic in Cpu xxx) instead of
completing the instruction; the Cpu struct of console/cpu.rs has no
corrupted flag to surface. -/
theorem cpu_clock_panics_on_xxx :
    (Cpu.clock { Cpu.init { data := fun a => if a = 0 then 0x02 else 0,
                            reads := [] } with pc := 0 }).isNone = true := by
  rfl

/-! ## C6: the $2007 palette-read buffer refill -/

/-- C6: at a concrete state with v = $3F00, every nametable byte 0xAB and
palette entry zero 0xCD, a $2007 read returns the palette byte directly and
increments v by 1 (CTRL.I clear), but refills the internal read buffer with
the palette byte 0xCD rather than any nametable byte (all of which hold
0xAB): the code rereads the palette address for the refill, against the
claim and its own comment. -/
theorem ppudata_palette_read_refills_from_palette :
    (PpuDataPort.read_ppudata
      { v := 0x3F00, ctrl := 0,
        vram := { chr := fun _ => 0, mirroring := Mirroring.horizontal,
                  buffer := 0x11, nametable := fun _ => 0xAB,
                  palette := fun _ => 0xCD } }).1 = 0xCD ∧
    (PpuDataPort.read_ppudata
      { v := 0x3F00, ctrl := 0,
        vram := { chr := fun _ => 0, mirroring := Mirroring.horizontal,
                  buffer := 0x11, nametable := fun _ => 0xAB,
                  palette := fun _ => 0xCD } }).2.vram.buffer = 0xCD ∧
    (PpuDataPort.read_ppudata
      { v := 0x3F00, ctrl := 0,
        vram := { chr := fun _ => 0, mirroring := Mirroring.horizontal,
                  buffer := 0x11, nametable := fun _ => 0xAB,
                  palette := fun _ => 0xCD } }).2.vram.buffer ≠ 0xAB ∧
    (PpuDataPort.read_ppudata
      { v := 0x3F00, ctrl := 0,
        vram := { chr := fun _ => 0, mirroring := Mirroring.horizontal,
                  buffer := 0x11, nametable := fun _ => 0xAB,
                  palette := fun _ => 0xCD } }).2.v = 0x3F01 := by
  refine ⟨rfl, rfl, by decide, rfl⟩

/-! ## C9: save-state file headers -/

/-- C9 counterexample: the legacy save path (util.rs write_save_header,
called by Console save_state and the SRAM code in console.rs) does not begin
with the 8-byte magic TETANES 0x1A: its first bytes are the 9-byte magic
RUSTYNES 0x1A followed by an 8-byte big-endian length and the version
string, so the claim over every save-state file written by the core fails. -/
theorem util_save_header_not_tetanes :
    util_write_save_header.take 8 ≠ SAVE_FILE_MAGIC ∧
    util_write_save_header =
      RUSTYNES_MAGIC ++ [0, 0, 0, 0, 0, 0, 0, 6] ++ UTIL_VERSION := by
  exact ⟨by decide, rfl⟩

/-- C9 (amended): save-state files written by the TetaNES save path
(nes/filesystem.rs save_data) begin with the 8-byte magic TETANES 0x1A
followed by the single-byte major-version tag followed by the
DEFLATE-compressed payload, validate_save_header accepts exactly such
headers, consuming nothing past the 9 header bytes, and a magic or version
mismatch is rejected (none) before any payload is read; the legacy util.rs
path instead writes the RUSTYNES 0x1A header of the counterexample. -/
theorem fs_save_header_format :
    (∀ (vb : Nat) (encode : List Nat → List Nat) (data : List Nat),
      fs_save_data vb encode data = SAVE_FILE_MAGIC ++ vb :: encode data ∧
      fs_validate_save_header vb (fs_save_data vb encode data) =
        some (encode data)) ∧
    (∀ (vb : Nat) (bytes rest : List Nat),
      fs_validate_save_header vb bytes = some rest →
        bytes = SAVE_FILE_MAGIC ++ vb :: rest) := by
  constructor
  · intro vb encode data
    constructor
    · simp [fs_save_data, fs_write_save_header]
    · simp [fs_save_data, fs_write_save_header, fs_validate_save_header,
            SAVE_FILE_MAGIC]
  · intro vb bytes rest h
    rw [fs_validate_save_header] at h
    split at h
    · exact absurd h (by simp)
    · split at h
      · next hmagic =>
        split at h
        · exact absurd h (by simp)
        · next v r heq =>
          split at h
          · next hv =>
            have hr : r = rest := by simpa using h
            have hsplit := (List.take_append_drop 8 bytes).symm
            rw [hmagic, heq, hv, hr] at hsplit
            exact hsplit
          · simp at h
      · simp at h

/-- C9 witness: the amended statement evaluated at version byte 48, the
identity encoder and a 3-byte payload, and at a concrete accepted stream. -/
theorem fs_save_header_format_witness :
    fs_validate_save_header 48 (fs_save_data 48 id [1, 2, 3]) =
      some [1, 2, 3] ∧
    ([84, 69, 84, 65, 78, 69, 83, 0x1A, 48, 7] : List Nat) =
      SAVE_FILE_MAGIC ++ 48 :: [7] := by
  constructor
  · exact (fs_save_header_format.1 48 id [1, 2, 3]).2
  · exact fs_save_header_format.2 48 [84, 69, 84, 65, 78, 69, 83, 0x1A, 48, 7]
      [7] (by decide)

/-! ## C8: $4017 frame counter writes and 5-step mode -/

/-- C8: every Apu write to $4017 succeeds and resets the frame sequencer to
step 1 of its sequence; if bit 7 of the written value is set the write
immediately clocks one quarter frame and one half frame into all four
channels (and leaves them untouched otherwise); and while the frame counter
is in 5-step mode clock_frame_counter never asserts the frame IRQ.-/
theorem apu_write_4017_resets_and_step5_never_irq :
    (∀ (a : Apu) (v : Nat), (Apu.writeReg a 0x4017 v).isSome = true) ∧
    (∀ (a : Apu) (v : Nat) (a2 : Apu), Apu.writeReg a 0x4017 v = some a2 →
      a2.frame.step = 1 ∧
      (((v >>> 7) &&& 1) ≠ 0 →
        a2.pulse1 = a.pulse1.clock_quarter_frame.clock_half_frame ∧
        a2.pulse2 = a.pulse2.clock_quarter_frame.clock_half_frame ∧
        a2.triangle = a.triangle.clock_quarter_frame.clock_half_frame ∧
        a2.noise = a.noise.clock_quarter_frame.clock_half_frame) ∧
      (((v >>> 7) &&& 1) = 0 →
        a2.pulse1 = a.pulse1 ∧ a2.pulse2 = a.pulse2 ∧
        a2.triangle = a.triangle ∧ a2.noise = a.noise)) ∧
    (∀ (a a2 : Apu), a.frame.mode = FCMode.step5 →
      Apu.clock_frame_counter a = some a2 →
      a2.irq_pending = a.irq_pending) := by
  have hreg : ∀ (a : Apu) (v : Nat),
      Apu.writeReg a 0x4017 v =
        Apu.write_frame_counter { a with open_bus := v % 256 } v :=
    fun a v => rfl
  refine ⟨?_, ?_, ?_⟩
  · intro a v
    rw [hreg, Apu.write_frame_counter]
    by_cases hb : v >>> 7 % 2 = 0 <;>
      by_cases hc : a.cycle % 2 = 0 <;>
      simp [Apu.next_frame_counter, Nat.and_one_is_mod, hb, hc]
  · intro a v a2 h
    rw [hreg, Apu.write_frame_counter] at h
    by_cases hb : v >>> 7 % 2 = 0 <;>
      by_cases hc : a.cycle % 2 = 0 <;>
      simp only [Apu.next_frame_counter, Nat.and_one_is_mod, hb, hc,
        if_true, if_false, ite_true, ite_false, reduceIte] at h <;>
      simp only [Apu.clock_quarter_frame, Apu.clock_half_frame] at h <;>
      split at h <;>
      (try cases h) <;>
      refine ⟨rfl, fun hbit => ?_, fun hbit => ?_⟩ <;>
      rw [Nat.and_one_is_mod] at hbit <;>
      first
      | exact absurd hb hbit
      | exact absurd hbit hb
      | exact ⟨rfl, rfl, rfl, rfl⟩
  · intro a a2 hm h
    rw [Apu.clock_frame_counter] at h
    split at h
    · cases h; rfl
    · have hfr : (Apu.frame_seq_clock a).frame = a.frame := by
        rw [Apu.frame_seq_clock]
        split <;> rfl
      have hip : (Apu.frame_seq_clock a).irq_pending = a.irq_pending := by
        rw [Apu.frame_seq_clock]
        split <;> rfl
      have hne : (FCMode.step5 = FCMode.step4) = False := by simp
      simp only [hfr, hip, hm, hne, false_and, and_false, if_false,
        ite_false] at h
      split at h
      · simp at h
      · cases h
        split <;> rfl

/-! ## CPU bookkeeping lemmas shared by the timing claims -/

theorem Cpu.read_snd (s : Cpu) (a : Nat) :
    (Cpu.read s a).2 = { s with mem := (Mem.read s.mem a).2 } := rfl

theorem Cpu.read_fst (s : Cpu) (a : Nat) :
    (Cpu.read s a).1 = s.mem.data (a % 65536) % 256 := rfl

theorem Cpu.oamdmaLoop_cycle_count (k : Nat) :
    ∀ (addr : Nat) (s : Cpu),
      (Cpu.oamdmaLoop k addr s).cycle_count = s.cycle_count := by
  induction k with
  | zero => intro addr s; rfl
  | succ k ih =>
      intro addr s
      rw [Cpu.oamdmaLoop, ih]
      rfl

theorem Cpu.oamdmaLoop_instr (k : Nat) :
    ∀ (addr : Nat) (s : Cpu),
      (Cpu.oamdmaLoop k addr s).instr = s.instr := by
  induction k with
  | zero => intro addr s; rfl
  | succ k ih =>
      intro addr s
      rw [Cpu.oamdmaLoop, ih]
      rfl

theorem Cpu.write_oamdma_cycle_count (s : Cpu) (v : Nat) :
    (Cpu.write_oamdma s v).cycle_count = s.cycle_count := by
  rw [Cpu.write_oamdma]
  split <;> simp [Cpu.oamdmaLoop_cycle_count]

theorem Cpu.write_oamdma_instr (s : Cpu) (v : Nat) :
    (Cpu.write_oamdma s v).instr = s.instr := by
  rw [Cpu.write_oamdma]
  split <;> simp [Cpu.oamdmaLoop_instr]

theorem Cpu.write_cycle_count (s : Cpu) (a v : Nat) :
    (Cpu.write s a v).cycle_count = s.cycle_count := by
  rw [Cpu.write]
  split
  · exact Cpu.write_oamdma_cycle_count s v
  · rfl

theorem Cpu.write_instr (s : Cpu) (a v : Nat) :
    (Cpu.write s a v).instr = s.instr := by
  rw [Cpu.write]
  split
  · exact Cpu.write_oamdma_instr s v
  · rfl

theorem Cpu.set_flag_cycle_count (s : Cpu) (f : Nat) (b : Bool) :
    (Cpu.set_flag s f b).cycle_count = s.cycle_count := by
  rw [Cpu.set_flag]
  split <;> rfl

theorem Cpu.set_flag_instr (s : Cpu) (f : Nat) (b : Bool) :
    (Cpu.set_flag s f b).instr = s.instr := by
  rw [Cpu.set_flag]
  split <;> rfl

theorem Cpu.set_flags_zn_cycle_count (s : Cpu) (v : Nat) :
    (Cpu.set_flags_zn s v).cycle_count = s.cycle_count := by
  rw [Cpu.set_flags_zn, Cpu.set_flag_cycle_count, Cpu.set_flag_cycle_count]

theorem Cpu.set_flags_zn_instr (s : Cpu) (v : Nat) :
    (Cpu.set_flags_zn s v).instr = s.instr := by
  rw [Cpu.set_flags_zn, Cpu.set_flag_instr, Cpu.set_flag_instr]

theorem Cpu.push_stackb_cycle_count (s : Cpu) (v : Nat) :
    (Cpu.push_stackb s v).cycle_count = s.cycle_count := by
  rw [Cpu.push_stackb]
  simp [Cpu.write_cycle_count]

theorem Cpu.push_stackb_instr (s : Cpu) (v : Nat) :
    (Cpu.push_stackb s v).instr = s.instr := by
  rw [Cpu.push_stackb]
  simp [Cpu.write_instr]

theorem Cpu.push_stackw_cycle_count (s : Cpu) (v : Nat) :
    (Cpu.push_stackw s v).cycle_count = s.cycle_count := by
  rw [Cpu.push_stackw, Cpu.push_stackb_cycle_count, Cpu.push_stackb_cycle_count]

theorem Cpu.push_stackw_instr (s : Cpu) (v : Nat) :
    (Cpu.push_stackw s v).instr = s.instr := by
  rw [Cpu.push_stackw, Cpu.push_stackb_instr, Cpu.push_stackb_instr]

theorem Cpu.pop_stackb_cycle_count (s : Cpu) :
    ((Cpu.pop_stackb s).2).cycle_count = s.cycle_count := rfl

theorem Cpu.pop_stackb_instr (s : Cpu) :
    ((Cpu.pop_stackb s).2).instr = s.instr := rfl

theorem Cpu.pop_stackw_cycle_count (s : Cpu) :
    ((Cpu.pop_stackw s).2).cycle_count = s.cycle_count := rfl

theorem Cpu.pop_stackw_instr (s : Cpu) :
    ((Cpu.pop_stackw s).2).instr = s.instr := rfl

theorem Cpu.readw_cycle_count (s : Cpu) (a : Nat) :
    ((Cpu.readw s a).2).cycle_count = s.cycle_count := rfl

theorem Cpu.readw_instr (s : Cpu) (a : Nat) :
    ((Cpu.readw s a).2).instr = s.instr := rfl

theorem Cpu.readw_zp_cycle_count (s : Cpu) (a : Nat) :
    ((Cpu.readw_zp s a).2).cycle_count = s.cycle_count := rfl

theorem Cpu.readw_zp_instr (s : Cpu) (a : Nat) :
    ((Cpu.readw_zp s a).2).instr = s.instr := rfl

theorem Cpu.fetch_data_cycle_count (s : Cpu) :
    (Cpu.fetch_data s).cycle_count = s.cycle_count := by
  rw [Cpu.fetch_data]
  split <;> rfl

theorem Cpu.fetch_data_instr (s : Cpu) :
    (Cpu.fetch_data s).instr = s.instr := by
  rw [Cpu.fetch_data]
  split <;> rfl

theorem Cpu.write_fetched_cycle_count (s : Cpu) (v : Nat) :
    (Cpu.write_fetched s v).cycle_count = s.cycle_count := by
  rw [Cpu.write_fetched]
  split
  · rfl
  · exact Cpu.write_cycle_count s s.abs_addr v

theorem Cpu.write_fetched_instr (s : Cpu) (v : Nat) :
    (Cpu.write_fetched s v).instr = s.instr := by
  rw [Cpu.write_fetched]
  split
  · rfl
  · exact Cpu.write_instr s s.abs_addr v

theorem Cpu.compare_cycle_count (s : Cpu) (a b : Nat) :
    (Cpu.compare s a b).cycle_count = s.cycle_count := by
  rw [Cpu.compare, Cpu.set_flag_cycle_count, Cpu.set_flags_zn_cycle_count]

theorem Cpu.compare_instr (s : Cpu) (a b : Nat) :
    (Cpu.compare s a b).instr = s.instr := by
  rw [Cpu.compare, Cpu.set_flag_instr, Cpu.set_flags_zn_instr]

theorem Cpu.irq_cycle_count (s : Cpu) :
    (Cpu.irq s).cycle_count = (s.cycle_count + 7) % U64_MOD := by
  rw [Cpu.irq]
  simp [Cpu.set_flag_cycle_count, Cpu.readw_cycle_count,
    Cpu.push_stackb_cycle_count, Cpu.push_stackw_cycle_count]

theorem Cpu.nmi_cycle_count (s : Cpu) :
    (Cpu.nmi s).cycle_count = (s.cycle_count + 7) % U64_MOD := by
  rw [Cpu.nmi]
  simp [Cpu.set_flag_cycle_count, Cpu.readw_cycle_count,
    Cpu.push_stackb_cycle_count, Cpu.push_stackw_cycle_count]

theorem Cpu.runMode_cycle_count (m : AddrMode) (s : Cpu) :
    ((Cpu.runMode m s).2).cycle_count = s.cycle_count := by
  cases m <;>
    simp only [Cpu.runMode, Cpu.imm, Cpu.zp0, Cpu.zpx, Cpu.zpy, Cpu.absMode,
      Cpu.abx, Cpu.aby, Cpu.ind, Cpu.idx, Cpu.idy, Cpu.rel, Cpu.accMode,
      Cpu.impMode] <;>
    (repeat' split) <;> rfl

theorem Cpu.runMode_instr (m : AddrMode) (s : Cpu) :
    ((Cpu.runMode m s).2).instr = s.instr := by
  cases m <;>
    simp only [Cpu.runMode, Cpu.imm, Cpu.zp0, Cpu.zpx, Cpu.zpy, Cpu.absMode,
      Cpu.abx, Cpu.aby, Cpu.ind, Cpu.idx, Cpu.idy, Cpu.rel, Cpu.accMode,
      Cpu.impMode] <;>
    (repeat' split) <;> rfl

theorem Cpu.runMode_fst_le (m : AddrMode) (s : Cpu) :
    (Cpu.runMode m s).1 ≤ 1 := by
  cases m <;>
    simp only [Cpu.runMode, Cpu.imm, Cpu.zp0, Cpu.zpx, Cpu.zpy, Cpu.absMode,
      Cpu.abx, Cpu.aby, Cpu.ind, Cpu.idx, Cpu.idy, Cpu.rel, Cpu.accMode,
      Cpu.impMode] <;>
    (repeat' split) <;> simp

theorem Cpu.lda_cycle2 (s : Cpu) :
    ((Cpu.lda s).2).cycle_count = s.cycle_count := by
  simp [Cpu.lda, Cpu.fetch_data_cycle_count, Cpu.write_fetched_cycle_count, Cpu.set_flag_cycle_count, Cpu.set_flags_zn_cycle_count, Cpu.compare_cycle_count, Cpu.push_stackb_cycle_count, Cpu.push_stackw_cycle_count, Cpu.pop_stackb_cycle_count, Cpu.pop_stackw_cycle_count, Cpu.readw_cycle_count, Cpu.write_cycle_count]

theorem Cpu.ldx_cycle2 (s : Cpu) :
    ((Cpu.ldx s).2).cycle_count = s.cycle_count := by
  simp [Cpu.ldx, Cpu.fetch_data_cycle_count, Cpu.write_fetched_cycle_count, Cpu.set_flag_cycle_count, Cpu.set_flags_zn_cycle_count, Cpu.compare_cycle_count, Cpu.push_stackb_cycle_count, Cpu.push_stackw_cycle_count, Cpu.pop_stackb_cycle_count, Cpu.pop_stackw_cycle_count, Cpu.readw_cycle_count, Cpu.write_cycle_count]

theorem Cpu.ldy_cycle2 (s : Cpu) :
    ((Cpu.ldy s).2).cycle_count = s.cycle_count := by
  simp [Cpu.ldy, Cpu.fetch_data_cycle_count, Cpu.write_fetched_cycle_count, Cpu.set_flag_cycle_count, Cpu.set_flags_zn_cycle_count, Cpu.compare_cycle_count, Cpu.push_stackb_cycle_count, Cpu.push_stackw_cycle_count, Cpu.pop_stackb_cycle_count, Cpu.pop_stackw_cycle_count, Cpu.readw_cycle_count, Cpu.write_cycle_count]

theorem Cpu.sta_cycle2 (s : Cpu) :
    ((Cpu.sta s).2).cycle_count = s.cycle_count := by
  simp [Cpu.sta, Cpu.fetch_data_cycle_count, Cpu.write_fetched_cycle_count, Cpu.set_flag_cycle_count, Cpu.set_flags_zn_cycle_count, Cpu.compare_cycle_count, Cpu.push_stackb_cycle_count, Cpu.push_stackw_cycle_count, Cpu.pop_stackb_cycle_count, Cpu.pop_stackw_cycle_count, Cpu.readw_cycle_count, Cpu.write_cycle_count]

theorem Cpu.stx_cycle2 (s : Cpu) :
    ((Cpu.stx s).2).cycle_count = s.cycle_count := by
  simp [Cpu.stx, Cpu.fetch_data_cycle_count, Cpu.write_fetched_cycle_count, Cpu.set_flag_cycle_count, Cpu.set_flags_zn_cycle_count, Cpu.compare_cycle_count, Cpu.push_stackb_cycle_count, Cpu.push_stackw_cycle_count, Cpu.pop_stackb_cycle_count, Cpu.pop_stackw_cycle_count, Cpu.readw_cycle_count, Cpu.write_cycle_count]

theorem Cpu.sty_cycle2 (s : Cpu) :
    ((Cpu.sty s).2).cycle_count = s.cycle_count := by
  simp [Cpu.sty, Cpu.fetch_data_cycle_count, Cpu.write_fetched_cycle_count, Cpu.set_flag_cycle_count, Cpu.set_flags_zn_cycle_count, Cpu.compare_cycle_count, Cpu.push_stackb_cycle_count, Cpu.push_stackw_cycle_count, Cpu.pop_stackb_cycle_count, Cpu.pop_stackw_cycle_count, Cpu.readw_cycle_count, Cpu.write_cycle_count]

theorem Cpu.tax_cycle2 (s : Cpu) :
    ((Cpu.tax s).2).cycle_count = s.cycle_count := by
  simp [Cpu.tax, Cpu.fetch_data_cycle_count, Cpu.write_fetched_cycle_count, Cpu.set_flag_cycle_count, Cpu.set_flags_zn_cycle_count, Cpu.compare_cycle_count, Cpu.push_stackb_cycle_count, Cpu.push_stackw_cycle_count, Cpu.pop_stackb_cycle_count, Cpu.pop_stackw_cycle_count, Cpu.readw_cycle_count, Cpu.write_cycle_count]

theorem Cpu.tay_cycle2 (s : Cpu) :
    ((Cpu.tay s).2).cycle_count = s.cycle_count := by
  simp [Cpu.tay, Cpu.fetch_data_cycle_count, Cpu.write_fetched_cycle_count, Cpu.set_flag_cycle_count, Cpu.set_flags_zn_cycle_count, Cpu.compare_cycle_count, Cpu.push_stackb_cycle_count, Cpu.push_stackw_cycle_count, Cpu.pop_stackb_cycle_count, Cpu.pop_stackw_cycle_count, Cpu.readw_cycle_count, Cpu.write_cycle_count]

theorem Cpu.tsx_cycle2 (s : Cpu) :
    ((Cpu.tsx s).2).cycle_count = s.cycle_count := by
  simp [Cpu.tsx, Cpu.fetch_data_cycle_count, Cpu.write_fetched_cycle_count, Cpu.set_flag_cycle_count, Cpu.set_flags_zn_cycle_count, Cpu.compare_cycle_count, Cpu.push_stackb_cycle_count, Cpu.push_stackw_cycle_count, Cpu.pop_stackb_cycle_count, Cpu.pop_stackw_cycle_count, Cpu.readw_cycle_count, Cpu.write_cycle_count]

theorem Cpu.txa_cycle2 (s : Cpu) :
    ((Cpu.txa s).2).cycle_count = s.cycle_count := by
  simp [Cpu.txa, Cpu.fetch_data_cycle_count, Cpu.write_fetched_cycle_count, Cpu.set_flag_cycle_count, Cpu.set_flags_zn_cycle_count, Cpu.compare_cycle_count, Cpu.push_stackb_cycle_count, Cpu.push_stackw_cycle_count, Cpu.pop_stackb_cycle_count, Cpu.pop_stackw_cycle_count, Cpu.readw_cycle_count, Cpu.write_cycle_count]

theorem Cpu.txs_cycle2 (s : Cpu) :
    ((Cpu.txs s).2).cycle_count = s.cycle_count := by
  simp [Cpu.txs, Cpu.fetch_data_cycle_count, Cpu.write_fetched_cycle_count, Cpu.set_flag_cycle_count, Cpu.set_flags_zn_cycle_count, Cpu.compare_cycle_count, Cpu.push_stackb_cycle_count, Cpu.push_stackw_cycle_count, Cpu.pop_stackb_cycle_count, Cpu.pop_stackw_cycle_count, Cpu.readw_cycle_count, Cpu.write_cycle_count]

theorem Cpu.tya_cycle2 (s : Cpu) :
    ((Cpu.tya s).2).cycle_count = s.cycle_count := by
  simp [Cpu.tya, Cpu.fetch_data_cycle_count, Cpu.write_fetched_cycle_count, Cpu.set_flag_cycle_count, Cpu.set_flags_zn_cycle_count, Cpu.compare_cycle_count, Cpu.push_stackb_cycle_count, Cpu.push_stackw_cycle_count, Cpu.pop_stackb_cycle_count, Cpu.pop_stackw_cycle_count, Cpu.readw_cycle_count, Cpu.write_cycle_count]

theorem Cpu.adc_cycle2 (s : Cpu) :
    ((Cpu.adc s).2).cycle_count = s.cycle_count := by
  simp [Cpu.adc, Cpu.fetch_data_cycle_count, Cpu.write_fetched_cycle_count, Cpu.set_flag_cycle_count, Cpu.set_flags_zn_cycle_count, Cpu.compare_cycle_count, Cpu.push_stackb_cycle_count, Cpu.push_stackw_cycle_count, Cpu.pop_stackb_cycle_count, Cpu.pop_stackw_cycle_count, Cpu.readw_cycle_count, Cpu.write_cycle_count]

theorem Cpu.sbc_cycle2 (s : Cpu) :
    ((Cpu.sbc s).2).cycle_count = s.cycle_count := by
  simp [Cpu.sbc, Cpu.fetch_data_cycle_count, Cpu.write_fetched_cycle_count, Cpu.set_flag_cycle_count, Cpu.set_flags_zn_cycle_count, Cpu.compare_cycle_count, Cpu.push_stackb_cycle_count, Cpu.push_stackw_cycle_count, Cpu.pop_stackb_cycle_count, Cpu.pop_stackw_cycle_count, Cpu.readw_cycle_count, Cpu.write_cycle_count]

theorem Cpu.dec_cycle2 (s : Cpu) :
    ((Cpu.dec s).2).cycle_count = s.cycle_count := by
  simp [Cpu.dec, Cpu.fetch_data_cycle_count, Cpu.write_fetched_cycle_count, Cpu.set_flag_cycle_count, Cpu.set_flags_zn_cycle_count, Cpu.compare_cycle_count, Cpu.push_stackb_cycle_count, Cpu.push_stackw_cycle_count, Cpu.pop_stackb_cycle_count, Cpu.pop_stackw_cycle_count, Cpu.readw_cycle_count, Cpu.write_cycle_count]

theorem Cpu.dex_cycle2 (s : Cpu) :
    ((Cpu.dex s).2).cycle_count = s.cycle_count := by
  simp [Cpu.dex, Cpu.fetch_data_cycle_count, Cpu.write_fetched_cycle_count, Cpu.set_flag_cycle_count, Cpu.set_flags_zn_cycle_count, Cpu.compare_cycle_count, Cpu.push_stackb_cycle_count, Cpu.push_stackw_cycle_count, Cpu.pop_stackb_cycle_count, Cpu.pop_stackw_cycle_count, Cpu.readw_cycle_count, Cpu.write_cycle_count]

theorem Cpu.dey_cycle2 (s : Cpu) :
    ((Cpu.dey s).2).cycle_count = s.cycle_count := by
  simp [Cpu.dey, Cpu.fetch_data_cycle_count, Cpu.write_fetched_cycle_count, Cpu.set_flag_cycle_count, Cpu.set_flags_zn_cycle_count, Cpu.compare_cycle_count, Cpu.push_stackb_cycle_count, Cpu.push_stackw_cycle_count, Cpu.pop_stackb_cycle_count, Cpu.pop_stackw_cycle_count, Cpu.readw_cycle_count, Cpu.write_cycle_count]

theorem Cpu.inc_cycle2 (s : Cpu) :
    ((Cpu.inc s).2).cycle_count = s.cycle_count := by
  simp [Cpu.inc, Cpu.fetch_data_cycle_count, Cpu.write_fetched_cycle_count, Cpu.set_flag_cycle_count, Cpu.set_flags_zn_cycle_count, Cpu.compare_cycle_count, Cpu.push_stackb_cycle_count, Cpu.push_stackw_cycle_count, Cpu.pop_stackb_cycle_count, Cpu.pop_stackw_cycle_count, Cpu.readw_cycle_count, Cpu.write_cycle_count]

theorem Cpu.inx_cycle2 (s : Cpu) :
    ((Cpu.inx s).2).cycle_count = s.cycle_count := by
  simp [Cpu.inx, Cpu.fetch_data_cycle_count, Cpu.write_fetched_cycle_count, Cpu.set_flag_cycle_count, Cpu.set_flags_zn_cycle_count, Cpu.compare_cycle_count, Cpu.push_stackb_cycle_count, Cpu.push_stackw_cycle_count, Cpu.pop_stackb_cycle_count, Cpu.pop_stackw_cycle_count, Cpu.readw_cycle_count, Cpu.write_cycle_count]

theorem Cpu.iny_cycle2 (s : Cpu) :
    ((Cpu.iny s).2).cycle_count = s.cycle_count := by
  simp [Cpu.iny, Cpu.fetch_data_cycle_count, Cpu.write_fetched_cycle_count, Cpu.set_flag_cycle_count, Cpu.set_flags_zn_cycle_count, Cpu.compare_cycle_count, Cpu.push_stackb_cycle_count, Cpu.push_stackw_cycle_count, Cpu.pop_stackb_cycle_count, Cpu.pop_stackw_cycle_count, Cpu.readw_cycle_count, Cpu.write_cycle_count]

theorem Cpu.andOp_cycle2 (s : Cpu) :
    ((Cpu.andOp s).2).cycle_count = s.cycle_count := by
  simp [Cpu.andOp, Cpu.fetch_data_cycle_count, Cpu.write_fetched_cycle_count, Cpu.set_flag_cycle_count, Cpu.set_flags_zn_cycle_count, Cpu.compare_cycle_count, Cpu.push_stackb_cycle_count, Cpu.push_stackw_cycle_count, Cpu.pop_stackb_cycle_count, Cpu.pop_stackw_cycle_count, Cpu.readw_cycle_count, Cpu.write_cycle_count]

theorem Cpu.asl_cycle2 (s : Cpu) :
    ((Cpu.asl s).2).cycle_count = s.cycle_count := by
  simp [Cpu.asl, Cpu.fetch_data_cycle_count, Cpu.write_fetched_cycle_count, Cpu.set_flag_cycle_count, Cpu.set_flags_zn_cycle_count, Cpu.compare_cycle_count, Cpu.push_stackb_cycle_count, Cpu.push_stackw_cycle_count, Cpu.pop_stackb_cycle_count, Cpu.pop_stackw_cycle_count, Cpu.readw_cycle_count, Cpu.write_cycle_count]

theorem Cpu.bit_cycle2 (s : Cpu) :
    ((Cpu.bit s).2).cycle_count = s.cycle_count := by
  simp [Cpu.bit, Cpu.fetch_data_cycle_count, Cpu.write_fetched_cycle_count, Cpu.set_flag_cycle_count, Cpu.set_flags_zn_cycle_count, Cpu.compare_cycle_count, Cpu.push_stackb_cycle_count, Cpu.push_stackw_cycle_count, Cpu.pop_stackb_cycle_count, Cpu.pop_stackw_cycle_count, Cpu.readw_cycle_count, Cpu.write_cycle_count]

theorem Cpu.eor_cycle2 (s : Cpu) :
    ((Cpu.eor s).2).cycle_count = s.cycle_count := by
  simp [Cpu.eor, Cpu.fetch_data_cycle_count, Cpu.write_fetched_cycle_count, Cpu.set_flag_cycle_count, Cpu.set_flags_zn_cycle_count, Cpu.compare_cycle_count, Cpu.push_stackb_cycle_count, Cpu.push_stackw_cycle_count, Cpu.pop_stackb_cycle_count, Cpu.pop_stackw_cycle_count, Cpu.readw_cycle_count, Cpu.write_cycle_count]

theorem Cpu.lsr_cycle2 (s : Cpu) :
    ((Cpu.lsr s).2).cycle_count = s.cycle_count := by
  simp [Cpu.lsr, Cpu.fetch_data_cycle_count, Cpu.write_fetched_cycle_count, Cpu.set_flag_cycle_count, Cpu.set_flags_zn_cycle_count, Cpu.compare_cycle_count, Cpu.push_stackb_cycle_count, Cpu.push_stackw_cycle_count, Cpu.pop_stackb_cycle_count, Cpu.pop_stackw_cycle_count, Cpu.readw_cycle_count, Cpu.write_cycle_count]

theorem Cpu.ora_cycle2 (s : Cpu) :
    ((Cpu.ora s).2).cycle_count = s.cycle_count := by
  simp [Cpu.ora, Cpu.fetch_data_cycle_count, Cpu.write_fetched_cycle_count, Cpu.set_flag_cycle_count, Cpu.set_flags_zn_cycle_count, Cpu.compare_cycle_count, Cpu.push_stackb_cycle_count, Cpu.push_stackw_cycle_count, Cpu.pop_stackb_cycle_count, Cpu.pop_stackw_cycle_count, Cpu.readw_cycle_count, Cpu.write_cycle_count]

theorem Cpu.rol_cycle2 (s : Cpu) :
    ((Cpu.rol s).2).cycle_count = s.cycle_count := by
  simp [Cpu.rol, Cpu.fetch_data_cycle_count, Cpu.write_fetched_cycle_count, Cpu.set_flag_cycle_count, Cpu.set_flags_zn_cycle_count, Cpu.compare_cycle_count, Cpu.push_stackb_cycle_count, Cpu.push_stackw_cycle_count, Cpu.pop_stackb_cycle_count, Cpu.pop_stackw_cycle_count, Cpu.readw_cycle_count, Cpu.write_cycle_count]

theorem Cpu.ror_cycle2 (s : Cpu) :
    ((Cpu.ror s).2).cycle_count = s.cycle_count := by
  simp [Cpu.ror, Cpu.fetch_data_cycle_count, Cpu.write_fetched_cycle_count, Cpu.set_flag_cycle_count, Cpu.set_flags_zn_cycle_count, Cpu.compare_cycle_count, Cpu.push_stackb_cycle_count, Cpu.push_stackw_cycle_count, Cpu.pop_stackb_cycle_count, Cpu.pop_stackw_cycle_count, Cpu.readw_cycle_count, Cpu.write_cycle_count]

theorem Cpu.jmp_cycle2 (s : Cpu) :
    ((Cpu.jmp s).2).cycle_count = s.cycle_count := by
  simp [Cpu.jmp, Cpu.fetch_data_cycle_count, Cpu.write_fetched_cycle_count, Cpu.set_flag_cycle_count, Cpu.set_flags_zn_cycle_count, Cpu.compare_cycle_count, Cpu.push_stackb_cycle_count, Cpu.push_stackw_cycle_count, Cpu.pop_stackb_cycle_count, Cpu.pop_stackw_cycle_count, Cpu.readw_cycle_count, Cpu.write_cycle_count]

theorem Cpu.jsr_cycle2 (s : Cpu) :
    ((Cpu.jsr s).2).cycle_count = s.cycle_count := by
  simp [Cpu.jsr, Cpu.fetch_data_cycle_count, Cpu.write_fetched_cycle_count, Cpu.set_flag_cycle_count, Cpu.set_flags_zn_cycle_count, Cpu.compare_cycle_count, Cpu.push_stackb_cycle_count, Cpu.push_stackw_cycle_count, Cpu.pop_stackb_cycle_count, Cpu.pop_stackw_cycle_count, Cpu.readw_cycle_count, Cpu.write_cycle_count]

theorem Cpu.rti_cycle2 (s : Cpu) :
    ((Cpu.rti s).2).cycle_count = s.cycle_count := by
  simp [Cpu.rti, Cpu.fetch_data_cycle_count, Cpu.write_fetched_cycle_count, Cpu.set_flag_cycle_count, Cpu.set_flags_zn_cycle_count, Cpu.compare_cycle_count, Cpu.push_stackb_cycle_count, Cpu.push_stackw_cycle_count, Cpu.pop_stackb_cycle_count, Cpu.pop_stackw_cycle_count, Cpu.readw_cycle_count, Cpu.write_cycle_count]

theorem Cpu.rts_cycle2 (s : Cpu) :
    ((Cpu.rts s).2).cycle_count = s.cycle_count := by
  simp [Cpu.rts, Cpu.fetch_data_cycle_count, Cpu.write_fetched_cycle_count, Cpu.set_flag_cycle_count, Cpu.set_flags_zn_cycle_count, Cpu.compare_cycle_count, Cpu.push_stackb_cycle_count, Cpu.push_stackw_cycle_count, Cpu.pop_stackb_cycle_count, Cpu.pop_stackw_cycle_count, Cpu.readw_cycle_count, Cpu.write_cycle_count]

theorem Cpu.clc_cycle2 (s : Cpu) :
    ((Cpu.clc s).2).cycle_count = s.cycle_count := by
  simp [Cpu.clc, Cpu.fetch_data_cycle_count, Cpu.write_fetched_cycle_count, Cpu.set_flag_cycle_count, Cpu.set_flags_zn_cycle_count, Cpu.compare_cycle_count, Cpu.push_stackb_cycle_count, Cpu.push_stackw_cycle_count, Cpu.pop_stackb_cycle_count, Cpu.pop_stackw_cycle_count, Cpu.readw_cycle_count, Cpu.write_cycle_count]

theorem Cpu.sec_cycle2 (s : Cpu) :
    ((Cpu.sec s).2).cycle_count = s.cycle_count := by
  simp [Cpu.sec, Cpu.fetch_data_cycle_count, Cpu.write_fetched_cycle_count, Cpu.set_flag_cycle_count, Cpu.set_flags_zn_cycle_count, Cpu.compare_cycle_count, Cpu.push_stackb_cycle_count, Cpu.push_stackw_cycle_count, Cpu.pop_stackb_cycle_count, Cpu.pop_stackw_cycle_count, Cpu.readw_cycle_count, Cpu.write_cycle_count]

theorem Cpu.cld_cycle2 (s : Cpu) :
    ((Cpu.cld s).2).cycle_count = s.cycle_count := by
  simp [Cpu.cld, Cpu.fetch_data_cycle_count, Cpu.write_fetched_cycle_count, Cpu.set_flag_cycle_count, Cpu.set_flags_zn_cycle_count, Cpu.compare_cycle_count, Cpu.push_stackb_cycle_count, Cpu.push_stackw_cycle_count, Cpu.pop_stackb_cycle_count, Cpu.pop_stackw_cycle_count, Cpu.readw_cycle_count, Cpu.write_cycle_count]

theorem Cpu.sed_cycle2 (s : Cpu) :
    ((Cpu.sed s).2).cycle_count = s.cycle_count := by
  simp [Cpu.sed, Cpu.fetch_data_cycle_count, Cpu.write_fetched_cycle_count, Cpu.set_flag_cycle_count, Cpu.set_flags_zn_cycle_count, Cpu.compare_cycle_count, Cpu.push_stackb_cycle_count, Cpu.push_stackw_cycle_count, Cpu.pop_stackb_cycle_count, Cpu.pop_stackw_cycle_count, Cpu.readw_cycle_count, Cpu.write_cycle_count]

theorem Cpu.cli_cycle2 (s : Cpu) :
    ((Cpu.cli s).2).cycle_count = s.cycle_count := by
  simp [Cpu.cli, Cpu.fetch_data_cycle_count, Cpu.write_fetched_cycle_count, Cpu.set_flag_cycle_count, Cpu.set_flags_zn_cycle_count, Cpu.compare_cycle_count, Cpu.push_stackb_cycle_count, Cpu.push_stackw_cycle_count, Cpu.pop_stackb_cycle_count, Cpu.pop_stackw_cycle_count, Cpu.readw_cycle_count, Cpu.write_cycle_count]

theorem Cpu.sei_cycle2 (s : Cpu) :
    ((Cpu.sei s).2).cycle_count = s.cycle_count := by
  simp [Cpu.sei, Cpu.fetch_data_cycle_count, Cpu.write_fetched_cycle_count, Cpu.set_flag_cycle_count, Cpu.set_flags_zn_cycle_count, Cpu.compare_cycle_count, Cpu.push_stackb_cycle_count, Cpu.push_stackw_cycle_count, Cpu.pop_stackb_cycle_count, Cpu.pop_stackw_cycle_count, Cpu.readw_cycle_count, Cpu.write_cycle_count]

theorem Cpu.clv_cycle2 (s : Cpu) :
    ((Cpu.clv s).2).cycle_count = s.cycle_count := by
  simp [Cpu.clv, Cpu.fetch_data_cycle_count, Cpu.write_fetched_cycle_count, Cpu.set_flag_cycle_count, Cpu.set_flags_zn_cycle_count, Cpu.compare_cycle_count, Cpu.push_stackb_cycle_count, Cpu.push_stackw_cycle_count, Cpu.pop_stackb_cycle_count, Cpu.pop_stackw_cycle_count, Cpu.readw_cycle_count, Cpu.write_cycle_count]

theorem Cpu.cmp_cycle2 (s : Cpu) :
    ((Cpu.cmp s).2).cycle_count = s.cycle_count := by
  simp [Cpu.cmp, Cpu.fetch_data_cycle_count, Cpu.write_fetched_cycle_count, Cpu.set_flag_cycle_count, Cpu.set_flags_zn_cycle_count, Cpu.compare_cycle_count, Cpu.push_stackb_cycle_count, Cpu.push_stackw_cycle_count, Cpu.pop_stackb_cycle_count, Cpu.pop_stackw_cycle_count, Cpu.readw_cycle_count, Cpu.write_cycle_count]

theorem Cpu.cpx_cycle2 (s : Cpu) :
    ((Cpu.cpx s).2).cycle_count = s.cycle_count := by
  simp [Cpu.cpx, Cpu.fetch_data_cycle_count, Cpu.write_fetched_cycle_count, Cpu.set_flag_cycle_count, Cpu.set_flags_zn_cycle_count, Cpu.compare_cycle_count, Cpu.push_stackb_cycle_count, Cpu.push_stackw_cycle_count, Cpu.pop_stackb_cycle_count, Cpu.pop_stackw_cycle_count, Cpu.readw_cycle_count, Cpu.write_cycle_count]

theorem Cpu.cpy_cycle2 (s : Cpu) :
    ((Cpu.cpy s).2).cycle_count = s.cycle_count := by
  simp [Cpu.cpy, Cpu.fetch_data_cycle_count, Cpu.write_fetched_cycle_count, Cpu.set_flag_cycle_count, Cpu.set_flags_zn_cycle_count, Cpu.compare_cycle_count, Cpu.push_stackb_cycle_count, Cpu.push_stackw_cycle_count, Cpu.pop_stackb_cycle_count, Cpu.pop_stackw_cycle_count, Cpu.readw_cycle_count, Cpu.write_cycle_count]

theorem Cpu.php_cycle2 (s : Cpu) :
    ((Cpu.php s).2).cycle_count = s.cycle_count := by
  simp [Cpu.php, Cpu.fetch_data_cycle_count, Cpu.write_fetched_cycle_count, Cpu.set_flag_cycle_count, Cpu.set_flags_zn_cycle_count, Cpu.compare_cycle_count, Cpu.push_stackb_cycle_count, Cpu.push_stackw_cycle_count, Cpu.pop_stackb_cycle_count, Cpu.pop_stackw_cycle_count, Cpu.readw_cycle_count, Cpu.write_cycle_count]

theorem Cpu.plp_cycle2 (s : Cpu) :
    ((Cpu.plp s).2).cycle_count = s.cycle_count := by
  simp [Cpu.plp, Cpu.fetch_data_cycle_count, Cpu.write_fetched_cycle_count, Cpu.set_flag_cycle_count, Cpu.set_flags_zn_cycle_count, Cpu.compare_cycle_count, Cpu.push_stackb_cycle_count, Cpu.push_stackw_cycle_count, Cpu.pop_stackb_cycle_count, Cpu.pop_stackw_cycle_count, Cpu.readw_cycle_count, Cpu.write_cycle_count]

theorem Cpu.pha_cycle2 (s : Cpu) :
    ((Cpu.pha s).2).cycle_count = s.cycle_count := by
  simp [Cpu.pha, Cpu.fetch_data_cycle_count, Cpu.write_fetched_cycle_count, Cpu.set_flag_cycle_count, Cpu.set_flags_zn_cycle_count, Cpu.compare_cycle_count, Cpu.push_stackb_cycle_count, Cpu.push_stackw_cycle_count, Cpu.pop_stackb_cycle_count, Cpu.pop_stackw_cycle_count, Cpu.readw_cycle_count, Cpu.write_cycle_count]

theorem Cpu.pla_cycle2 (s : Cpu) :
    ((Cpu.pla s).2).cycle_count = s.cycle_count := by
  simp [Cpu.pla, Cpu.fetch_data_cycle_count, Cpu.write_fetched_cycle_count, Cpu.set_flag_cycle_count, Cpu.set_flags_zn_cycle_count, Cpu.compare_cycle_count, Cpu.push_stackb_cycle_count, Cpu.push_stackw_cycle_count, Cpu.pop_stackb_cycle_count, Cpu.pop_stackw_cycle_count, Cpu.readw_cycle_count, Cpu.write_cycle_count]

theorem Cpu.nop_cycle2 (s : Cpu) :
    ((Cpu.nop s).2).cycle_count = s.cycle_count := by
  simp [Cpu.nop, Cpu.fetch_data_cycle_count, Cpu.write_fetched_cycle_count, Cpu.set_flag_cycle_count, Cpu.set_flags_zn_cycle_count, Cpu.compare_cycle_count, Cpu.push_stackb_cycle_count, Cpu.push_stackw_cycle_count, Cpu.pop_stackb_cycle_count, Cpu.pop_stackw_cycle_count, Cpu.readw_cycle_count, Cpu.write_cycle_count]

theorem Cpu.skb_cycle2 (s : Cpu) :
    ((Cpu.skb s).2).cycle_count = s.cycle_count := by
  simp [Cpu.skb, Cpu.fetch_data_cycle_count, Cpu.write_fetched_cycle_count, Cpu.set_flag_cycle_count, Cpu.set_flags_zn_cycle_count, Cpu.compare_cycle_count, Cpu.push_stackb_cycle_count, Cpu.push_stackw_cycle_count, Cpu.pop_stackb_cycle_count, Cpu.pop_stackw_cycle_count, Cpu.readw_cycle_count, Cpu.write_cycle_count]

theorem Cpu.axs_cycle2 (s : Cpu) :
    ((Cpu.axs s).2).cycle_count = s.cycle_count := by
  simp [Cpu.axs, Cpu.fetch_data_cycle_count, Cpu.write_fetched_cycle_count, Cpu.set_flag_cycle_count, Cpu.set_flags_zn_cycle_count, Cpu.compare_cycle_count, Cpu.push_stackb_cycle_count, Cpu.push_stackw_cycle_count, Cpu.pop_stackb_cycle_count, Cpu.pop_stackw_cycle_count, Cpu.readw_cycle_count, Cpu.write_cycle_count]

theorem Cpu.ahx_cycle2 (s : Cpu) :
    ((Cpu.ahx s).2).cycle_count = s.cycle_count := by
  simp [Cpu.ahx, Cpu.fetch_data_cycle_count, Cpu.write_fetched_cycle_count, Cpu.set_flag_cycle_count, Cpu.set_flags_zn_cycle_count, Cpu.compare_cycle_count, Cpu.push_stackb_cycle_count, Cpu.push_stackw_cycle_count, Cpu.pop_stackb_cycle_count, Cpu.pop_stackw_cycle_count, Cpu.readw_cycle_count, Cpu.write_cycle_count]

theorem Cpu.sax_cycle2 (s : Cpu) :
    ((Cpu.sax s).2).cycle_count = s.cycle_count := by
  simp [Cpu.sax, Cpu.fetch_data_cycle_count, Cpu.write_fetched_cycle_count, Cpu.set_flag_cycle_count, Cpu.set_flags_zn_cycle_count, Cpu.compare_cycle_count, Cpu.push_stackb_cycle_count, Cpu.push_stackw_cycle_count, Cpu.pop_stackb_cycle_count, Cpu.pop_stackw_cycle_count, Cpu.readw_cycle_count, Cpu.write_cycle_count]

theorem Cpu.xaa_cycle2 (s : Cpu) :
    ((Cpu.xaa s).2).cycle_count = s.cycle_count := by
  simp [Cpu.xaa, Cpu.fetch_data_cycle_count, Cpu.write_fetched_cycle_count, Cpu.set_flag_cycle_count, Cpu.set_flags_zn_cycle_count, Cpu.compare_cycle_count, Cpu.push_stackb_cycle_count, Cpu.push_stackw_cycle_count, Cpu.pop_stackb_cycle_count, Cpu.pop_stackw_cycle_count, Cpu.readw_cycle_count, Cpu.write_cycle_count]

theorem Cpu.shx_cycle2 (s : Cpu) :
    ((Cpu.shx s).2).cycle_count = s.cycle_count := by
  simp [Cpu.shx, Cpu.fetch_data_cycle_count, Cpu.write_fetched_cycle_count, Cpu.set_flag_cycle_count, Cpu.set_flags_zn_cycle_count, Cpu.compare_cycle_count, Cpu.push_stackb_cycle_count, Cpu.push_stackw_cycle_count, Cpu.pop_stackb_cycle_count, Cpu.pop_stackw_cycle_count, Cpu.readw_cycle_count, Cpu.write_cycle_count]

theorem Cpu.shy_cycle2 (s : Cpu) :
    ((Cpu.shy s).2).cycle_count = s.cycle_count := by
  simp [Cpu.shy, Cpu.fetch_data_cycle_count, Cpu.write_fetched_cycle_count, Cpu.set_flag_cycle_count, Cpu.set_flags_zn_cycle_count, Cpu.compare_cycle_count, Cpu.push_stackb_cycle_count, Cpu.push_stackw_cycle_count, Cpu.pop_stackb_cycle_count, Cpu.pop_stackw_cycle_count, Cpu.readw_cycle_count, Cpu.write_cycle_count]

theorem Cpu.brk_cycle2 (s : Cpu) :
    ((Cpu.brk s).2).cycle_count = s.cycle_count := by
  simp [Cpu.brk, Cpu.php_cycle2, Cpu.fetch_data_cycle_count, Cpu.write_fetched_cycle_count, Cpu.set_flag_cycle_count, Cpu.set_flags_zn_cycle_count, Cpu.compare_cycle_count, Cpu.push_stackb_cycle_count, Cpu.push_stackw_cycle_count, Cpu.pop_stackb_cycle_count, Cpu.pop_stackw_cycle_count, Cpu.readw_cycle_count, Cpu.write_cycle_count]

theorem Cpu.isb_cycle2 (s : Cpu) :
    ((Cpu.isb s).2).cycle_count = s.cycle_count := by
  simp [Cpu.isb, Cpu.inc_cycle2, Cpu.sbc_cycle2]

theorem Cpu.dcp_cycle2 (s : Cpu) :
    ((Cpu.dcp s).2).cycle_count = s.cycle_count := by
  simp [Cpu.dcp, Cpu.dec_cycle2, Cpu.cmp_cycle2]

theorem Cpu.las_cycle2 (s : Cpu) :
    ((Cpu.las s).2).cycle_count = s.cycle_count := by
  simp [Cpu.las, Cpu.lda_cycle2, Cpu.tsx_cycle2]

theorem Cpu.lax_cycle2 (s : Cpu) :
    ((Cpu.lax s).2).cycle_count = s.cycle_count := by
  simp [Cpu.lax, Cpu.lda_cycle2, Cpu.tax_cycle2]

theorem Cpu.rra_cycle2 (s : Cpu) :
    ((Cpu.rra s).2).cycle_count = s.cycle_count := by
  simp [Cpu.rra, Cpu.ror_cycle2, Cpu.adc_cycle2]

theorem Cpu.tas_cycle2 (s : Cpu) :
    ((Cpu.tas s).2).cycle_count = s.cycle_count := by
  simp [Cpu.tas, Cpu.sta_cycle2, Cpu.txs_cycle2]

theorem Cpu.arr_cycle2 (s : Cpu) :
    ((Cpu.arr s).2).cycle_count = s.cycle_count := by
  simp [Cpu.arr, Cpu.andOp_cycle2, Cpu.ror_cycle2]

theorem Cpu.sre_cycle2 (s : Cpu) :
    ((Cpu.sre s).2).cycle_count = s.cycle_count := by
  simp [Cpu.sre, Cpu.lsr_cycle2, Cpu.eor_cycle2]

theorem Cpu.alr_cycle2 (s : Cpu) :
    ((Cpu.alr s).2).cycle_count = s.cycle_count := by
  simp [Cpu.alr, Cpu.andOp_cycle2, Cpu.lsr_cycle2]

theorem Cpu.rla_cycle2 (s : Cpu) :
    ((Cpu.rla s).2).cycle_count = s.cycle_count := by
  simp [Cpu.rla, Cpu.rol_cycle2, Cpu.andOp_cycle2]

theorem Cpu.anc_cycle2 (s : Cpu) :
    ((Cpu.anc s).2).cycle_count = s.cycle_count := by
  simp [Cpu.anc, Cpu.andOp_cycle2, Cpu.fetch_data_cycle_count, Cpu.write_fetched_cycle_count, Cpu.set_flag_cycle_count, Cpu.set_flags_zn_cycle_count, Cpu.compare_cycle_count, Cpu.push_stackb_cycle_count, Cpu.push_stackw_cycle_count, Cpu.pop_stackb_cycle_count, Cpu.pop_stackw_cycle_count, Cpu.readw_cycle_count, Cpu.write_cycle_count]

theorem Cpu.slo_cycle2 (s : Cpu) :
    ((Cpu.slo s).2).cycle_count = s.cycle_count := by
  simp [Cpu.slo, Cpu.asl_cycle2, Cpu.ora_cycle2]

theorem Cpu.ign_cycle2 (s : Cpu) :
    ((Cpu.ign s).2).cycle_count = s.cycle_count := by
  simp only [Cpu.ign]
  repeat' split
  all_goals simp [Cpu.fetch_data_cycle_count]

theorem Cpu.branch_cycle_bound (s : Cpu)
    (hb : s.cycle_count + 2 < U64_MOD) :
    s.cycle_count ≤ (Cpu.branch s).cycle_count ∧
      (Cpu.branch s).cycle_count ≤ s.cycle_count + 2 := by
  have h1 : (s.cycle_count + 1) % U64_MOD = s.cycle_count + 1 :=
    Nat.mod_eq_of_lt (by omega)
  have h2 : (s.cycle_count + 1 + 1) % U64_MOD = s.cycle_count + 2 :=
    Nat.mod_eq_of_lt (by omega)
  rw [Cpu.branch]
  split <;> simp [h1, h2]

theorem Cpu.runOp_cycle_bound (o : Operation) (s : Cpu)
    (hb : s.cycle_count + 2 < U64_MOD) :
    ∀ p, Cpu.runOp o s = some p →
      s.cycle_count ≤ p.2.cycle_count ∧ p.2.cycle_count ≤ s.cycle_count + 2 := by
  cases o <;> intro p hp <;>
    simp only [Cpu.runOp, Option.some.injEq] at hp
  case XXX => simp [Cpu.xxx] at hp
  case BCC =>
    subst hp
    simp only [Cpu.bcc]
    split
    · exact Cpu.branch_cycle_bound s hb
    · exact ⟨le_refl _, by show s.cycle_count ≤ s.cycle_count + 2; omega⟩
  case BCS =>
    subst hp
    simp only [Cpu.bcs]
    split
    · exact Cpu.branch_cycle_bound s hb
    · exact ⟨le_refl _, by show s.cycle_count ≤ s.cycle_count + 2; omega⟩
  case BEQ =>
    subst hp
    simp only [Cpu.beq]
    split
    · exact Cpu.branch_cycle_bound s hb
    · exact ⟨le_refl _, by show s.cycle_count ≤ s.cycle_count + 2; omega⟩
  case BMI =>
    subst hp
    simp only [Cpu.bmi]
    split
    · exact Cpu.branch_cycle_bound s hb
    · exact ⟨le_refl _, by show s.cycle_count ≤ s.cycle_count + 2; omega⟩
  case BNE =>
    subst hp
    simp only [Cpu.bne]
    split
    · exact Cpu.branch_cycle_bound s hb
    · exact ⟨le_refl _, by show s.cycle_count ≤ s.cycle_count + 2; omega⟩
  case BPL =>
    subst hp
    simp only [Cpu.bpl]
    split
    · exact Cpu.branch_cycle_bound s hb
    · exact ⟨le_refl _, by show s.cycle_count ≤ s.cycle_count + 2; omega⟩
  case BVC =>
    subst hp
    simp only [Cpu.bvc]
    split
    · exact Cpu.branch_cycle_bound s hb
    · exact ⟨le_refl _, by show s.cycle_count ≤ s.cycle_count + 2; omega⟩
  case BVS =>
    subst hp
    simp only [Cpu.bvs]
    split
    · exact Cpu.branch_cycle_bound s hb
    · exact ⟨le_refl _, by show s.cycle_count ≤ s.cycle_count + 2; omega⟩
  case LDA =>
    subst hp
    rw [Cpu.lda_cycle2]
    exact ⟨le_refl _, by omega⟩
  case LDX =>
    subst hp
    rw [Cpu.ldx_cycle2]
    exact ⟨le_refl _, by omega⟩
  case LDY =>
    subst hp
    rw [Cpu.ldy_cycle2]
    exact ⟨le_refl _, by omega⟩
  case STA =>
    subst hp
    rw [Cpu.sta_cycle2]
    exact ⟨le_refl _, by omega⟩
  case STX =>
    subst hp
    rw [Cpu.stx_cycle2]
    exact ⟨le_refl _, by omega⟩
  case STY =>
    subst hp
    rw [Cpu.sty_cycle2]
    exact ⟨le_refl _, by omega⟩
  case TAX =>
    subst hp
    rw [Cpu.tax_cycle2]
    exact ⟨le_refl _, by omega⟩
  case TAY =>
    subst hp
    rw [Cpu.tay_cycle2]
    exact ⟨le_refl _, by omega⟩
  case TSX =>
    subst hp
    rw [Cpu.tsx_cycle2]
    exact ⟨le_refl _, by omega⟩
  case TXA =>
    subst hp
    rw [Cpu.txa_cycle2]
    exact ⟨le_refl _, by omega⟩
  case TXS =>
    subst hp
    rw [Cpu.txs_cycle2]
    exact ⟨le_refl _, by omega⟩
  case TYA =>
    subst hp
    rw [Cpu.tya_cycle2]
    exact ⟨le_refl _, by omega⟩
  case ADC =>
    subst hp
    rw [Cpu.adc_cycle2]
    exact ⟨le_refl _, by omega⟩
  case SBC =>
    subst hp
    rw [Cpu.sbc_cycle2]
    exact ⟨le_refl _, by omega⟩
  case DEC =>
    subst hp
    rw [Cpu.dec_cycle2]
    exact ⟨le_refl _, by omega⟩
  case DEX =>
    subst hp
    rw [Cpu.dex_cycle2]
    exact ⟨le_refl _, by omega⟩
  case DEY =>
    subst hp
    rw [Cpu.dey_cycle2]
    exact ⟨le_refl _, by omega⟩
  case INC =>
    subst hp
    rw [Cpu.inc_cycle2]
    exact ⟨le_refl _, by omega⟩
  case INX =>
    subst hp
    rw [Cpu.inx_cycle2]
    exact ⟨le_refl _, by omega⟩
  case INY =>
    subst hp
    rw [Cpu.iny_cycle2]
    exact ⟨le_refl _, by omega⟩
  case AND =>
    subst hp
    rw [Cpu.andOp_cycle2]
    exact ⟨le_refl _, by omega⟩
  case ASL =>
    subst hp
    rw [Cpu.asl_cycle2]
    exact ⟨le_refl _, by omega⟩
  case BIT =>
    subst hp
    rw [Cpu.bit_cycle2]
    exact ⟨le_refl _, by omega⟩
  case EOR =>
    subst hp
    rw [Cpu.eor_cycle2]
    exact ⟨le_refl _, by omega⟩
  case LSR =>
    subst hp
    rw [Cpu.lsr_cycle2]
    exact ⟨le_refl _, by omega⟩
  case ORA =>
    subst hp
    rw [Cpu.ora_cycle2]
    exact ⟨le_refl _, by omega⟩
  case ROL =>
    subst hp
    rw [Cpu.rol_cycle2]
    exact ⟨le_refl _, by omega⟩
  case ROR =>
    subst hp
    rw [Cpu.ror_cycle2]
    exact ⟨le_refl _, by omega⟩
  case JMP =>
    subst hp
    rw [Cpu.jmp_cycle2]
    exact ⟨le_refl _, by omega⟩
  case JSR =>
    subst hp
    rw [Cpu.jsr_cycle2]
    exact ⟨le_refl _, by omega⟩
  case RTI =>
    subst hp
    rw [Cpu.rti_cycle2]
    exact ⟨le_refl _, by omega⟩
  case RTS =>
    subst hp
    rw [Cpu.rts_cycle2]
    exact ⟨le_refl _, by omega⟩
  case CLC =>
    subst hp
    rw [Cpu.clc_cycle2]
    exact ⟨le_refl _, by omega⟩
  case SEC =>
    subst hp
    rw [Cpu.sec_cycle2]
    exact ⟨le_refl _, by omega⟩
  case CLD =>
    subst hp
    rw [Cpu.cld_cycle2]
    exact ⟨le_refl _, by omega⟩
  case SED =>
    subst hp
    rw [Cpu.sed_cycle2]
    exact ⟨le_refl _, by omega⟩
  case CLI =>
    subst hp
    rw [Cpu.cli_cycle2]
    exact ⟨le_refl _, by omega⟩
  case SEI =>
    subst hp
    rw [Cpu.sei_cycle2]
    exact ⟨le_refl _, by omega⟩
  case CLV =>
    subst hp
    rw [Cpu.clv_cycle2]
    exact ⟨le_refl _, by omega⟩
  case CMP =>
    subst hp
    rw [Cpu.cmp_cycle2]
    exact ⟨le_refl _, by omega⟩
  case CPX =>
    subst hp
    rw [Cpu.cpx_cycle2]
    exact ⟨le_refl _, by omega⟩
  case CPY =>
    subst hp
    rw [Cpu.cpy_cycle2]
    exact ⟨le_refl _, by omega⟩
  case PHP =>
    subst hp
    rw [Cpu.php_cycle2]
    exact ⟨le_refl _, by omega⟩
  case PLP =>
    subst hp
    rw [Cpu.plp_cycle2]
    exact ⟨le_refl _, by omega⟩
  case PHA =>
    subst hp
    rw [Cpu.pha_cycle2]
    exact ⟨le_refl _, by omega⟩
  case PLA =>
    subst hp
    rw [Cpu.pla_cycle2]
    exact ⟨le_refl _, by omega⟩
  case NOP =>
    subst hp
    rw [Cpu.nop_cycle2]
    exact ⟨le_refl _, by omega⟩
  case SKB =>
    subst hp
    rw [Cpu.skb_cycle2]
    exact ⟨le_refl _, by omega⟩
  case AXS =>
    subst hp
    rw [Cpu.axs_cycle2]
    exact ⟨le_refl _, by omega⟩
  case AHX =>
    subst hp
    rw [Cpu.ahx_cycle2]
    exact ⟨le_refl _, by omega⟩
  case SAX =>
    subst hp
    rw [Cpu.sax_cycle2]
    exact ⟨le_refl _, by omega⟩
  case XAA =>
    subst hp
    rw [Cpu.xaa_cycle2]
    exact ⟨le_refl _, by omega⟩
  case SHX =>
    subst hp
    rw [Cpu.shx_cycle2]
    exact ⟨le_refl _, by omega⟩
  case SHY =>
    subst hp
    rw [Cpu.shy_cycle2]
    exact ⟨le_refl _, by omega⟩
  case BRK =>
    subst hp
    rw [Cpu.brk_cycle2]
    exact ⟨le_refl _, by omega⟩
  case ISB =>
    subst hp
    rw [Cpu.isb_cycle2]
    exact ⟨le_refl _, by omega⟩
  case DCP =>
    subst hp
    rw [Cpu.dcp_cycle2]
    exact ⟨le_refl _, by omega⟩
  case LAS =>
    subst hp
    rw [Cpu.las_cycle2]
    exact ⟨le_refl _, by omega⟩
  case LAX =>
    subst hp
    rw [Cpu.lax_cycle2]
    exact ⟨le_refl _, by omega⟩
  case RRA =>
    subst hp
    rw [Cpu.rra_cycle2]
    exact ⟨le_refl _, by omega⟩
  case TAS =>
    subst hp
    rw [Cpu.tas_cycle2]
    exact ⟨le_refl _, by omega⟩
  case ARR =>
    subst hp
    rw [Cpu.arr_cycle2]
    exact ⟨le_refl _, by omega⟩
  case SRE =>
    subst hp
    rw [Cpu.sre_cycle2]
    exact ⟨le_refl _, by omega⟩
  case ALR =>
    subst hp
    rw [Cpu.alr_cycle2]
    exact ⟨le_refl _, by omega⟩
  case RLA =>
    subst hp
    rw [Cpu.rla_cycle2]
    exact ⟨le_refl _, by omega⟩
  case ANC =>
    subst hp
    rw [Cpu.anc_cycle2]
    exact ⟨le_refl _, by omega⟩
  case SLO =>
    subst hp
    rw [Cpu.slo_cycle2]
    exact ⟨le_refl _, by omega⟩
  case IGN =>
    subst hp
    rw [Cpu.ign_cycle2]
    exact ⟨le_refl _, by omega⟩

theorem Cpu.branch_instr (s : Cpu) :
    (Cpu.branch s).instr = s.instr := by
  rw [Cpu.branch]
  split <;> rfl

theorem Cpu.lda_instr2 (s : Cpu) :
    ((Cpu.lda s).2).instr = s.instr := by
  simp [Cpu.lda, Cpu.fetch_data_instr, Cpu.write_fetched_instr, Cpu.set_flag_instr, Cpu.set_flags_zn_instr, Cpu.compare_instr, Cpu.push_stackb_instr, Cpu.push_stackw_instr, Cpu.pop_stackb_instr, Cpu.pop_stackw_instr, Cpu.readw_instr, Cpu.readw_zp_instr, Cpu.write_instr]

theorem Cpu.ldx_instr2 (s : Cpu) :
    ((Cpu.ldx s).2).instr = s.instr := by
  simp [Cpu.ldx, Cpu.fetch_data_instr, Cpu.write_fetched_instr, Cpu.set_flag_instr, Cpu.set_flags_zn_instr, Cpu.compare_instr, Cpu.push_stackb_instr, Cpu.push_stackw_instr, Cpu.pop_stackb_instr, Cpu.pop_stackw_instr, Cpu.readw_instr, Cpu.readw_zp_instr, Cpu.write_instr]

theorem Cpu.ldy_instr2 (s : Cpu) :
    ((Cpu.ldy s).2).instr = s.instr := by
  simp [Cpu.ldy, Cpu.fetch_data_instr, Cpu.write_fetched_instr, Cpu.set_flag_instr, Cpu.set_flags_zn_instr, Cpu.compare_instr, Cpu.push_stackb_instr, Cpu.push_stackw_instr, Cpu.pop_stackb_instr, Cpu.pop_stackw_instr, Cpu.readw_instr, Cpu.readw_zp_instr, Cpu.write_instr]

theorem Cpu.sta_instr2 (s : Cpu) :
    ((Cpu.sta s).2).instr = s.instr := by
  simp [Cpu.sta, Cpu.fetch_data_instr, Cpu.write_fetched_instr, Cpu.set_flag_instr, Cpu.set_flags_zn_instr, Cpu.compare_instr, Cpu.push_stackb_instr, Cpu.push_stackw_instr, Cpu.pop_stackb_instr, Cpu.pop_stackw_instr, Cpu.readw_instr, Cpu.readw_zp_instr, Cpu.write_instr]

theorem Cpu.stx_instr2 (s : Cpu) :
    ((Cpu.stx s).2).instr = s.instr := by
  simp [Cpu.stx, Cpu.fetch_data_instr, Cpu.write_fetched_instr, Cpu.set_flag_instr, Cpu.set_flags_zn_instr, Cpu.compare_instr, Cpu.push_stackb_instr, Cpu.push_stackw_instr, Cpu.pop_stackb_instr, Cpu.pop_stackw_instr, Cpu.readw_instr, Cpu.readw_zp_instr, Cpu.write_instr]

theorem Cpu.sty_instr2 (s : Cpu) :
    ((Cpu.sty s).2).instr = s.instr := by
  simp [Cpu.sty, Cpu.fetch_data_instr, Cpu.write_fetched_instr, Cpu.set_flag_instr, Cpu.set_flags_zn_instr, Cpu.compare_instr, Cpu.push_stackb_instr, Cpu.push_stackw_instr, Cpu.pop_stackb_instr, Cpu.pop_stackw_instr, Cpu.readw_instr, Cpu.readw_zp_instr, Cpu.write_instr]

theorem Cpu.tax_instr2 (s : Cpu) :
    ((Cpu.tax s).2).instr = s.instr := by
  simp [Cpu.tax, Cpu.fetch_data_instr, Cpu.write_fetched_instr, Cpu.set_flag_instr, Cpu.set_flags_zn_instr, Cpu.compare_instr, Cpu.push_stackb_instr, Cpu.push_stackw_instr, Cpu.pop_stackb_instr, Cpu.pop_stackw_instr, Cpu.readw_instr, Cpu.readw_zp_instr, Cpu.write_instr]

theorem Cpu.tay_instr2 (s : Cpu) :
    ((Cpu.tay s).2).instr = s.instr := by
  simp [Cpu.tay, Cpu.fetch_data_instr, Cpu.write_fetched_instr, Cpu.set_flag_instr, Cpu.set_flags_zn_instr, Cpu.compare_instr, Cpu.push_stackb_instr, Cpu.push_stackw_instr, Cpu.pop_stackb_instr, Cpu.pop_stackw_instr, Cpu.readw_instr, Cpu.readw_zp_instr, Cpu.write_instr]

theorem Cpu.tsx_instr2 (s : Cpu) :
    ((Cpu.tsx s).2).instr = s.instr := by
  simp [Cpu.tsx, Cpu.fetch_data_instr, Cpu.write_fetched_instr, Cpu.set_flag_instr, Cpu.set_flags_zn_instr, Cpu.compare_instr, Cpu.push_stackb_instr, Cpu.push_stackw_instr, Cpu.pop_stackb_instr, Cpu.pop_stackw_instr, Cpu.readw_instr, Cpu.readw_zp_instr, Cpu.write_instr]

theorem Cpu.txa_instr2 (s : Cpu) :
    ((Cpu.txa s).2).instr = s.instr := by
  simp [Cpu.txa, Cpu.fetch_data_instr, Cpu.write_fetched_instr, Cpu.set_flag_instr, Cpu.set_flags_zn_instr, Cpu.compare_instr, Cpu.push_stackb_instr, Cpu.push_stackw_instr, Cpu.pop_stackb_instr, Cpu.pop_stackw_instr, Cpu.readw_instr, Cpu.readw_zp_instr, Cpu.write_instr]

theorem Cpu.txs_instr2 (s : Cpu) :
    ((Cpu.txs s).2).instr = s.instr := by
  simp [Cpu.txs, Cpu.fetch_data_instr, Cpu.write_fetched_instr, Cpu.set_flag_instr, Cpu.set_flags_zn_instr, Cpu.compare_instr, Cpu.push_stackb_instr, Cpu.push_stackw_instr, Cpu.pop_stackb_instr, Cpu.pop_stackw_instr, Cpu.readw_instr, Cpu.readw_zp_instr, Cpu.write_instr]

theorem Cpu.tya_instr2 (s : Cpu) :
    ((Cpu.tya s).2).instr = s.instr := by
  simp [Cpu.tya, Cpu.fetch_data_instr, Cpu.write_fetched_instr, Cpu.set_flag_instr, Cpu.set_flags_zn_instr, Cpu.compare_instr, Cpu.push_stackb_instr, Cpu.push_stackw_instr, Cpu.pop_stackb_instr, Cpu.pop_stackw_instr, Cpu.readw_instr, Cpu.readw_zp_instr, Cpu.write_instr]

theorem Cpu.adc_instr2 (s : Cpu) :
    ((Cpu.adc s).2).instr = s.instr := by
  simp [Cpu.adc, Cpu.fetch_data_instr, Cpu.write_fetched_instr, Cpu.set_flag_instr, Cpu.set_flags_zn_instr, Cpu.compare_instr, Cpu.push_stackb_instr, Cpu.push_stackw_instr, Cpu.pop_stackb_instr, Cpu.pop_stackw_instr, Cpu.readw_instr, Cpu.readw_zp_instr, Cpu.write_instr]

theorem Cpu.sbc_instr2 (s : Cpu) :
    ((Cpu.sbc s).2).instr = s.instr := by
  simp [Cpu.sbc, Cpu.fetch_data_instr, Cpu.write_fetched_instr, Cpu.set_flag_instr, Cpu.set_flags_zn_instr, Cpu.compare_instr, Cpu.push_stackb_instr, Cpu.push_stackw_instr, Cpu.pop_stackb_instr, Cpu.pop_stackw_instr, Cpu.readw_instr, Cpu.readw_zp_instr, Cpu.write_instr]

theorem Cpu.dec_instr2 (s : Cpu) :
    ((Cpu.dec s).2).instr = s.instr := by
  simp [Cpu.dec, Cpu.fetch_data_instr, Cpu.write_fetched_instr, Cpu.set_flag_instr, Cpu.set_flags_zn_instr, Cpu.compare_instr, Cpu.push_stackb_instr, Cpu.push_stackw_instr, Cpu.pop_stackb_instr, Cpu.pop_stackw_instr, Cpu.readw_instr, Cpu.readw_zp_instr, Cpu.write_instr]

theorem Cpu.dex_instr2 (s : Cpu) :
    ((Cpu.dex s).2).instr = s.instr := by
  simp [Cpu.dex, Cpu.fetch_data_instr, Cpu.write_fetched_instr, Cpu.set_flag_instr, Cpu.set_flags_zn_instr, Cpu.compare_instr, Cpu.push_stackb_instr, Cpu.push_stackw_instr, Cpu.pop_stackb_instr, Cpu.pop_stackw_instr, Cpu.readw_instr, Cpu.readw_zp_instr, Cpu.write_instr]

theorem Cpu.dey_instr2 (s : Cpu) :
    ((Cpu.dey s).2).instr = s.instr := by
  simp [Cpu.dey, Cpu.fetch_data_instr, Cpu.write_fetched_instr, Cpu.set_flag_instr, Cpu.set_flags_zn_instr, Cpu.compare_instr, Cpu.push_stackb_instr, Cpu.push_stackw_instr, Cpu.pop_stackb_instr, Cpu.pop_stackw_instr, Cpu.readw_instr, Cpu.readw_zp_instr, Cpu.write_instr]

theorem Cpu.inc_instr2 (s : Cpu) :
    ((Cpu.inc s).2).instr = s.instr := by
  simp [Cpu.inc, Cpu.fetch_data_instr, Cpu.write_fetched_instr, Cpu.set_flag_instr, Cpu.set_flags_zn_instr, Cpu.compare_instr, Cpu.push_stackb_instr, Cpu.push_stackw_instr, Cpu.pop_stackb_instr, Cpu.pop_stackw_instr, Cpu.readw_instr, Cpu.readw_zp_instr, Cpu.write_instr]

theorem Cpu.inx_instr2 (s : Cpu) :
    ((Cpu.inx s).2).instr = s.instr := by
  simp [Cpu.inx, Cpu.fetch_data_instr, Cpu.write_fetched_instr, Cpu.set_flag_instr, Cpu.set_flags_zn_instr, Cpu.compare_instr, Cpu.push_stackb_instr, Cpu.push_stackw_instr, Cpu.pop_stackb_instr, Cpu.pop_stackw_instr, Cpu.readw_instr, Cpu.readw_zp_instr, Cpu.write_instr]

theorem Cpu.iny_instr2 (s : Cpu) :
    ((Cpu.iny s).2).instr = s.instr := by
  simp [Cpu.iny, Cpu.fetch_data_instr, Cpu.write_fetched_instr, Cpu.set_flag_instr, Cpu.set_flags_zn_instr, Cpu.compare_instr, Cpu.push_stackb_instr, Cpu.push_stackw_instr, Cpu.pop_stackb_instr, Cpu.pop_stackw_instr, Cpu.readw_instr, Cpu.readw_zp_instr, Cpu.write_instr]

theorem Cpu.andOp_instr2 (s : Cpu) :
    ((Cpu.andOp s).2).instr = s.instr := by
  simp [Cpu.andOp, Cpu.fetch_data_instr, Cpu.write_fetched_instr, Cpu.set_flag_instr, Cpu.set_flags_zn_instr, Cpu.compare_instr, Cpu.push_stackb_instr, Cpu.push_stackw_instr, Cpu.pop_stackb_instr, Cpu.pop_stackw_instr, Cpu.readw_instr, Cpu.readw_zp_instr, Cpu.write_instr]

theorem Cpu.asl_instr2 (s : Cpu) :
    ((Cpu.asl s).2).instr = s.instr := by
  simp [Cpu.asl, Cpu.fetch_data_instr, Cpu.write_fetched_instr, Cpu.set_flag_instr, Cpu.set_flags_zn_instr, Cpu.compare_instr, Cpu.push_stackb_instr, Cpu.push_stackw_instr, Cpu.pop_stackb_instr, Cpu.pop_stackw_instr, Cpu.readw_instr, Cpu.readw_zp_instr, Cpu.write_instr]

theorem Cpu.bit_instr2 (s : Cpu) :
    ((Cpu.bit s).2).instr = s.instr := by
  simp [Cpu.bit, Cpu.fetch_data_instr, Cpu.write_fetched_instr, Cpu.set_flag_instr, Cpu.set_flags_zn_instr, Cpu.compare_instr, Cpu.push_stackb_instr, Cpu.push_stackw_instr, Cpu.pop_stackb_instr, Cpu.pop_stackw_instr, Cpu.readw_instr, Cpu.readw_zp_instr, Cpu.write_instr]

theorem Cpu.eor_instr2 (s : Cpu) :
    ((Cpu.eor s).2).instr = s.instr := by
  simp [Cpu.eor, Cpu.fetch_data_instr, Cpu.write_fetched_instr, Cpu.set_flag_instr, Cpu.set_flags_zn_instr, Cpu.compare_instr, Cpu.push_stackb_instr, Cpu.push_stackw_instr, Cpu.pop_stackb_instr, Cpu.pop_stackw_instr, Cpu.readw_instr, Cpu.readw_zp_instr, Cpu.write_instr]

theorem Cpu.lsr_instr2 (s : Cpu) :
    ((Cpu.lsr s).2).instr = s.instr := by
  simp [Cpu.lsr, Cpu.fetch_data_instr, Cpu.write_fetched_instr, Cpu.set_flag_instr, Cpu.set_flags_zn_instr, Cpu.compare_instr, Cpu.push_stackb_instr, Cpu.push_stackw_instr, Cpu.pop_stackb_instr, Cpu.pop_stackw_instr, Cpu.readw_instr, Cpu.readw_zp_instr, Cpu.write_instr]

theorem Cpu.ora_instr2 (s : Cpu) :
    ((Cpu.ora s).2).instr = s.instr := by
  simp [Cpu.ora, Cpu.fetch_data_instr, Cpu.write_fetched_instr, Cpu.set_flag_instr, Cpu.set_flags_zn_instr, Cpu.compare_instr, Cpu.push_stackb_instr, Cpu.push_stackw_instr, Cpu.pop_stackb_instr, Cpu.pop_stackw_instr, Cpu.readw_instr, Cpu.readw_zp_instr, Cpu.write_instr]

theorem Cpu.rol_instr2 (s : Cpu) :
    ((Cpu.rol s).2).instr = s.instr := by
  simp [Cpu.rol, Cpu.fetch_data_instr, Cpu.write_fetched_instr, Cpu.set_flag_instr, Cpu.set_flags_zn_instr, Cpu.compare_instr, Cpu.push_stackb_instr, Cpu.push_stackw_instr, Cpu.pop_stackb_instr, Cpu.pop_stackw_instr, Cpu.readw_instr, Cpu.readw_zp_instr, Cpu.write_instr]

theorem Cpu.ror_instr2 (s : Cpu) :
    ((Cpu.ror s).2).instr = s.instr := by
  simp [Cpu.ror, Cpu.fetch_data_instr, Cpu.write_fetched_instr, Cpu.set_flag_instr, Cpu.set_flags_zn_instr, Cpu.compare_instr, Cpu.push_stackb_instr, Cpu.push_stackw_instr, Cpu.pop_stackb_instr, Cpu.pop_stackw_instr, Cpu.readw_instr, Cpu.readw_zp_instr, Cpu.write_instr]

theorem Cpu.jmp_instr2 (s : Cpu) :
    ((Cpu.jmp s).2).instr = s.instr := by
  simp [Cpu.jmp, Cpu.fetch_data_instr, Cpu.write_fetched_instr, Cpu.set_flag_instr, Cpu.set_flags_zn_instr, Cpu.compare_instr, Cpu.push_stackb_instr, Cpu.push_stackw_instr, Cpu.pop_stackb_instr, Cpu.pop_stackw_instr, Cpu.readw_instr, Cpu.readw_zp_instr, Cpu.write_instr]

theorem Cpu.jsr_instr2 (s : Cpu) :
    ((Cpu.jsr s).2).instr = s.instr := by
  simp [Cpu.jsr, Cpu.fetch_data_instr, Cpu.write_fetched_instr, Cpu.set_flag_instr, Cpu.set_flags_zn_instr, Cpu.compare_instr, Cpu.push_stackb_instr, Cpu.push_stackw_instr, Cpu.pop_stackb_instr, Cpu.pop_stackw_instr, Cpu.readw_instr, Cpu.readw_zp_instr, Cpu.write_instr]

theorem Cpu.rti_instr2 (s : Cpu) :
    ((Cpu.rti s).2).instr = s.instr := by
  simp [Cpu.rti, Cpu.fetch_data_instr, Cpu.write_fetched_instr, Cpu.set_flag_instr, Cpu.set_flags_zn_instr, Cpu.compare_instr, Cpu.push_stackb_instr, Cpu.push_stackw_instr, Cpu.pop_stackb_instr, Cpu.pop_stackw_instr, Cpu.readw_instr, Cpu.readw_zp_instr, Cpu.write_instr]

theorem Cpu.rts_instr2 (s : Cpu) :
    ((Cpu.rts s).2).instr = s.instr := by
  simp [Cpu.rts, Cpu.fetch_data_instr, Cpu.write_fetched_instr, Cpu.set_flag_instr, Cpu.set_flags_zn_instr, Cpu.compare_instr, Cpu.push_stackb_instr, Cpu.push_stackw_instr, Cpu.pop_stackb_instr, Cpu.pop_stackw_instr, Cpu.readw_instr, Cpu.readw_zp_instr, Cpu.write_instr]

theorem Cpu.clc_instr2 (s : Cpu) :
    ((Cpu.clc s).2).instr = s.instr := by
  simp [Cpu.clc, Cpu.fetch_data_instr, Cpu.write_fetched_instr, Cpu.set_flag_instr, Cpu.set_flags_zn_instr, Cpu.compare_instr, Cpu.push_stackb_instr, Cpu.push_stackw_instr, Cpu.pop_stackb_instr, Cpu.pop_stackw_instr, Cpu.readw_instr, Cpu.readw_zp_instr, Cpu.write_instr]

theorem Cpu.sec_instr2 (s : Cpu) :
    ((Cpu.sec s).2).instr = s.instr := by
  simp [Cpu.sec, Cpu.fetch_data_instr, Cpu.write_fetched_instr, Cpu.set_flag_instr, Cpu.set_flags_zn_instr, Cpu.compare_instr, Cpu.push_stackb_instr, Cpu.push_stackw_instr, Cpu.pop_stackb_instr, Cpu.pop_stackw_instr, Cpu.readw_instr, Cpu.readw_zp_instr, Cpu.write_instr]

theorem Cpu.cld_instr2 (s : Cpu) :
    ((Cpu.cld s).2).instr = s.instr := by
  simp [Cpu.cld, Cpu.fetch_data_instr, Cpu.write_fetched_instr, Cpu.set_flag_instr, Cpu.set_flags_zn_instr, Cpu.compare_instr, Cpu.push_stackb_instr, Cpu.push_stackw_instr, Cpu.pop_stackb_instr, Cpu.pop_stackw_instr, Cpu.readw_instr, Cpu.readw_zp_instr, Cpu.write_instr]

theorem Cpu.sed_instr2 (s : Cpu) :
    ((Cpu.sed s).2).instr = s.instr := by
  simp [Cpu.sed, Cpu.fetch_data_instr, Cpu.write_fetched_instr, Cpu.set_flag_instr, Cpu.set_flags_zn_instr, Cpu.compare_instr, Cpu.push_stackb_instr, Cpu.push_stackw_instr, Cpu.pop_stackb_instr, Cpu.pop_stackw_instr, Cpu.readw_instr, Cpu.readw_zp_instr, Cpu.write_instr]

theorem Cpu.cli_instr2 (s : Cpu) :
    ((Cpu.cli s).2).instr = s.instr := by
  simp [Cpu.cli, Cpu.fetch_data_instr, Cpu.write_fetched_instr, Cpu.set_flag_instr, Cpu.set_flags_zn_instr, Cpu.compare_instr, Cpu.push_stackb_instr, Cpu.push_stackw_instr, Cpu.pop_stackb_instr, Cpu.pop_stackw_instr, Cpu.readw_instr, Cpu.readw_zp_instr, Cpu.write_instr]

theorem Cpu.sei_instr2 (s : Cpu) :
    ((Cpu.sei s).2).instr = s.instr := by
  simp [Cpu.sei, Cpu.fetch_data_instr, Cpu.write_fetched_instr, Cpu.set_flag_instr, Cpu.set_flags_zn_instr, Cpu.compare_instr, Cpu.push_stackb_instr, Cpu.push_stackw_instr, Cpu.pop_stackb_instr, Cpu.pop_stackw_instr, Cpu.readw_instr, Cpu.readw_zp_instr, Cpu.write_instr]

theorem Cpu.clv_instr2 (s : Cpu) :
    ((Cpu.clv s).2).instr = s.instr := by
  simp [Cpu.clv, Cpu.fetch_data_instr, Cpu.write_fetched_instr, Cpu.set_flag_instr, Cpu.set_flags_zn_instr, Cpu.compare_instr, Cpu.push_stackb_instr, Cpu.push_stackw_instr, Cpu.pop_stackb_instr, Cpu.pop_stackw_instr, Cpu.readw_instr, Cpu.readw_zp_instr, Cpu.write_instr]

theorem Cpu.cmp_instr2 (s : Cpu) :
    ((Cpu.cmp s).2).instr = s.instr := by
  simp [Cpu.cmp, Cpu.fetch_data_instr, Cpu.write_fetched_instr, Cpu.set_flag_instr, Cpu.set_flags_zn_instr, Cpu.compare_instr, Cpu.push_stackb_instr, Cpu.push_stackw_instr, Cpu.pop_stackb_instr, Cpu.pop_stackw_instr, Cpu.readw_instr, Cpu.readw_zp_instr, Cpu.write_instr]

theorem Cpu.cpx_instr2 (s : Cpu) :
    ((Cpu.cpx s).2).instr = s.instr := by
  simp [Cpu.cpx, Cpu.fetch_data_instr, Cpu.write_fetched_instr, Cpu.set_flag_instr, Cpu.set_flags_zn_instr, Cpu.compare_instr, Cpu.push_stackb_instr, Cpu.push_stackw_instr, Cpu.pop_stackb_instr, Cpu.pop_stackw_instr, Cpu.readw_instr, Cpu.readw_zp_instr, Cpu.write_instr]

theorem Cpu.cpy_instr2 (s : Cpu) :
    ((Cpu.cpy s).2).instr = s.instr := by
  simp [Cpu.cpy, Cpu.fetch_data_instr, Cpu.write_fetched_instr, Cpu.set_flag_instr, Cpu.set_flags_zn_instr, Cpu.compare_instr, Cpu.push_stackb_instr, Cpu.push_stackw_instr, Cpu.pop_stackb_instr, Cpu.pop_stackw_instr, Cpu.readw_instr, Cpu.readw_zp_instr, Cpu.write_instr]

theorem Cpu.php_instr2 (s : Cpu) :
    ((Cpu.php s).2).instr = s.instr := by
  simp [Cpu.php, Cpu.fetch_data_instr, Cpu.write_fetched_instr, Cpu.set_flag_instr, Cpu.set_flags_zn_instr, Cpu.compare_instr, Cpu.push_stackb_instr, Cpu.push_stackw_instr, Cpu.pop_stackb_instr, Cpu.pop_stackw_instr, Cpu.readw_instr, Cpu.readw_zp_instr, Cpu.write_instr]

theorem Cpu.plp_instr2 (s : Cpu) :
    ((Cpu.plp s).2).instr = s.instr := by
  simp [Cpu.plp, Cpu.fetch_data_instr, Cpu.write_fetched_instr, Cpu.set_flag_instr, Cpu.set_flags_zn_instr, Cpu.compare_instr, Cpu.push_stackb_instr, Cpu.push_stackw_instr, Cpu.pop_stackb_instr, Cpu.pop_stackw_instr, Cpu.readw_instr, Cpu.readw_zp_instr, Cpu.write_instr]

theorem Cpu.pha_instr2 (s : Cpu) :
    ((Cpu.pha s).2).instr = s.instr := by
  simp [Cpu.pha, Cpu.fetch_data_instr, Cpu.write_fetched_instr, Cpu.set_flag_instr, Cpu.set_flags_zn_instr, Cpu.compare_instr, Cpu.push_stackb_instr, Cpu.push_stackw_instr, Cpu.pop_stackb_instr, Cpu.pop_stackw_instr, Cpu.readw_instr, Cpu.readw_zp_instr, Cpu.write_instr]

theorem Cpu.pla_instr2 (s : Cpu) :
    ((Cpu.pla s).2).instr = s.instr := by
  simp [Cpu.pla, Cpu.fetch_data_instr, Cpu.write_fetched_instr, Cpu.set_flag_instr, Cpu.set_flags_zn_instr, Cpu.compare_instr, Cpu.push_stackb_instr, Cpu.push_stackw_instr, Cpu.pop_stackb_instr, Cpu.pop_stackw_instr, Cpu.readw_instr, Cpu.readw_zp_instr, Cpu.write_instr]

theorem Cpu.nop_instr2 (s : Cpu) :
    ((Cpu.nop s).2).instr = s.instr := by
  simp [Cpu.nop, Cpu.fetch_data_instr, Cpu.write_fetched_instr, Cpu.set_flag_instr, Cpu.set_flags_zn_instr, Cpu.compare_instr, Cpu.push_stackb_instr, Cpu.push_stackw_instr, Cpu.pop_stackb_instr, Cpu.pop_stackw_instr, Cpu.readw_instr, Cpu.readw_zp_instr, Cpu.write_instr]

theorem Cpu.skb_instr2 (s : Cpu) :
    ((Cpu.skb s).2).instr = s.instr := by
  simp [Cpu.skb, Cpu.fetch_data_instr, Cpu.write_fetched_instr, Cpu.set_flag_instr, Cpu.set_flags_zn_instr, Cpu.compare_instr, Cpu.push_stackb_instr, Cpu.push_stackw_instr, Cpu.pop_stackb_instr, Cpu.pop_stackw_instr, Cpu.readw_instr, Cpu.readw_zp_instr, Cpu.write_instr]

theorem Cpu.axs_instr2 (s : Cpu) :
    ((Cpu.axs s).2).instr = s.instr := by
  simp [Cpu.axs, Cpu.fetch_data_instr, Cpu.write_fetched_instr, Cpu.set_flag_instr, Cpu.set_flags_zn_instr, Cpu.compare_instr, Cpu.push_stackb_instr, Cpu.push_stackw_instr, Cpu.pop_stackb_instr, Cpu.pop_stackw_instr, Cpu.readw_instr, Cpu.readw_zp_instr, Cpu.write_instr]

theorem Cpu.ahx_instr2 (s : Cpu) :
    ((Cpu.ahx s).2).instr = s.instr := by
  simp [Cpu.ahx, Cpu.fetch_data_instr, Cpu.write_fetched_instr, Cpu.set_flag_instr, Cpu.set_flags_zn_instr, Cpu.compare_instr, Cpu.push_stackb_instr, Cpu.push_stackw_instr, Cpu.pop_stackb_instr, Cpu.pop_stackw_instr, Cpu.readw_instr, Cpu.readw_zp_instr, Cpu.write_instr]

theorem Cpu.sax_instr2 (s : Cpu) :
    ((Cpu.sax s).2).instr = s.instr := by
  simp [Cpu.sax, Cpu.fetch_data_instr, Cpu.write_fetched_instr, Cpu.set_flag_instr, Cpu.set_flags_zn_instr, Cpu.compare_instr, Cpu.push_stackb_instr, Cpu.push_stackw_instr, Cpu.pop_stackb_instr, Cpu.pop_stackw_instr, Cpu.readw_instr, Cpu.readw_zp_instr, Cpu.write_instr]

theorem Cpu.xaa_instr2 (s : Cpu) :
    ((Cpu.xaa s).2).instr = s.instr := by
  simp [Cpu.xaa, Cpu.fetch_data_instr, Cpu.write_fetched_instr, Cpu.set_flag_instr, Cpu.set_flags_zn_instr, Cpu.compare_instr, Cpu.push_stackb_instr, Cpu.push_stackw_instr, Cpu.pop_stackb_instr, Cpu.pop_stackw_instr, Cpu.readw_instr, Cpu.readw_zp_instr, Cpu.write_instr]

theorem Cpu.shx_instr2 (s : Cpu) :
    ((Cpu.shx s).2).instr = s.instr := by
  simp [Cpu.shx, Cpu.fetch_data_instr, Cpu.write_fetched_instr, Cpu.set_flag_instr, Cpu.set_flags_zn_instr, Cpu.compare_instr, Cpu.push_stackb_instr, Cpu.push_stackw_instr, Cpu.pop_stackb_instr, Cpu.pop_stackw_instr, Cpu.readw_instr, Cpu.readw_zp_instr, Cpu.write_instr]

theorem Cpu.shy_instr2 (s : Cpu) :
    ((Cpu.shy s).2).instr = s.instr := by
  simp [Cpu.shy, Cpu.fetch_data_instr, Cpu.write_fetched_instr, Cpu.set_flag_instr, Cpu.set_flags_zn_instr, Cpu.compare_instr, Cpu.push_stackb_instr, Cpu.push_stackw_instr, Cpu.pop_stackb_instr, Cpu.pop_stackw_instr, Cpu.readw_instr, Cpu.readw_zp_instr, Cpu.write_instr]

theorem Cpu.brk_instr2 (s : Cpu) :
    ((Cpu.brk s).2).instr = s.instr := by
  simp [Cpu.brk, Cpu.php_instr2, Cpu.fetch_data_instr, Cpu.write_fetched_instr, Cpu.set_flag_instr, Cpu.set_flags_zn_instr, Cpu.compare_instr, Cpu.push_stackb_instr, Cpu.push_stackw_instr, Cpu.pop_stackb_instr, Cpu.pop_stackw_instr, Cpu.readw_instr, Cpu.readw_zp_instr, Cpu.write_instr]

theorem Cpu.isb_instr2 (s : Cpu) :
    ((Cpu.isb s).2).instr = s.instr := by
  simp [Cpu.isb, Cpu.inc_instr2, Cpu.sbc_instr2, Cpu.fetch_data_instr, Cpu.write_fetched_instr, Cpu.set_flag_instr, Cpu.set_flags_zn_instr, Cpu.compare_instr, Cpu.push_stackb_instr, Cpu.push_stackw_instr, Cpu.pop_stackb_instr, Cpu.pop_stackw_instr, Cpu.readw_instr, Cpu.readw_zp_instr, Cpu.write_instr]

theorem Cpu.dcp_instr2 (s : Cpu) :
    ((Cpu.dcp s).2).instr = s.instr := by
  simp [Cpu.dcp, Cpu.dec_instr2, Cpu.cmp_instr2, Cpu.fetch_data_instr, Cpu.write_fetched_instr, Cpu.set_flag_instr, Cpu.set_flags_zn_instr, Cpu.compare_instr, Cpu.push_stackb_instr, Cpu.push_stackw_instr, Cpu.pop_stackb_instr, Cpu.pop_stackw_instr, Cpu.readw_instr, Cpu.readw_zp_instr, Cpu.write_instr]

theorem Cpu.las_instr2 (s : Cpu) :
    ((Cpu.las s).2).instr = s.instr := by
  simp [Cpu.las, Cpu.lda_instr2, Cpu.tsx_instr2, Cpu.fetch_data_instr, Cpu.write_fetched_instr, Cpu.set_flag_instr, Cpu.set_flags_zn_instr, Cpu.compare_instr, Cpu.push_stackb_instr, Cpu.push_stackw_instr, Cpu.pop_stackb_instr, Cpu.pop_stackw_instr, Cpu.readw_instr, Cpu.readw_zp_instr, Cpu.write_instr]

theorem Cpu.lax_instr2 (s : Cpu) :
    ((Cpu.lax s).2).instr = s.instr := by
  simp [Cpu.lax, Cpu.lda_instr2, Cpu.tax_instr2, Cpu.fetch_data_instr, Cpu.write_fetched_instr, Cpu.set_flag_instr, Cpu.set_flags_zn_instr, Cpu.compare_instr, Cpu.push_stackb_instr, Cpu.push_stackw_instr, Cpu.pop_stackb_instr, Cpu.pop_stackw_instr, Cpu.readw_instr, Cpu.readw_zp_instr, Cpu.write_instr]

theorem Cpu.rra_instr2 (s : Cpu) :
    ((Cpu.rra s).2).instr = s.instr := by
  simp [Cpu.rra, Cpu.ror_instr2, Cpu.adc_instr2, Cpu.fetch_data_instr, Cpu.write_fetched_instr, Cpu.set_flag_instr, Cpu.set_flags_zn_instr, Cpu.compare_instr, Cpu.push_stackb_instr, Cpu.push_stackw_instr, Cpu.pop_stackb_instr, Cpu.pop_stackw_instr, Cpu.readw_instr, Cpu.readw_zp_instr, Cpu.write_instr]

theorem Cpu.tas_instr2 (s : Cpu) :
    ((Cpu.tas s).2).instr = s.instr := by
  simp [Cpu.tas, Cpu.sta_instr2, Cpu.txs_instr2, Cpu.fetch_data_instr, Cpu.write_fetched_instr, Cpu.set_flag_instr, Cpu.set_flags_zn_instr, Cpu.compare_instr, Cpu.push_stackb_instr, Cpu.push_stackw_instr, Cpu.pop_stackb_instr, Cpu.pop_stackw_instr, Cpu.readw_instr, Cpu.readw_zp_instr, Cpu.write_instr]

theorem Cpu.arr_instr2 (s : Cpu) :
    ((Cpu.arr s).2).instr = s.instr := by
  simp [Cpu.arr, Cpu.andOp_instr2, Cpu.ror_instr2, Cpu.fetch_data_instr, Cpu.write_fetched_instr, Cpu.set_flag_instr, Cpu.set_flags_zn_instr, Cpu.compare_instr, Cpu.push_stackb_instr, Cpu.push_stackw_instr, Cpu.pop_stackb_instr, Cpu.pop_stackw_instr, Cpu.readw_instr, Cpu.readw_zp_instr, Cpu.write_instr]

theorem Cpu.sre_instr2 (s : Cpu) :
    ((Cpu.sre s).2).instr = s.instr := by
  simp [Cpu.sre, Cpu.lsr_instr2, Cpu.eor_instr2, Cpu.fetch_data_instr, Cpu.write_fetched_instr, Cpu.set_flag_instr, Cpu.set_flags_zn_instr, Cpu.compare_instr, Cpu.push_stackb_instr, Cpu.push_stackw_instr, Cpu.pop_stackb_instr, Cpu.pop_stackw_instr, Cpu.readw_instr, Cpu.readw_zp_instr, Cpu.write_instr]

theorem Cpu.alr_instr2 (s : Cpu) :
    ((Cpu.alr s).2).instr = s.instr := by
  simp [Cpu.alr, Cpu.andOp_instr2, Cpu.lsr_instr2, Cpu.fetch_data_instr, Cpu.write_fetched_instr, Cpu.set_flag_instr, Cpu.set_flags_zn_instr, Cpu.compare_instr, Cpu.push_stackb_instr, Cpu.push_stackw_instr, Cpu.pop_stackb_instr, Cpu.pop_stackw_instr, Cpu.readw_instr, Cpu.readw_zp_instr, Cpu.write_instr]

theorem Cpu.rla_instr2 (s : Cpu) :
    ((Cpu.rla s).2).instr = s.instr := by
  simp [Cpu.rla, Cpu.rol_instr2, Cpu.andOp_instr2, Cpu.fetch_data_instr, Cpu.write_fetched_instr, Cpu.set_flag_instr, Cpu.set_flags_zn_instr, Cpu.compare_instr, Cpu.push_stackb_instr, Cpu.push_stackw_instr, Cpu.pop_stackb_instr, Cpu.pop_stackw_instr, Cpu.readw_instr, Cpu.readw_zp_instr, Cpu.write_instr]

theorem Cpu.anc_instr2 (s : Cpu) :
    ((Cpu.anc s).2).instr = s.instr := by
  simp [Cpu.anc, Cpu.andOp_instr2, Cpu.fetch_data_instr, Cpu.write_fetched_instr, Cpu.set_flag_instr, Cpu.set_flags_zn_instr, Cpu.compare_instr, Cpu.push_stackb_instr, Cpu.push_stackw_instr, Cpu.pop_stackb_instr, Cpu.pop_stackw_instr, Cpu.readw_instr, Cpu.readw_zp_instr, Cpu.write_instr]

theorem Cpu.slo_instr2 (s : Cpu) :
    ((Cpu.slo s).2).instr = s.instr := by
  simp [Cpu.slo, Cpu.asl_instr2, Cpu.ora_instr2, Cpu.fetch_data_instr, Cpu.write_fetched_instr, Cpu.set_flag_instr, Cpu.set_flags_zn_instr, Cpu.compare_instr, Cpu.push_stackb_instr, Cpu.push_stackw_instr, Cpu.pop_stackb_instr, Cpu.pop_stackw_instr, Cpu.readw_instr, Cpu.readw_zp_instr, Cpu.write_instr]

theorem Cpu.ign_instr2 (s : Cpu) :
    ((Cpu.ign s).2).instr = s.instr := by
  simp only [Cpu.ign]
  repeat' split
  all_goals simp [Cpu.fetch_data_instr]

theorem Cpu.runOp_instr (o : Operation) (s : Cpu) :
    ∀ p, Cpu.runOp o s = some p → p.2.instr = s.instr := by
  cases o <;> intro p hp <;>
    simp only [Cpu.runOp, Option.some.injEq] at hp
  case XXX => simp [Cpu.xxx] at hp
  case BCC =>
    subst hp
    simp only [Cpu.bcc]
    split <;> simp [Cpu.branch_instr]
  case BCS =>
    subst hp
    simp only [Cpu.bcs]
    split <;> simp [Cpu.branch_instr]
  case BEQ =>
    subst hp
    simp only [Cpu.beq]
    split <;> simp [Cpu.branch_instr]
  case BMI =>
    subst hp
    simp only [Cpu.bmi]
    split <;> simp [Cpu.branch_instr]
  case BNE =>
    subst hp
    simp only [Cpu.bne]
    split <;> simp [Cpu.branch_instr]
  case BPL =>
    subst hp
    simp only [Cpu.bpl]
    split <;> simp [Cpu.branch_instr]
  case BVC =>
    subst hp
    simp only [Cpu.bvc]
    split <;> simp [Cpu.branch_instr]
  case BVS =>
    subst hp
    simp only [Cpu.bvs]
    split <;> simp [Cpu.branch_instr]
  case LDA =>
    subst hp
    exact Cpu.lda_instr2 s
  case LDX =>
    subst hp
    exact Cpu.ldx_instr2 s
  case LDY =>
    subst hp
    exact Cpu.ldy_instr2 s
  case STA =>
    subst hp
    exact Cpu.sta_instr2 s
  case STX =>
    subst hp
    exact Cpu.stx_instr2 s
  case STY =>
    subst hp
    exact Cpu.sty_instr2 s
  case TAX =>
    subst hp
    exact Cpu.tax_instr2 s
  case TAY =>
    subst hp
    exact Cpu.tay_instr2 s
  case TSX =>
    subst hp
    exact Cpu.tsx_instr2 s
  case TXA =>
    subst hp
    exact Cpu.txa_instr2 s
  case TXS =>
    subst hp
    exact Cpu.txs_instr2 s
  case TYA =>
    subst hp
    exact Cpu.tya_instr2 s
  case ADC =>
    subst hp
    exact Cpu.adc_instr2 s
  case SBC =>
    subst hp
    exact Cpu.sbc_instr2 s
  case DEC =>
    subst hp
    exact Cpu.dec_instr2 s
  case DEX =>
    subst hp
    exact Cpu.dex_instr2 s
  case DEY =>
    subst hp
    exact Cpu.dey_instr2 s
  case INC =>
    subst hp
    exact Cpu.inc_instr2 s
  case INX =>
    subst hp
    exact Cpu.inx_instr2 s
  case INY =>
    subst hp
    exact Cpu.iny_instr2 s
  case AND =>
    subst hp
    exact Cpu.andOp_instr2 s
  case ASL =>
    subst hp
    exact Cpu.asl_instr2 s
  case BIT =>
    subst hp
    exact Cpu.bit_instr2 s
  case EOR =>
    subst hp
    exact Cpu.eor_instr2 s
  case LSR =>
    subst hp
    exact Cpu.lsr_instr2 s
  case ORA =>
    subst hp
    exact Cpu.ora_instr2 s
  case ROL =>
    subst hp
    exact Cpu.rol_instr2 s
  case ROR =>
    subst hp
    exact Cpu.ror_instr2 s
  case JMP =>
    subst hp
    exact Cpu.jmp_instr2 s
  case JSR =>
    subst hp
    exact Cpu.jsr_instr2 s
  case RTI =>
    subst hp
    exact Cpu.rti_instr2 s
  case RTS =>
    subst hp
    exact Cpu.rts_instr2 s
  case CLC =>
    subst hp
    exact Cpu.clc_instr2 s
  case SEC =>
    subst hp
    exact Cpu.sec_instr2 s
  case CLD =>
    subst hp
    exact Cpu.cld_instr2 s
  case SED =>
    subst hp
    exact Cpu.sed_instr2 s
  case CLI =>
    subst hp
    exact Cpu.cli_instr2 s
  case SEI =>
    subst hp
    exact Cpu.sei_instr2 s
  case CLV =>
    subst hp
    exact Cpu.clv_instr2 s
  case CMP =>
    subst hp
    exact Cpu.cmp_instr2 s
  case CPX =>
    subst hp
    exact Cpu.cpx_instr2 s
  case CPY =>
    subst hp
    exact Cpu.cpy_instr2 s
  case PHP =>
    subst hp
    exact Cpu.php_instr2 s
  case PLP =>
    subst hp
    exact Cpu.plp_instr2 s
  case PHA =>
    subst hp
    exact Cpu.pha_instr2 s
  case PLA =>
    subst hp
    exact Cpu.pla_instr2 s
  case NOP =>
    subst hp
    exact Cpu.nop_instr2 s
  case SKB =>
    subst hp
    exact Cpu.skb_instr2 s
  case AXS =>
    subst hp
    exact Cpu.axs_instr2 s
  case AHX =>
    subst hp
    exact Cpu.ahx_instr2 s
  case SAX =>
    subst hp
    exact Cpu.sax_instr2 s
  case XAA =>
    subst hp
    exact Cpu.xaa_instr2 s
  case SHX =>
    subst hp
    exact Cpu.shx_instr2 s
  case SHY =>
    subst hp
    exact Cpu.shy_instr2 s
  case BRK =>
    subst hp
    exact Cpu.brk_instr2 s
  case ISB =>
    subst hp
    exact Cpu.isb_instr2 s
  case DCP =>
    subst hp
    exact Cpu.dcp_instr2 s
  case LAS =>
    subst hp
    exact Cpu.las_instr2 s
  case LAX =>
    subst hp
    exact Cpu.lax_instr2 s
  case RRA =>
    subst hp
    exact Cpu.rra_instr2 s
  case TAS =>
    subst hp
    exact Cpu.tas_instr2 s
  case ARR =>
    subst hp
    exact Cpu.arr_instr2 s
  case SRE =>
    subst hp
    exact Cpu.sre_instr2 s
  case ALR =>
    subst hp
    exact Cpu.alr_instr2 s
  case RLA =>
    subst hp
    exact Cpu.rla_instr2 s
  case ANC =>
    subst hp
    exact Cpu.anc_instr2 s
  case SLO =>
    subst hp
    exact Cpu.slo_instr2 s
  case IGN =>
    subst hp
    exact Cpu.ign_instr2 s

theorem Cpu.decode_cycle_count (s : Cpu) :
    (Cpu.decode s).cycle_count = s.cycle_count := by
  simp [Cpu.decode, Cpu.set_flag_cycle_count, Cpu.read_snd]

theorem Cpu.decode_instr (s : Cpu) :
    (Cpu.decode s).instr = instrAt (s.mem.data (s.pc % 65536) % 256) := rfl

set_option maxRecDepth 4096 in
theorem INSTRUCTIONS_cycles_le : ∀ i ∈ INSTRUCTIONS, i.cycles ≤ 8 := by
  decide

theorem getD_cycles_le (l : List Instr) (hall : ∀ i ∈ l, i.cycles ≤ 8) :
    ∀ (k : Nat) (d : Instr), d.cycles ≤ 8 → (l.getD k d).cycles ≤ 8 := by
  induction l with
  | nil =>
      intro k d hd
      rw [List.getD_nil]
      exact hd
  | cons a t ih =>
      intro k d hd
      cases k with
      | zero =>
          rw [List.getD_cons_zero]
          exact hall a (List.mem_cons_self a t)
      | succ k =>
          rw [List.getD_cons_succ]
          exact ih (fun i hi => hall i (List.mem_cons_of_mem a hi)) k d hd

theorem instrAt_cycles_le (k : Nat) : (instrAt k).cycles ≤ 8 :=
  getD_cycles_le INSTRUCTIONS INSTRUCTIONS_cycles_le k Instr.default (by decide)

/-- Executing one decoded instruction from a sampled start count: the new
cycle count is exactly start plus the returned wrapping difference, and it
moves forward by at most 11 cycles (8 base + 2 branch + 1 page cross). -/
theorem Cpu.clockExec_delta (start : Nat) (s : Cpu)
    (hstart : start ≤ s.cycle_count)
    (hb : s.cycle_count + 12 < U64_MOD) :
    ∀ p, Cpu.clockExec start s = some p →
      p.2.cycle_count = start + p.1 ∧
      s.cycle_count ≤ p.2.cycle_count ∧
      p.2.cycle_count ≤ s.cycle_count + 11 := by
  intro p h
  rw [Cpu.clockExec] at h
  split at h
  next mc u hmode =>
    split at h
    · exact absurd h (by simp)
    · next oc w heq =>
      cases h
      have hmc : mc = (Cpu.runMode (s.decode).instr.addr_mode s.decode).1 := by
        rw [hmode]
      have hu : u = (Cpu.runMode (s.decode).instr.addr_mode s.decode).2 := by
        rw [hmode]
      have huc : u.cycle_count = s.cycle_count := by
        rw [hu, Cpu.runMode_cycle_count, Cpu.decode_cycle_count]
      have hui : u.instr = (s.decode).instr := by
        rw [hu, Cpu.runMode_instr]
      have hmc1 : mc ≤ 1 := by
        rw [hmc]; exact Cpu.runMode_fst_le _ _
      have hb2 : u.cycle_count + 2 < U64_MOD := by omega
      have hwb := Cpu.runOp_cycle_bound u.instr.op u hb2 (oc, w) heq
      have hwi : w.instr = u.instr := Cpu.runOp_instr u.instr.op u (oc, w) heq
      have hcyc8 : w.instr.cycles ≤ 8 := by
        rw [hwi, hui, Cpu.decode_instr]
        exact instrAt_cycles_le _
      have hand : mc &&& oc ≤ mc := Nat.and_le_left
      dsimp only at hwb ⊢
      have hC : w.cycle_count + w.instr.cycles + (mc &&& oc) < U64_MOD := by
        omega
      have hCm : (w.cycle_count + w.instr.cycles + (mc &&& oc)) % U64_MOD =
          w.cycle_count + w.instr.cycles + (mc &&& oc) := Nat.mod_eq_of_lt hC
      have hstartm : start % U64_MOD = start := Nat.mod_eq_of_lt (by omega)
      have hdelta : ((w.cycle_count + w.instr.cycles + (mc &&& oc)) % U64_MOD +
          U64_MOD - start % U64_MOD) % U64_MOD =
          w.cycle_count + w.instr.cycles + (mc &&& oc) - start := by
        rw [hCm, hstartm]
        have hsplit : w.cycle_count + w.instr.cycles + (mc &&& oc) + U64_MOD -
            start =
            (w.cycle_count + w.instr.cycles + (mc &&& oc) - start) +
              U64_MOD := by
          omega
        rw [hsplit, Nat.add_mod_right, Nat.mod_eq_of_lt (by omega)]
      refine ⟨?_, ?_, ?_⟩
      · rw [hdelta, hCm]; omega
      · rw [hCm]; omega
      · rw [hCm]; omega

/-- One full Cpu clock with no stall pending and no wraparound in sight moves
cycle_count forward by exactly the returned cycle difference. -/
theorem Cpu.clock_delta (s : Cpu) (hst : s.stall = 0)
    (hb : s.cycle_count + 20 < U64_MOD) :
    ∀ p, Cpu.clock s = some p → p.2.cycle_count = s.cycle_count + p.1 := by
  intro p h
  rw [Cpu.clock, if_neg (by omega)] at h
  have h7 : (s.cycle_count + 7) % U64_MOD = s.cycle_count + 7 :=
    Nat.mod_eq_of_lt (by omega)
  cases hi : s.interrupt <;> rw [hi] at h
  · refine (Cpu.clockExec_delta s.cycle_count _ ?_ ?_ p h).1
    · exact Nat.le_refl _
    · show s.cycle_count + 12 < U64_MOD
      omega
  · refine (Cpu.clockExec_delta s.cycle_count _ ?_ ?_ p h).1
    · show s.cycle_count ≤ (Cpu.irq s).cycle_count
      rw [Cpu.irq_cycle_count, h7]; omega
    · show (Cpu.irq s).cycle_count + 12 < U64_MOD
      rw [Cpu.irq_cycle_count, h7]; omega
  · refine (Cpu.clockExec_delta s.cycle_count _ ?_ ?_ p h).1
    · show s.cycle_count ≤ (Cpu.nmi s).cycle_count
      rw [Cpu.nmi_cycle_count, h7]; omega
    · show (Cpu.nmi s).cycle_count + 12 < U64_MOD
      rw [Cpu.nmi_cycle_count, h7]; omega

theorem Cpu.applyTrigger_cycle_count (t : Trigger) (s : Cpu) :
    (Cpu.applyTrigger t s).cycle_count = s.cycle_count := by
  cases t <;>
    simp only [Cpu.applyTrigger, Cpu.trigger_nmi, Cpu.trigger_irq] <;>
    (repeat' split) <;> rfl

theorem Cpu.applyTriggers_cycle_count (l : List Trigger) :
    ∀ s : Cpu, (Cpu.applyTriggers l s).cycle_count = s.cycle_count := by
  induction l with
  | nil => intro s; rfl
  | cons t rest ih =>
      intro s
      rw [Cpu.applyTriggers, ih, Cpu.applyTrigger_cycle_count]

/-! ## C3: the 3-dots-per-CPU-cycle invariant -/

/-- C3 counterexample: the claimed invariant 3 * cpu.cycles = dots since
power-on fails at the very first cycle boundary. Cpu init charges
POWER_ON_CYCLES = 7 before any Console clock runs, so on an all-zero bus the
deck powers on with cycle_count 7 and 0 dots, and after the first Console
clock (a 7-cycle BRK) it reads 3 * 14 = 42 cycles-in-dots against only 21
elapsed dots: the two sides stay 3 * POWER_ON_CYCLES apart forever. -/
theorem console_cycle_dot_counterexample :
    (Deck.init { data := fun _ => 0, reads := [] }).cpu.cycle_count = 7 ∧
    (Deck.init { data := fun _ => 0, reads := [] }).dots = 0 ∧
    3 * 7 ≠ 0 ∧
    (Deck.clock [] (Deck.init { data := fun _ => 0, reads := [] })).map
        (fun d => (3 * d.cpu.cycle_count, d.dots)) = some (42, 21) ∧
    (42 : Nat) ≠ 21 := by
  refine ⟨rfl, rfl, by decide, rfl, by decide⟩

/-- C3 (amended): at power-on and after each Console clock, three times the
CPU cycle count equals the elapsed PPU dots plus a constant offset of
3 * POWER_ON_CYCLES (the 7 cycles Cpu init charges before the PPU runs):
the offset invariant holds at Deck init for every memory image and is
preserved by every Deck clock step that starts with no OAM-DMA stall
pending and no u64 wraparound at hand. -/
theorem console_cycle_dot_invariant :
    (∀ m : Mem, 3 * (Deck.init m).cpu.cycle_count =
        (Deck.init m).dots + 3 * POWER_ON_CYCLES) ∧
    (∀ (trigs : List Trigger) (d d2 : Deck),
      d.cpu.stall = 0 →
      d.cpu.cycle_count + 20 < U64_MOD →
      Deck.clock trigs d = some d2 →
      3 * d.cpu.cycle_count = d.dots + 3 * POWER_ON_CYCLES →
      3 * d2.cpu.cycle_count = d2.dots + 3 * POWER_ON_CYCLES) := by
  constructor
  · intro m
    show 3 * (Cpu.init m).cycle_count = 0 + 3 * POWER_ON_CYCLES
    have hc : (Cpu.init m).cycle_count = POWER_ON_CYCLES := rfl
    rw [hc, Nat.zero_add]
  · intro trigs d d2 hst hb hck hinv
    rw [Deck.clock] at hck
    split at hck
    · exact absurd hck (by simp)
    · next n c heq =>
      cases hck
      show 3 * (Cpu.applyTriggers trigs c).cycle_count =
        d.dots + 3 * n + 3 * POWER_ON_CYCLES
      rw [Cpu.applyTriggers_cycle_count]
      have hd := Cpu.clock_delta d.cpu hst hb (n, c) heq
      dsimp only at hd
      omega

/-- C3 witness: the amended offset invariant applied at the all-zero power-on
deck and pushed through its first Console clock step. -/
theorem console_cycle_dot_invariant_witness :
    3 * ((Deck.clock [] (Deck.init { data := fun _ => 0, reads := [] })).getD
          (Deck.init { data := fun _ => 0, reads := [] })).cpu.cycle_count =
      ((Deck.clock [] (Deck.init { data := fun _ => 0, reads := [] })).getD
          (Deck.init { data := fun _ => 0, reads := [] })).dots +
        3 * POWER_ON_CYCLES :=
  console_cycle_dot_invariant.2 []
    (Deck.init { data := fun _ => 0, reads := [] })
    ((Deck.clock [] (Deck.init { data := fun _ => 0, reads := [] })).getD
      (Deck.init { data := fun _ => 0, reads := [] }))
    rfl (by decide) rfl
    (console_cycle_dot_invariant.1 { data := fun _ => 0, reads := [] })

/-! ## Interrupt service bookkeeping (C4) -/

set_option maxRecDepth 4096 in
theorem or256_eq : ∀ x, x < 256 → 256 ||| x = 256 + x := by decide

set_option maxRecDepth 4096 in
theorem or4_and4 : ∀ st, st < 256 → (st ||| 4) &&& 4 = 4 := by decide

set_option maxRecDepth 4096 in
theorem pushedStatus_bits : ∀ st, st < 256 →
    pushedStatus st &&& StatusRegs.B = 0 ∧
    pushedStatus st &&& StatusRegs.U = StatusRegs.U := by
  decide

theorem Cpu.oamdmaLoop_sp (k : Nat) :
    ∀ (addr : Nat) (s : Cpu), (Cpu.oamdmaLoop k addr s).sp = s.sp := by
  induction k with
  | zero => intro addr s; rfl
  | succ k ih =>
      intro addr s
      rw [Cpu.oamdmaLoop, ih]
      rfl

theorem Cpu.oamdmaLoop_pc (k : Nat) :
    ∀ (addr : Nat) (s : Cpu), (Cpu.oamdmaLoop k addr s).pc = s.pc := by
  induction k with
  | zero => intro addr s; rfl
  | succ k ih =>
      intro addr s
      rw [Cpu.oamdmaLoop, ih]
      rfl

theorem Cpu.oamdmaLoop_status (k : Nat) :
    ∀ (addr : Nat) (s : Cpu), (Cpu.oamdmaLoop k addr s).status = s.status := by
  induction k with
  | zero => intro addr s; rfl
  | succ k ih =>
      intro addr s
      rw [Cpu.oamdmaLoop, ih]
      rfl

theorem Cpu.write_oamdma_sp (s : Cpu) (v : Nat) :
    (Cpu.write_oamdma s v).sp = s.sp := by
  rw [Cpu.write_oamdma]
  split <;> simp [Cpu.oamdmaLoop_sp]

theorem Cpu.write_oamdma_pc (s : Cpu) (v : Nat) :
    (Cpu.write_oamdma s v).pc = s.pc := by
  rw [Cpu.write_oamdma]
  split <;> simp [Cpu.oamdmaLoop_pc]

theorem Cpu.write_oamdma_status (s : Cpu) (v : Nat) :
    (Cpu.write_oamdma s v).status = s.status := by
  rw [Cpu.write_oamdma]
  split <;> simp [Cpu.oamdmaLoop_status]

theorem Cpu.write_sp (s : Cpu) (a v : Nat) :
    (Cpu.write s a v).sp = s.sp := by
  rw [Cpu.write]
  split
  · exact Cpu.write_oamdma_sp s v
  · rfl

theorem Cpu.write_pc (s : Cpu) (a v : Nat) :
    (Cpu.write s a v).pc = s.pc := by
  rw [Cpu.write]
  split
  · exact Cpu.write_oamdma_pc s v
  · rfl

theorem Cpu.write_status (s : Cpu) (a v : Nat) :
    (Cpu.write s a v).status = s.status := by
  rw [Cpu.write]
  split
  · exact Cpu.write_oamdma_status s v
  · rfl

theorem Cpu.push_stackb_eq (t : Cpu) (v : Nat) (h : t.sp < 256) :
    Cpu.push_stackb t v =
      { t with
        mem := { t.mem with data := fun a =>
          if a = 256 + t.sp then v % 256 else t.mem.data a },
        sp := (t.sp + 255) % 256 } := by
  have hmod : (SP_BASE ||| t.sp) % 65536 = 256 + t.sp := by
    show (256 ||| t.sp) % 65536 = 256 + t.sp
    rw [or256_eq t.sp h]
    exact Nat.mod_eq_of_lt (by omega)
  have hne : ¬(256 + t.sp = 0x4014) := by omega
  simp only [Cpu.push_stackb, Cpu.write, Mem.write, hmod, if_neg hne]

theorem Cpu.set_flag_pc (s : Cpu) (f : Nat) (b : Bool) :
    (Cpu.set_flag s f b).pc = s.pc := by
  rw [Cpu.set_flag]
  split <;> rfl

theorem Cpu.set_flag_sp (s : Cpu) (f : Nat) (b : Bool) :
    (Cpu.set_flag s f b).sp = s.sp := by
  rw [Cpu.set_flag]
  split <;> rfl

theorem Cpu.set_flag_mem (s : Cpu) (f : Nat) (b : Bool) :
    (Cpu.set_flag s f b).mem = s.mem := by
  rw [Cpu.set_flag]
  split <;> rfl

theorem Cpu.readw_fst (s : Cpu) (a : Nat) :
    (Cpu.readw s a).1 = wordAt s.mem a := by
  show (s.mem.data ((a + 1) % 65536 % 65536) % 256) <<< 8 |||
      (s.mem.data (a % 65536) % 256) = wordAt s.mem a
  rw [Nat.mod_mod_of_dvd (a + 1) dvd_rfl]
  rfl

theorem Cpu.push_stackw_eq (t : Cpu) (v : Nat) (h2 : 2 ≤ t.sp)
    (h : t.sp < 256) :
    Cpu.push_stackw t v =
      { t with
        mem := { t.mem with
          data := fun a =>
            if a = 255 + t.sp then (v &&& 255) % 256
            else if a = 256 + t.sp then (v >>> 8) % 256
            else t.mem.data a },
        sp := t.sp - 2 } := by
  simp only [Cpu.push_stackw]
  rw [Cpu.push_stackb_eq t (v >>> 8) h]
  rw [Cpu.push_stackb_eq _ (v &&& 255)
    (by show (t.sp + 255) % 256 < 256; omega)]
  dsimp only
  rw [show (t.sp + 255) % 256 = t.sp - 1 by omega]
  rw [show 256 + (t.sp - 1) = 255 + t.sp by omega]
  rw [show (t.sp - 1 + 255) % 256 = t.sp - 2 by omega]

theorem Cpu.readw_snd_mem_data (s : Cpu) (a : Nat) :
    ((Cpu.readw s a).2).mem.data = s.mem.data := rfl

/-- The NMI service routine: pushes the 16-bit pc then the status byte
with B cleared and U set, loads pc from the $FFFA vector in the pre-push
memory, sets the I flag and charges 7 wrapping cycles. -/
theorem Cpu.nmi_spec (s : Cpu) (h2 : 3 ≤ s.sp) (hsp : s.sp < 256)
    (hst : s.status < 256) :
    (Cpu.nmi s).pc = wordAt s.mem NMI_ADDR ∧
    (Cpu.nmi s).sp = s.sp - 3 ∧
    (Cpu.nmi s).mem.data (256 + s.sp) = (s.pc >>> 8) % 256 ∧
    (Cpu.nmi s).mem.data (255 + s.sp) = (s.pc &&& 255) % 256 ∧
    (Cpu.nmi s).mem.data (254 + s.sp) = pushedStatus s.status % 256 ∧
    (Cpu.nmi s).get_flag StatusRegs.I = 1 ∧
    (Cpu.nmi s).cycle_count = (s.cycle_count + 7) % U64_MOD := by
  have e4 : 256 + (s.sp - 2) = 254 + s.sp := by omega
  have e5 : (s.sp - 2 + 255) % 256 = s.sp - 3 := by omega
  simp only [Cpu.nmi]
  rw [Cpu.push_stackw_eq s s.pc (by omega) hsp]
  dsimp only
  have hps : (s.status ||| StatusRegs.U) &&& (255 ^^^ StatusRegs.B) =
      pushedStatus s.status := rfl
  rw [hps]
  rw [Cpu.push_stackb_eq]
  rotate_left
  · show s.sp - 2 < 256
    omega
  dsimp only
  rw [e4]
  rw [e5]
  refine ⟨?_, ?_, ?_, ?_, ?_, ?_, ?_⟩
  · rw [Cpu.set_flag_pc]
    show wordAt _ NMI_ADDR = wordAt s.mem NMI_ADDR
    rw [wordAt, wordAt]
    simp only [NMI_ADDR]
    try dsimp only
    rw [if_neg (by omega), if_neg (by omega), if_neg (by omega),
        if_neg (by omega), if_neg (by omega), if_neg (by omega)]
  · rw [Cpu.set_flag_sp]
    rfl
  · rw [Cpu.set_flag_mem]
    try dsimp only
    rw [Cpu.readw_snd_mem_data]
    try dsimp only
    rw [if_neg (by omega), if_neg (by omega), if_pos rfl]
  · rw [Cpu.set_flag_mem]
    try dsimp only
    rw [Cpu.readw_snd_mem_data]
    try dsimp only
    rw [if_neg (by omega), if_pos rfl]
  · rw [Cpu.set_flag_mem]
    try dsimp only
    rw [Cpu.readw_snd_mem_data]
    try dsimp only
    rw [if_pos rfl]
  · show (if (Cpu.set_flag _ StatusRegs.I true).status &&& StatusRegs.I > 0
      then 1 else 0) = 1
    rw [Cpu.set_flag]
    try dsimp only
    rw [if_pos]
    show (s.status ||| 4) &&& 4 > 0
    rw [or4_and4 s.status hst]
    omega
  · rw [Cpu.set_flag_cycle_count]
    try dsimp only
    rfl

/-- The IRQ service routine mirrors the NMI one with the $FFFE vector. -/
theorem Cpu.irq_spec (s : Cpu) (h2 : 3 ≤ s.sp) (hsp : s.sp < 256)
    (hst : s.status < 256) :
    (Cpu.irq s).pc = wordAt s.mem IRQ_ADDR ∧
    (Cpu.irq s).sp = s.sp - 3 ∧
    (Cpu.irq s).mem.data (256 + s.sp) = (s.pc >>> 8) % 256 ∧
    (Cpu.irq s).mem.data (255 + s.sp) = (s.pc &&& 255) % 256 ∧
    (Cpu.irq s).mem.data (254 + s.sp) = pushedStatus s.status % 256 ∧
    (Cpu.irq s).get_flag StatusRegs.I = 1 ∧
    (Cpu.irq s).cycle_count = (s.cycle_count + 7) % U64_MOD := by
  have e4 : 256 + (s.sp - 2) = 254 + s.sp := by omega
  have e5 : (s.sp - 2 + 255) % 256 = s.sp - 3 := by omega
  simp only [Cpu.irq]
  rw [Cpu.push_stackw_eq s s.pc (by omega) hsp]
  dsimp only
  have hps : (s.status ||| StatusRegs.U) &&& (255 ^^^ StatusRegs.B) =
      pushedStatus s.status := rfl
  rw [hps]
  rw [Cpu.push_stackb_eq]
  rotate_left
  · show s.sp - 2 < 256
    omega
  dsimp only
  rw [e4]
  rw [e5]
  refine ⟨?_, ?_, ?_, ?_, ?_, ?_, ?_⟩
  · rw [Cpu.set_flag_pc]
    show wordAt _ IRQ_ADDR = wordAt s.mem IRQ_ADDR
    rw [wordAt, wordAt]
    simp only [IRQ_ADDR]
    try dsimp only
    rw [if_neg (by omega), if_neg (by omega), if_neg (by omega),
        if_neg (by omega), if_neg (by omega), if_neg (by omega)]
  · rw [Cpu.set_flag_sp]
    rfl
  · rw [Cpu.set_flag_mem]
    try dsimp only
    rw [Cpu.readw_snd_mem_data]
    try dsimp only
    rw [if_neg (by omega), if_neg (by omega), if_pos rfl]
  · rw [Cpu.set_flag_mem]
    try dsimp only
    rw [Cpu.readw_snd_mem_data]
    try dsimp only
    rw [if_neg (by omega), if_pos rfl]
  · rw [Cpu.set_flag_mem]
    try dsimp only
    rw [Cpu.readw_snd_mem_data]
    try dsimp only
    rw [if_pos rfl]
  · show (if (Cpu.set_flag _ StatusRegs.I true).status &&& StatusRegs.I > 0
      then 1 else 0) = 1
    rw [Cpu.set_flag]
    try dsimp only
    rw [if_pos]
    show (s.status ||| 4) &&& 4 > 0
    rw [or4_and4 s.status hst]
    omega
  · rw [Cpu.set_flag_cycle_count]
    try dsimp only
    rfl


/-! ## C4: interrupt priority and service -/

/-- C4 counterexample: the CPU holds at most one pending interrupt in its
single interrupt slot, so NMI is not serviced first when both arrive. At a
state with the I flag clear, an NMI already pending and vectors
$FFFA = $1234, $FFFE = $5678, a trigger_irq call overwrites the pending NMI
with IRQ, and the following clock pushes state and jumps through the IRQ
vector $FFFE (7 + 2 cycles for the NOP at $5678, pc ends at $5679, the bus
log shows $FFFE read and $FFFA never read): the pending NMI is lost. -/
theorem irq_overwrites_pending_nmi :
    (Cpu.trigger_irq
      { mem := { data := fun a =>
          if a = 0xFFFA then 0x34 else if a = 0xFFFB then 0x12
          else if a = 0xFFFE then 0x78 else if a = 0xFFFF then 0x56
          else if a = 0x5678 then 0xEA else 0, reads := [] },
        cycle_count := 0, stall := 0, step := 0, pc := 0x8000, sp := 0xFD,
        acc := 0, x := 0, y := 0, status := 0x20, instr := instrAt 0,
        abs_addr := 0, rel_addr := 0, fetched_data := 0,
        interrupt := Interrupt.nmi }).interrupt = Interrupt.irq ∧
    (Cpu.clock (Cpu.trigger_irq
      { mem := { data := fun a =>
          if a = 0xFFFA then 0x34 else if a = 0xFFFB then 0x12
          else if a = 0xFFFE then 0x78 else if a = 0xFFFF then 0x56
          else if a = 0x5678 then 0xEA else 0, reads := [] },
        cycle_count := 0, stall := 0, step := 0, pc := 0x8000, sp := 0xFD,
        acc := 0, x := 0, y := 0, status := 0x20, instr := instrAt 0,
        abs_addr := 0, rel_addr := 0, fetched_data := 0,
        interrupt := Interrupt.nmi })).map
      (fun p => (p.1, p.2.pc)) = some (9, 0x5679) ∧
    (Cpu.clock (Cpu.trigger_irq
      { mem := { data := fun a =>
          if a = 0xFFFA then 0x34 else if a = 0xFFFB then 0x12
          else if a = 0xFFFE then 0x78 else if a = 0xFFFF then 0x56
          else if a = 0x5678 then 0xEA else 0, reads := [] },
        cycle_count := 0, stall := 0, step := 0, pc := 0x8000, sp := 0xFD,
        acc := 0, x := 0, y := 0, status := 0x20, instr := instrAt 0,
        abs_addr := 0, rel_addr := 0, fetched_data := 0,
        interrupt := Interrupt.nmi })).map
      (fun p => (decide (0xFFFE ∈ p.2.mem.reads),
                 decide (0xFFFA ∈ p.2.mem.reads))) = some (true, false) ∧
    wordAt { data := fun a =>
          if a = 0xFFFA then 0x34 else if a = 0xFFFB then 0x12
          else if a = 0xFFFE then 0x78 else if a = 0xFFFF then 0x56
          else if a = 0x5678 then 0xEA else 0, reads := [] } NMI_ADDR =
      0x1234 := by
  refine ⟨rfl, rfl, rfl, rfl⟩

/-- C4 (amended): the CPU records at most one pending interrupt.
trigger_nmi unconditionally stores NMI in the slot; trigger_irq is a no-op
when the I flag is set and otherwise stores IRQ, replacing whatever was
pending (including an NMI). Cpu clock then services whichever single
interrupt is in the slot before executing: it runs the nmi or irq routine
and clears the slot. The service routines push pc then the status byte with
B cleared and U set onto the stack, load pc from $FFFA (NMI) or $FFFE
(IRQ), set the I flag and charge exactly 7 cycles. -/
theorem cpu_interrupt_service :
    (∀ s : Cpu, (Cpu.trigger_nmi s).interrupt = Interrupt.nmi) ∧
    (∀ s : Cpu, s.get_flag StatusRegs.I > 0 → Cpu.trigger_irq s = s) ∧
    (∀ s : Cpu, s.get_flag StatusRegs.I = 0 →
      (Cpu.trigger_irq s).interrupt = Interrupt.irq) ∧
    (∀ s : Cpu, s.stall = 0 → s.interrupt = Interrupt.nmi →
      Cpu.clock s = Cpu.clockExec s.cycle_count
        { Cpu.nmi s with interrupt := Interrupt.none }) ∧
    (∀ s : Cpu, s.stall = 0 → s.interrupt = Interrupt.irq →
      Cpu.clock s = Cpu.clockExec s.cycle_count
        { Cpu.irq s with interrupt := Interrupt.none }) ∧
    (∀ s : Cpu, 3 ≤ s.sp → s.sp < 256 → s.status < 256 →
      ((Cpu.nmi s).pc = wordAt s.mem NMI_ADDR ∧
       (Cpu.nmi s).sp = s.sp - 3 ∧
       (Cpu.nmi s).mem.data (256 + s.sp) = (s.pc >>> 8) % 256 ∧
       (Cpu.nmi s).mem.data (255 + s.sp) = (s.pc &&& 255) % 256 ∧
       (Cpu.nmi s).mem.data (254 + s.sp) = pushedStatus s.status % 256 ∧
       (Cpu.nmi s).get_flag StatusRegs.I = 1 ∧
       (Cpu.nmi s).cycle_count = (s.cycle_count + 7) % U64_MOD) ∧
      ((Cpu.irq s).pc = wordAt s.mem IRQ_ADDR ∧
       (Cpu.irq s).sp = s.sp - 3 ∧
       (Cpu.irq s).mem.data (256 + s.sp) = (s.pc >>> 8) % 256 ∧
       (Cpu.irq s).mem.data (255 + s.sp) = (s.pc &&& 255) % 256 ∧
       (Cpu.irq s).mem.data (254 + s.sp) = pushedStatus s.status % 256 ∧
       (Cpu.irq s).get_flag StatusRegs.I = 1 ∧
       (Cpu.irq s).cycle_count = (s.cycle_count + 7) % U64_MOD) ∧
      (pushedStatus s.status &&& StatusRegs.B = 0 ∧
       pushedStatus s.status &&& StatusRegs.U = StatusRegs.U)) := by
  refine ⟨fun s => rfl, ?_, ?_, ?_, ?_, ?_⟩
  · intro s h
    rw [Cpu.trigger_irq, if_pos h]
  · intro s h
    rw [Cpu.trigger_irq, if_neg (by omega)]
  · intro s hst hi
    rw [Cpu.clock, if_neg (by omega), hi]
  · intro s hst hi
    rw [Cpu.clock, if_neg (by omega), hi]
  · intro s h3 hsp hstl
    exact ⟨Cpu.nmi_spec s h3 hsp hstl, Cpu.irq_spec s h3 hsp hstl,
      pushedStatus_bits s.status hstl⟩

/-- C4 witness: the amended interrupt facts evaluated at a concrete state
(the counterexample state under both I-flag settings). -/
theorem cpu_interrupt_service_witness :
    (Cpu.trigger_irq
      { mem := { data := fun a => if a = 0xFFFA then 0x34 else 0,
                 reads := [] },
        cycle_count := 0, stall := 0, step := 0, pc := 0x8000, sp := 0xFD,
        acc := 0, x := 0, y := 0, status := 0x20, instr := instrAt 0,
        abs_addr := 0, rel_addr := 0, fetched_data := 0,
        interrupt := Interrupt.nmi }).interrupt = Interrupt.irq ∧
    Cpu.trigger_irq
      { mem := { data := fun a => if a = 0xFFFA then 0x34 else 0,
                 reads := [] },
        cycle_count := 0, stall := 0, step := 0, pc := 0x8000, sp := 0xFD,
        acc := 0, x := 0, y := 0, status := 0x24, instr := instrAt 0,
        abs_addr := 0, rel_addr := 0, fetched_data := 0,
        interrupt := Interrupt.nmi } =
      { mem := { data := fun a => if a = 0xFFFA then 0x34 else 0,
                 reads := [] },
        cycle_count := 0, stall := 0, step := 0, pc := 0x8000, sp := 0xFD,
        acc := 0, x := 0, y := 0, status := 0x24, instr := instrAt 0,
        abs_addr := 0, rel_addr := 0, fetched_data := 0,
        interrupt := Interrupt.nmi } ∧
    Cpu.clock
      { mem := { data := fun a => if a = 0xFFFA then 0x34 else 0,
                 reads := [] },
        cycle_count := 0, stall := 0, step := 0, pc := 0x8000, sp := 0xFD,
        acc := 0, x := 0, y := 0, status := 0x20, instr := instrAt 0,
        abs_addr := 0, rel_addr := 0, fetched_data := 0,
        interrupt := Interrupt.nmi } =
      Cpu.clockExec 0
        { Cpu.nmi
          { mem := { data := fun a => if a = 0xFFFA then 0x34 else 0,
                     reads := [] },
            cycle_count := 0, stall := 0, step := 0, pc := 0x8000, sp := 0xFD,
            acc := 0, x := 0, y := 0, status := 0x20, instr := instrAt 0,
            abs_addr := 0, rel_addr := 0, fetched_data := 0,
            interrupt := Interrupt.nmi } with interrupt := Interrupt.none } ∧
    (Cpu.nmi
      { mem := { data := fun a => if a = 0xFFFA then 0x34 else 0,
                 reads := [] },
        cycle_count := 0, stall := 0, step := 0, pc := 0x8000, sp := 0xFD,
        acc := 0, x := 0, y := 0, status := 0x20, instr := instrAt 0,
        abs_addr := 0, rel_addr := 0, fetched_data := 0,
        interrupt := Interrupt.nmi }).pc =
      wordAt { data := fun a => if a = 0xFFFA then 0x34 else 0,
               reads := [] } NMI_ADDR ∧
    (Cpu.irq
      { mem := { data := fun a => if a = 0xFFFA then 0x34 else 0,
                 reads := [] },
        cycle_count := 0, stall := 0, step := 0, pc := 0x8000, sp := 0xFD,
        acc := 0, x := 0, y := 0, status := 0x20, instr := instrAt 0,
        abs_addr := 0, rel_addr := 0, fetched_data := 0,
        interrupt := Interrupt.nmi }).cycle_count = (0 + 7) % U64_MOD := by
  refine ⟨cpu_interrupt_service.2.2.1 _ (by decide),
    cpu_interrupt_service.2.1 _ (by decide),
    cpu_interrupt_service.2.2.2.1 _ rfl rfl,
    (cpu_interrupt_service.2.2.2.2.2 _ (by decide) (by decide)
      (by decide)).1.1,
    (cpu_interrupt_service.2.2.2.2.2 _ (by decide) (by decide)
      (by decide)).2.1.2.2.2.2.2.2⟩

/-! ## Page-cross bookkeeping (C5) -/

/-- The dummy read the indexed modes may issue does not move the resolved
operand address. -/
theorem Cpu.dummy_read_abs (c : Prop) [Decidable c] (s2 : Cpu) (A : Nat) :
    (if c then (Cpu.read s2 A).2 else s2).abs_addr = s2.abs_addr := by
  split <;> rfl

theorem Cpu.readw_snd_x (s : Cpu) (a : Nat) :
    ((Cpu.readw s a).2).x = s.x := rfl

theorem Cpu.readw_snd_y (s : Cpu) (a : Nat) :
    ((Cpu.readw s a).2).y = s.y := rfl

theorem Cpu.read_snd_y (s : Cpu) (a : Nat) :
    ((Cpu.read s a).2).y = s.y := rfl

theorem Cpu.readw_zp_snd_y (s : Cpu) (a : Nat) :
    ((Cpu.readw_zp s a).2).y = s.y := rfl

theorem Cpu.readw_zp_fst (s : Cpu) (a : Nat) :
    (Cpu.readw_zp s a).1 = wordAtZp s.mem a := by
  have h1 : (a + 1) % 256 % 65536 = (a + 1) % 256 :=
    Nat.mod_eq_of_lt (lt_of_lt_of_le (Nat.mod_lt _ (by norm_num))
      (by norm_num))
  have h2 : a % 256 % 65536 = a % 256 :=
    Nat.mod_eq_of_lt (lt_of_lt_of_le (Nat.mod_lt _ (by norm_num))
      (by norm_num))
  show (s.mem.data ((a + 1) % 256 % 65536) % 256) <<< 8 |||
      (s.mem.data (a % 256 % 65536) % 256) = wordAtZp s.mem a
  rw [h1, h2]
  rfl

theorem wordAtZp_read_mem (s : Cpu) (b a : Nat) :
    wordAtZp ((Cpu.read s b).2).mem a = wordAtZp s.mem a := rfl

theorem Cpu.abx_fst (t : Cpu) :
    (Cpu.abx t).1 =
      if Cpu.pages_differ (wordAt t.mem t.pc)
        ((wordAt t.mem t.pc + t.x) % 65536) then 1 else 0 := by
  simp only [Cpu.abx, Cpu.dummy_read_abs, Cpu.readw_fst, Cpu.readw_snd_x]
  split <;> rename_i h <;> simp [h]

theorem Cpu.aby_fst (t : Cpu) :
    (Cpu.aby t).1 =
      if Cpu.pages_differ (wordAt t.mem t.pc)
        ((wordAt t.mem t.pc + t.y) % 65536) then 1 else 0 := by
  simp only [Cpu.aby]
  cases hop : ((Cpu.readw t t.pc).2).instr.op <;>
    simp only [Cpu.dummy_read_abs, Cpu.readw_fst, Cpu.readw_snd_y] <;>
    (split <;> rename_i h <;> simp [h])

theorem Cpu.idy_fst (t : Cpu) :
    (Cpu.idy t).1 =
      if Cpu.pages_differ
        (wordAtZp t.mem (t.mem.data (t.pc % 65536) % 256))
        ((wordAtZp t.mem (t.mem.data (t.pc % 65536) % 256) + t.y) % 65536)
      then 1 else 0 := by
  simp only [Cpu.idy, Cpu.dummy_read_abs, Cpu.readw_zp_fst,
    wordAtZp_read_mem, Cpu.read_fst, Cpu.readw_zp_snd_y, Cpu.read_snd_y]
  split <;> rename_i h <;> simp [h]

/-- Every read operation the page-cross accounting cares about returns 1
(its half of the extra-cycle and) and leaves the cycle counter alone. IGN
needs to know its opcode is one of the six ABX read-NOP entries. -/
theorem Cpu.runOp_read_fst (o : Operation) (u : Cpu)
    (ho : isReadOp o = true)
    (hign : o = Operation.IGN →
      (u.instr.opcode = 0x1C ∨ u.instr.opcode = 0x3C ∨
       u.instr.opcode = 0x5C ∨ u.instr.opcode = 0x7C ∨
       u.instr.opcode = 0xDC ∨ u.instr.opcode = 0xFC)) :
    ∀ p, Cpu.runOp o u = some p →
      p.1 = 1 ∧ p.2.cycle_count = u.cycle_count := by
  cases o <;> intro p hp <;>
    simp only [Cpu.runOp, Option.some.injEq] at hp
  case ADC =>
    subst hp
    exact ⟨rfl, Cpu.adc_cycle2 u⟩
  case AND =>
    subst hp
    exact ⟨rfl, Cpu.andOp_cycle2 u⟩
  case ASL => exact absurd ho (by decide)
  case BCC => exact absurd ho (by decide)
  case BCS => exact absurd ho (by decide)
  case BEQ => exact absurd ho (by decide)
  case BIT => exact absurd ho (by decide)
  case BMI => exact absurd ho (by decide)
  case BNE => exact absurd ho (by decide)
  case BPL => exact absurd ho (by decide)
  case BRK => exact absurd ho (by decide)
  case BVC => exact absurd ho (by decide)
  case BVS => exact absurd ho (by decide)
  case CLC => exact absurd ho (by decide)
  case CLD => exact absurd ho (by decide)
  case CLI => exact absurd ho (by decide)
  case CLV => exact absurd ho (by decide)
  case CMP =>
    subst hp
    exact ⟨rfl, Cpu.cmp_cycle2 u⟩
  case CPX => exact absurd ho (by decide)
  case CPY => exact absurd ho (by decide)
  case DEC => exact absurd ho (by decide)
  case DEX => exact absurd ho (by decide)
  case DEY => exact absurd ho (by decide)
  case EOR =>
    subst hp
    exact ⟨rfl, Cpu.eor_cycle2 u⟩
  case INC => exact absurd ho (by decide)
  case INX => exact absurd ho (by decide)
  case INY => exact absurd ho (by decide)
  case JMP => exact absurd ho (by decide)
  case JSR => exact absurd ho (by decide)
  case LDA =>
    subst hp
    exact ⟨rfl, Cpu.lda_cycle2 u⟩
  case LDX =>
    subst hp
    exact ⟨rfl, Cpu.ldx_cycle2 u⟩
  case LDY =>
    subst hp
    exact ⟨rfl, Cpu.ldy_cycle2 u⟩
  case LSR => exact absurd ho (by decide)
  case NOP => exact absurd ho (by decide)
  case SKB => exact absurd ho (by decide)
  case IGN =>
    subst hp
    refine ⟨?_, Cpu.ign_cycle2 u⟩
    rcases hign rfl with h | h | h | h | h | h <;>
      · simp only [Cpu.ign]
        rw [Cpu.fetch_data_instr, h]
  case ORA =>
    subst hp
    exact ⟨rfl, Cpu.ora_cycle2 u⟩
  case PHA => exact absurd ho (by decide)
  case PHP => exact absurd ho (by decide)
  case PLA => exact absurd ho (by decide)
  case PLP => exact absurd ho (by decide)
  case ROL => exact absurd ho (by decide)
  case ROR => exact absurd ho (by decide)
  case RTI => exact absurd ho (by decide)
  case RTS => exact absurd ho (by decide)
  case SBC =>
    subst hp
    exact ⟨rfl, Cpu.sbc_cycle2 u⟩
  case SEC => exact absurd ho (by decide)
  case SED => exact absurd ho (by decide)
  case SEI => exact absurd ho (by decide)
  case STA => exact absurd ho (by decide)
  case STX => exact absurd ho (by decide)
  case STY => exact absurd ho (by decide)
  case TAX => exact absurd ho (by decide)
  case TAY => exact absurd ho (by decide)
  case TSX => exact absurd ho (by decide)
  case TXA => exact absurd ho (by decide)
  case TXS => exact absurd ho (by decide)
  case TYA => exact absurd ho (by decide)
  case ISB => exact absurd ho (by decide)
  case DCP => exact absurd ho (by decide)
  case AXS => exact absurd ho (by decide)
  case LAS =>
    subst hp
    exact ⟨rfl, Cpu.las_cycle2 u⟩
  case LAX =>
    subst hp
    exact ⟨rfl, Cpu.lax_cycle2 u⟩
  case AHX => exact absurd ho (by decide)
  case SAX => exact absurd ho (by decide)
  case XAA => exact absurd ho (by decide)
  case SHX => exact absurd ho (by decide)
  case RRA => exact absurd ho (by decide)
  case TAS => exact absurd ho (by decide)
  case SHY => exact absurd ho (by decide)
  case ARR => exact absurd ho (by decide)
  case SRE => exact absurd ho (by decide)
  case ALR => exact absurd ho (by decide)
  case RLA => exact absurd ho (by decide)
  case ANC => exact absurd ho (by decide)
  case SLO => exact absurd ho (by decide)
  case XXX => simp [Cpu.xxx] at hp

/-- The store operations return 0, so the mode half of the page-cross pair
is masked off, and they leave the cycle counter alone. -/
theorem Cpu.runOp_store_fst (o : Operation) (u : Cpu)
    (ho : isStoreOp o = true) :
    ∀ p, Cpu.runOp o u = some p →
      p.1 = 0 ∧ p.2.cycle_count = u.cycle_count := by
  cases o <;> intro p hp <;>
    simp only [Cpu.runOp, Option.some.injEq] at hp
  case ADC => exact absurd ho (by decide)
  case AND => exact absurd ho (by decide)
  case ASL => exact absurd ho (by decide)
  case BCC => exact absurd ho (by decide)
  case BCS => exact absurd ho (by decide)
  case BEQ => exact absurd ho (by decide)
  case BIT => exact absurd ho (by decide)
  case BMI => exact absurd ho (by decide)
  case BNE => exact absurd ho (by decide)
  case BPL => exact absurd ho (by decide)
  case BRK => exact absurd ho (by decide)
  case BVC => exact absurd ho (by decide)
  case BVS => exact absurd ho (by decide)
  case CLC => exact absurd ho (by decide)
  case CLD => exact absurd ho (by decide)
  case CLI => exact absurd ho (by decide)
  case CLV => exact absurd ho (by decide)
  case CMP => exact absurd ho (by decide)
  case CPX => exact absurd ho (by decide)
  case CPY => exact absurd ho (by decide)
  case DEC => exact absurd ho (by decide)
  case DEX => exact absurd ho (by decide)
  case DEY => exact absurd ho (by decide)
  case EOR => exact absurd ho (by decide)
  case INC => exact absurd ho (by decide)
  case INX => exact absurd ho (by decide)
  case INY => exact absurd ho (by decide)
  case JMP => exact absurd ho (by decide)
  case JSR => exact absurd ho (by decide)
  case LDA => exact absurd ho (by decide)
  case LDX => exact absurd ho (by decide)
  case LDY => exact absurd ho (by decide)
  case LSR => exact absurd ho (by decide)
  case NOP => exact absurd ho (by decide)
  case SKB => exact absurd ho (by decide)
  case IGN => exact absurd ho (by decide)
  case ORA => exact absurd ho (by decide)
  case PHA => exact absurd ho (by decide)
  case PHP => exact absurd ho (by decide)
  case PLA => exact absurd ho (by decide)
  case PLP => exact absurd ho (by decide)
  case ROL => exact absurd ho (by decide)
  case ROR => exact absurd ho (by decide)
  case RTI => exact absurd ho (by decide)
  case RTS => exact absurd ho (by decide)
  case SBC => exact absurd ho (by decide)
  case SEC => exact absurd ho (by decide)
  case SED => exact absurd ho (by decide)
  case SEI => exact absurd ho (by decide)
  case STA =>
    subst hp
    exact ⟨rfl, Cpu.sta_cycle2 u⟩
  case STX =>
    subst hp
    exact ⟨rfl, Cpu.stx_cycle2 u⟩
  case STY =>
    subst hp
    exact ⟨rfl, Cpu.sty_cycle2 u⟩
  case TAX => exact absurd ho (by decide)
  case TAY => exact absurd ho (by decide)
  case TSX => exact absurd ho (by decide)
  case TXA => exact absurd ho (by decide)
  case TXS => exact absurd ho (by decide)
  case TYA => exact absurd ho (by decide)
  case ISB => exact absurd ho (by decide)
  case DCP => exact absurd ho (by decide)
  case AXS => exact absurd ho (by decide)
  case LAS => exact absurd ho (by decide)
  case LAX => exact absurd ho (by decide)
  case AHX => exact absurd ho (by decide)
  case SAX => exact absurd ho (by decide)
  case XAA => exact absurd ho (by decide)
  case SHX => exact absurd ho (by decide)
  case RRA => exact absurd ho (by decide)
  case TAS => exact absurd ho (by decide)
  case SHY => exact absurd ho (by decide)
  case ARR => exact absurd ho (by decide)
  case SRE => exact absurd ho (by decide)
  case ALR => exact absurd ho (by decide)
  case RLA => exact absurd ho (by decide)
  case ANC => exact absurd ho (by decide)
  case SLO => exact absurd ho (by decide)
  case XXX => simp [Cpu.xxx] at hp

set_option maxRecDepth 4096 in
theorem INSTRUCTIONS_ign_facts : ∀ i ∈ INSTRUCTIONS,
    i.op = Operation.IGN →
      (i.addr_mode = AddrMode.ABX →
        (i.opcode = 0x1C ∨ i.opcode = 0x3C ∨ i.opcode = 0x5C ∨
         i.opcode = 0x7C ∨ i.opcode = 0xDC ∨ i.opcode = 0xFC)) ∧
      i.addr_mode ≠ AddrMode.ABY ∧ i.addr_mode ≠ AddrMode.IDY := by
  decide

theorem getD_mem (l : List Instr) :
    ∀ (k : Nat) (d : Instr), k < l.length → l.getD k d ∈ l := by
  induction l with
  | nil =>
      intro k d hk
      exact absurd hk (by simp)
  | cons a t ih =>
      intro k d hk
      cases k with
      | zero =>
          rw [List.getD_cons_zero]
          exact List.mem_cons_self a t
      | succ k =>
          rw [List.getD_cons_succ]
          exact List.mem_cons_of_mem a
            (ih k d (by simpa using Nat.lt_of_succ_lt_succ hk))

set_option maxRecDepth 4096 in
theorem instrAt_mem (k : Nat) (hk : k < 256) : instrAt k ∈ INSTRUCTIONS :=
  getD_mem INSTRUCTIONS k Instr.default hk

/-! ## C5: page-cross penalties and the store dummy read -/

/-- C5 counterexample: a store does not always perform the documented dummy
read. STA $01FF,Y with Y = 1 crosses a page (effective address $0200): the
instruction still takes its base 5 cycles (no penalty, as claimed), the
store lands at $0200, but the bus read log after the instruction is exactly
[0, 1, 2] (opcode and operand fetches): the dummy read at
(base AND FF00) OR (effective AND 00FF) = $0100 never happens, because the
source only issues it for stores when the effective address is $2007. -/
theorem store_no_dummy_read_counterexample :
    (Cpu.clock
      { mem := { data := fun a =>
          if a = 0 then 0x99 else if a = 1 then 0xFF
          else if a = 2 then 0x01 else 0, reads := [] },
        cycle_count := 0, stall := 0, step := 0, pc := 0, sp := 0xFD,
        acc := 0xAB, x := 0, y := 1, status := 0x24, instr := instrAt 0,
        abs_addr := 0, rel_addr := 0, fetched_data := 0,
        interrupt := Interrupt.none }).map (fun p => p.1) = some 5 ∧
    (Cpu.clock
      { mem := { data := fun a =>
          if a = 0 then 0x99 else if a = 1 then 0xFF
          else if a = 2 then 0x01 else 0, reads := [] },
        cycle_count := 0, stall := 0, step := 0, pc := 0, sp := 0xFD,
        acc := 0xAB, x := 0, y := 1, status := 0x24, instr := instrAt 0,
        abs_addr := 0, rel_addr := 0, fetched_data := 0,
        interrupt := Interrupt.none }).map
      (fun p => p.2.mem.reads) = some [0, 1, 2] ∧
    (Cpu.clock
      { mem := { data := fun a =>
          if a = 0 then 0x99 else if a = 1 then 0xFF
          else if a = 2 then 0x01 else 0, reads := [] },
        cycle_count := 0, stall := 0, step := 0, pc := 0, sp := 0xFD,
        acc := 0xAB, x := 0, y := 1, status := 0x24, instr := instrAt 0,
        abs_addr := 0, rel_addr := 0, fetched_data := 0,
        interrupt := Interrupt.none }).map
      (fun p => (decide (0x0100 ∈ p.2.mem.reads),
                 p.2.mem.data 0x0200)) = some (false, 0xAB) ∧
    operandCross
      { mem := { data := fun a =>
          if a = 0 then 0x99 else if a = 1 then 0xFF
          else if a = 2 then 0x01 else 0, reads := [] },
        cycle_count := 0, stall := 0, step := 0, pc := 0, sp := 0xFD,
        acc := 0xAB, x := 0, y := 1, status := 0x24, instr := instrAt 0,
        abs_addr := 0, rel_addr := 0, fetched_data := 0,
        interrupt := Interrupt.none } AddrMode.ABY = 1 ∧
    (instrAt 0x99).op = Operation.STA ∧
    (instrAt 0x99).addr_mode = AddrMode.ABY ∧
    (instrAt 0x99).cycles = 5 := by
  refine ⟨rfl, rfl, rfl, rfl, by decide, by decide, by decide⟩

/-- C5 (amended): for an instruction decoded from the bus with an ABX, ABY
or IDY addressing mode, executed by Cpu clock with no stall or pending
interrupt: a read instruction takes its base cycles plus exactly one extra
cycle when the indexed operand crosses a page (and no extra cycle
otherwise), and a store instruction (STA, STX, STY) always takes exactly its
base cycles, page cross or not. The documented dummy read claim does not
hold in general (see the counterexample): the source issues it for ABX and
IDY only on a carry out of the low address byte, and for stores in ABY only
at effective address $2007. -/
theorem page_cross_penalty_corrected :
    ∀ (s : Cpu) (i : Instr) (p : Nat × Cpu),
      s.stall = 0 → s.interrupt = Interrupt.none →
      s.cycle_count + 12 < U64_MOD →
      i = instrAt (s.mem.data (s.pc % 65536) % 256) →
      Cpu.clock s = some p →
      (i.addr_mode = AddrMode.ABX ∨ i.addr_mode = AddrMode.ABY ∨
        i.addr_mode = AddrMode.IDY) →
      (isReadOp i.op = true →
        p.1 = i.cycles + operandCross s i.addr_mode) ∧
      (isStoreOp i.op = true → p.1 = i.cycles) := by
  intro s i p hst hint hb hi hclk hmode
  have hclk2 : Cpu.clockExec s.cycle_count
      { s with interrupt := Interrupt.none } = some p := by
    rw [Cpu.clock, if_neg (by omega), hint] at hclk
    exact hclk
  rw [Cpu.clockExec] at hclk2
  split at hclk2
  next mc u hmodeEq =>
    split at hclk2
    · exact absurd hclk2 (by simp)
    · next oc w heq =>
      cases hclk2
      have hk : s.mem.data (s.pc % 65536) % 256 < 256 :=
        Nat.mod_lt _ (by norm_num)
      have hdec_i : (Cpu.decode { s with interrupt := Interrupt.none }).instr =
          i := by
        rw [Cpu.decode_instr, hi]
      have humode : u = (Cpu.runMode
          (Cpu.decode { s with interrupt := Interrupt.none }).instr.addr_mode
          (Cpu.decode { s with interrupt := Interrupt.none })).2 := by
        rw [hmodeEq]
      have hmcval : mc = (Cpu.runMode
          (Cpu.decode { s with interrupt := Interrupt.none }).instr.addr_mode
          (Cpu.decode { s with interrupt := Interrupt.none })).1 := by
        rw [hmodeEq]
      have hui : u.instr = i := by
        rw [humode, Cpu.runMode_instr, hdec_i]
      have huc : u.cycle_count = s.cycle_count := by
        rw [humode, Cpu.runMode_cycle_count, Cpu.decode_cycle_count]
      have hmc1 : mc ≤ 1 := by
        rw [hmcval]
        exact Cpu.runMode_fst_le _ _
      have hcyc : i.cycles ≤ 8 := by
        rw [hi]
        exact instrAt_cycles_le _
      rw [hui] at heq
      rw [hdec_i] at hmcval
      have hwi : w.instr = i := by
        have hw := Cpu.runOp_instr i.op u (oc, w) heq
        rw [hui] at hw
        exact hw
      have hmcx : mc = operandCross s i.addr_mode := by
        rcases hmode with hm | hm | hm
        · rw [hm] at hmcval
          rw [hm, hmcval]
          simp only [Cpu.runMode]
          rw [Cpu.abx_fst]
          rfl
        · rw [hm] at hmcval
          rw [hm, hmcval]
          simp only [Cpu.runMode]
          rw [Cpu.aby_fst]
          rfl
        · rw [hm] at hmcval
          rw [hm, hmcval]
          simp only [Cpu.runMode]
          rw [Cpu.idy_fst]
          have hzz : (Cpu.decode { s with interrupt := Interrupt.none }).pc %
              65536 = (s.pc + 1) % 65536 :=
            Nat.mod_mod_of_dvd _ dvd_rfl
          rw [hzz]
          rfl
      constructor
      · intro hro
        have hignh : i.op = Operation.IGN →
            (u.instr.opcode = 0x1C ∨ u.instr.opcode = 0x3C ∨
             u.instr.opcode = 0x5C ∨ u.instr.opcode = 0x7C ∨
             u.instr.opcode = 0xDC ∨ u.instr.opcode = 0xFC) := by
          intro hIGN
          have hfacts := INSTRUCTIONS_ign_facts
            (instrAt (s.mem.data (s.pc % 65536) % 256)) (instrAt_mem _ hk)
            (by rw [← hi]; exact hIGN)
          rw [← hi] at hfacts
          rcases hmode with hm | hm | hm
          · rw [hui]
            exact hfacts.1 hm
          · exact absurd hm hfacts.2.1
          · exact absurd hm hfacts.2.2
        obtain ⟨hoc, hwc⟩ := Cpu.runOp_read_fst i.op u hro hignh (oc, w) heq
        have hwc2 : w.cycle_count = s.cycle_count := by rw [hwc, huc]
        dsimp only at hoc hwc ⊢
        rw [hwi, hwc2, hoc]
        have hand1 : mc &&& 1 = mc := by
          rw [Nat.and_one_is_mod]
          exact Nat.mod_eq_of_lt (by omega)
        rw [hand1]
        rw [Nat.mod_eq_of_lt (show s.cycle_count + i.cycles + mc < U64_MOD
          by omega)]
        rw [Nat.mod_eq_of_lt (show s.cycle_count < U64_MOD by omega)]
        rw [show s.cycle_count + i.cycles + mc + U64_MOD - s.cycle_count =
          i.cycles + mc + U64_MOD by omega]
        rw [Nat.add_mod_right]
        rw [Nat.mod_eq_of_lt (show i.cycles + mc < U64_MOD by omega)]
        rw [hmcx]
      · intro hso
        obtain ⟨hoc, hwc⟩ := Cpu.runOp_store_fst i.op u hso (oc, w) heq
        have hwc2 : w.cycle_count = s.cycle_count := by rw [hwc, huc]
        dsimp only at hoc hwc ⊢
        rw [hwi, hwc2, hoc]
        rw [Nat.and_zero]
        rw [Nat.mod_eq_of_lt (show s.cycle_count + i.cycles + 0 < U64_MOD
          by omega)]
        rw [Nat.mod_eq_of_lt (show s.cycle_count < U64_MOD by omega)]
        rw [show s.cycle_count + i.cycles + 0 + U64_MOD - s.cycle_count =
          i.cycles + U64_MOD by omega]
        rw [Nat.add_mod_right]
        rw [Nat.mod_eq_of_lt (show i.cycles < U64_MOD by omega)]

/-- C5 witness: the amended penalty facts evaluated at concrete page
crossing instructions (LDA $01FF,Y and STA $01FF,Y with Y = 1). -/
theorem page_cross_penalty_witness :
    ((Cpu.clock
      { mem := { data := fun a =>
          if a = 0 then 0xB9 else if a = 1 then 0xFF
          else if a = 2 then 0x01 else 0, reads := [] },
        cycle_count := 0, stall := 0, step := 0, pc := 0, sp := 0xFD,
        acc := 0xAB, x := 0, y := 1, status := 0x24, instr := instrAt 0,
        abs_addr := 0, rel_addr := 0, fetched_data := 0,
        interrupt := Interrupt.none }).getD
        (0, Cpu.init { data := fun _ => 0, reads := [] })).1 =
      (instrAt 0xB9).cycles + operandCross
        { mem := { data := fun a =>
            if a = 0 then 0xB9 else if a = 1 then 0xFF
            else if a = 2 then 0x01 else 0, reads := [] },
          cycle_count := 0, stall := 0, step := 0, pc := 0, sp := 0xFD,
          acc := 0xAB, x := 0, y := 1, status := 0x24, instr := instrAt 0,
          abs_addr := 0, rel_addr := 0, fetched_data := 0,
          interrupt := Interrupt.none } (instrAt 0xB9).addr_mode ∧
    ((Cpu.clock
      { mem := { data := fun a =>
          if a = 0 then 0x99 else if a = 1 then 0xFF
          else if a = 2 then 0x01 else 0, reads := [] },
        cycle_count := 0, stall := 0, step := 0, pc := 0, sp := 0xFD,
        acc := 0xAB, x := 0, y := 1, status := 0x24, instr := instrAt 0,
        abs_addr := 0, rel_addr := 0, fetched_data := 0,
        interrupt := Interrupt.none }).getD
        (0, Cpu.init { data := fun _ => 0, reads := [] })).1 =
      (instrAt 0x99).cycles := by
  constructor
  · exact (page_cross_penalty_corrected
      { mem := { data := fun a =>
          if a = 0 then 0xB9 else if a = 1 then 0xFF
          else if a = 2 then 0x01 else 0, reads := [] },
        cycle_count := 0, stall := 0, step := 0, pc := 0, sp := 0xFD,
        acc := 0xAB, x := 0, y := 1, status := 0x24, instr := instrAt 0,
        abs_addr := 0, rel_addr := 0, fetched_data := 0,
        interrupt := Interrupt.none }
      (instrAt 0xB9) _ rfl rfl (by decide)
      rfl rfl (Or.inr (Or.inl (by decide)))).1 (by decide)
  · exact (page_cross_penalty_corrected
      { mem := { data := fun a =>
          if a = 0 then 0x99 else if a = 1 then 0xFF
          else if a = 2 then 0x01 else 0, reads := [] },
        cycle_count := 0, stall := 0, step := 0, pc := 0, sp := 0xFD,
        acc := 0xAB, x := 0, y := 1, status := 0x24, instr := instrAt 0,
        abs_addr := 0, rel_addr := 0, fetched_data := 0,
        interrupt := Interrupt.none }
      (instrAt 0x99) _ rfl rfl (by decide)
      rfl rfl (Or.inr (Or.inl (by decide)))).2 (by decide)

/-- C8 witness: the $4017 write facts evaluated at the power-on Apu with
value 0x80 (bit 7 set), and the step-5 IRQ fact pushed through a concrete
frame counter step. -/
theorem apu_write_4017_witness :
    (Apu.writeReg Apu.new 0x4017 0x80).isSome = true ∧
    ((Apu.writeReg Apu.new 0x4017 0x80).getD Apu.new).frame.step = 1 ∧
    ((Apu.writeReg Apu.new 0x4017 0x80).getD Apu.new).noise =
      Apu.new.noise.clock_quarter_frame.clock_half_frame ∧
    ((Apu.clock_frame_counter
        { Apu.new with
          frame := { step := 1, counter := 0, mode := FCMode.step5 } }).getD
      { Apu.new with
        frame := { step := 1, counter := 0,
                   mode := FCMode.step5 } }).irq_pending =
      ({ Apu.new with
         frame := { step := 1, counter := 0,
                    mode := FCMode.step5 } } : Apu).irq_pending := by
  refine ⟨apu_write_4017_resets_and_step5_never_irq.1 Apu.new 0x80,
    (apu_write_4017_resets_and_step5_never_irq.2.1 Apu.new 0x80 _ rfl).1,
    ((apu_write_4017_resets_and_step5_never_irq.2.1 Apu.new 0x80 _
        rfl).2.1 (by decide)).2.2.2,
    apu_write_4017_resets_and_step5_never_irq.2.2 _ _ rfl rfl⟩

end Nes
